import Mathlib

/-!
# JeVois core: a shallow embedding of the capture, output and orchestration engines

The definitions below follow `src/jevois/Core/CameraDevice.C`, `Camera.C`, `Gadget.C`,
`Engine.C` and `VideoMapping.C`.  Every member function becomes a function from the state of its object
to a result that carries the state left behind, the calls that were issued, and either a
return value or the exception that was thrown.  The answers of the kernel drivers, of the
loaded module and of the other collaborators, and the interleaving of other threads, are
explicit arguments.

Locks are assumed to be acquired without timing out, except in the models of the poll
threads that carry their lock operations (`runLocked`, `queueDoneLocked`), where a timed
lock may fail.

Values of type `float` are carried as the rationals that they denote.  Where the source
computes with them (`uvcToFps`, `fpsToUvc`, the comparison of frame rates in
`getVideoMappingIdx`), each operation is followed by rounding to the nearest single-precision
number, ties to even (`f32`).
-/

namespace jevois

/-! ## Pixel formats (fourcc codes of `videodev2.h`) -/

/-- The fourcc code of packed YUV 4:2:2, characters Y U Y V. -/
def V4L2_PIX_FMT_YUYV : Nat := 0x56595559

/-- The fourcc code of 8-bit greyscale, characters G R E Y. -/
def V4L2_PIX_FMT_GREY : Nat := 0x59455247

/-- The fourcc code of 8-bit raw Bayer RGGB, characters R G G B. -/
def V4L2_PIX_FMT_SRGGB8 : Nat := 0x42474752

/-- The fourcc code of 16-bit RGB 5-6-5, characters R G B P. -/
def V4L2_PIX_FMT_RGB565 : Nat := 0x50424752

/-- The fourcc code of motion JPEG, characters M J P G. -/
def V4L2_PIX_FMT_MJPEG : Nat := 0x47504A4D

/-- The fourcc code of 24-bit BGR, characters B G R 3. -/
def V4L2_PIX_FMT_BGR24 : Nat := 0x33524742

/-! ## Data model -/

/-- A reference to a `jevois::VideoBuf`: either buffer `index` of the capture pool, or the
heap buffer that `setFormat` allocates for the Bayer/grey to YUYV conversion image. -/
inductive VideoBufRef where
  | pool (index : Nat)
  | heap
  deriving DecidableEq, Repr

/-- Modelled from the spec: a Frame Buffer handle (`jevois::RawImage`, declared outside these
sources): metadata plus an optional buffer reference and a buffer index.  The image is valid
exactly when a buffer is attached.  Frame rates are floats in the source; the model carries
a float as the rational that it denotes, and the functions that compute with frame rates
round their results to single precision. -/
structure RawImage where
  width : Nat
  height : Nat
  fmt : Nat
  fps : ℚ
  buf : Option VideoBufRef
  bufindex : Nat
  deriving DecidableEq, Repr

/-- Modelled from the spec: `RawImage::valid()`, true when a buffer is attached. -/
def RawImage.valid (img : RawImage) : Bool := img.buf.isSome

/-- Modelled from the spec: `RawImage::invalidate()`, which marks the image empty by dropping
the buffer reference and clearing the metadata; the buffer index is left as it is. -/
def RawImage.invalidate (img : RawImage) : RawImage :=
  { img with width := 0, height := 0, fmt := 0, fps := 0, buf := none }

/-- A default-constructed `RawImage`: no buffer attached. -/
def RawImage.empty : RawImage :=
  { width := 0, height := 0, fmt := 0, fps := 0, buf := none, bufindex := 0 }

/-- The calls that reach the kernel driver or the buffer pool. -/
inductive DevCall where
  | reqbufs (n : Nat)
  | release
  | qbuf (index : Nat)
  | dqbuf
  | streamon
  | streamoff
  | select
  | gfmt
  | sfmt (pixelformat width height : Nat)
  | cropcap
  | scropDefault
  | scrop (left top width height : Nat)
  | sparm
  | sctrl (id : Nat) (value : Int)
  deriving DecidableEq, Repr

/-- Modelled from the spec: the Buffer Pool (`jevois::VideoBuffers`, whose implementation file
is outside these sources): `size` buffers were allocated and `nqueued` of them are currently
available to the device.  Whether the driver accepts an enqueue is not modelled; the callers
in `run` and `streamOff` swallow such refusals. -/
structure VideoBuffers where
  size : Nat
  nqueued : Nat
  deriving DecidableEq, Repr

/-- Modelled from the spec: `VideoBuffers::qbuf(index)` hands one buffer to the device. -/
def VideoBuffers.qbuf (b : VideoBuffers) (_index : Nat) : VideoBuffers :=
  { b with nqueued := b.nqueued + 1 }

/-- Modelled from the spec: `VideoBuffers::dqbuf` takes one filled buffer back from the
device. -/
def VideoBuffers.dqbuf (b : VideoBuffers) : VideoBuffers :=
  { b with nqueued := b.nqueued - 1 }

/-- Modelled from the spec: the indices that `VideoBuffers::qbufallbutone(keep)` enqueues,
every buffer of the pool other than `keep`, in index order. -/
def VideoBuffers.allButOne (b : VideoBuffers) (keep : Nat) : List Nat :=
  (List.range b.size).filter (fun i => i != keep)

/-- Modelled from the spec: `VideoBuffers::qbufallbutone(keep)`, which re-queues all buffers
but `keep`. -/
def VideoBuffers.qbufallbutone (b : VideoBuffers) (keep : Nat) : VideoBuffers :=
  (b.allButOne keep).foldl VideoBuffers.qbuf b

/-- Modelled from the spec: `VideoBuffers::qbufall()`, which enqueues every buffer. -/
def VideoBuffers.qbufall (b : VideoBuffers) : VideoBuffers :=
  (List.range b.size).foldl VideoBuffers.qbuf b

/-- The part of `struct v4l2_format` that `CameraDevice` reads: `fmt.pix.width`,
`fmt.pix.height` and `fmt.pix.pixelformat`.  The multiplane view `fmt.pix_mp` of the union
starts with the same three fields, so one record serves both. -/
structure V4L2Format where
  width : Nat
  height : Nat
  pixelformat : Nat
  deriving DecidableEq, Repr

/-- The data members of `jevois::CameraDevice` (file descriptor and device name left out:
they never change after construction). -/
structure CameraDevice where
  itsNbufs : Nat
  itsBuffers : Option VideoBuffers
  itsStreaming : Bool
  itsFormatOk : Bool
  itsRunning : Bool
  itsMplane : Bool
  itsFormat : V4L2Format
  itsFps : ℚ
  itsOutputImage : RawImage
  itsConvertedOutputImage : RawImage
  itsDoneIdx : List Nat
  deriving DecidableEq, Repr

/-- The exceptions thrown by the member functions. -/
inductive Error where
  | timeoutWaitingForFrame
  | notStreaming
  | cannotConvert
  | doneRejected
  | noValidFormat
  | divisionByZero
  | ioctlFailed
  | couldNotSetFormat
  | formatNotAccepted
  | unsupportedPixelFormat
  | selectError
  | deviceError
  | indexOutOfRange
  | nullBuffers
  | noVideoMapping
  | massStorageMode
  | deviceFailed
  | unsupportedControl
  | badDataLength
  | moduleException (what : String)
  | pythonException (what : String)
  | unknownException
  | giveUpWaiting
  | outOfBounds
  | invalidArgument
  | outOfRange
  | commandError (what : String)
  | rangeError
  | lockTimeout
  deriving DecidableEq, Repr

/-- Either a returned value or a thrown exception. -/
inductive Outcome (α : Type) where
  | ok (value : α)
  | threw (e : Error)
  deriving DecidableEq, Repr

/-- True when the call returned normally. -/
def Outcome.isOk {α : Type} : Outcome α → Bool
  | .ok _ => true
  | .threw _ => false

/-- What a member function leaves behind: the state, the device calls it issued in
order, and its outcome. -/
structure Result (α : Type) where
  state : CameraDevice
  calls : List DevCall
  ret : Outcome α
  deriving DecidableEq, Repr

/-- The state right after the constructor (lines 76-78): no buffers, not streaming, no valid
format. -/
def CameraDevice.init (nbufs : Nat) (mplane : Bool) : CameraDevice :=
  { itsNbufs := nbufs, itsBuffers := none, itsStreaming := false, itsFormatOk := false,
    itsRunning := false, itsMplane := mplane,
    itsFormat := { width := 0, height := 0, pixelformat := 0 }, itsFps := 0,
    itsOutputImage := RawImage.empty, itsConvertedOutputImage := RawImage.empty,
    itsDoneIdx := [] }

/-! ## abortStream, streamOff (lines 365-415) -/

/-- The member function `CameraDevice::abortStream` (lines 365-374): store false into the
streaming flag, then notify the condition variable (which changes no data). -/
def abortStream (s : CameraDevice) : Result Unit :=
  { state := { s with itsStreaming := false }, calls := [], ret := .ok () }

/-- The member function `CameraDevice::streamOff` (lines 377-415).  Exceptions of the
re-queue and of the stream-off ioctl are caught in the source, and deleting the pool is a
destructor call, so nothing is thrown. -/
def streamOff (s : CameraDevice) : Result Unit :=
  let s1 := (abortStream s).state
  let s2 := { s1 with itsOutputImage := s1.itsOutputImage.invalidate }
  let requeue : List DevCall × Option VideoBuffers :=
    match s2.itsBuffers with
    | some b => (s2.itsDoneIdx.map DevCall.qbuf, some (s2.itsDoneIdx.foldl VideoBuffers.qbuf b))
    | none => ([], none)
  let s3 := { s2 with itsBuffers := requeue.2, itsDoneIdx := [] }
  let del : List DevCall := if s3.itsBuffers.isSome then [DevCall.release] else []
  { state := { s3 with itsBuffers := none },
    calls := requeue.1 ++ [DevCall.streamoff] ++ del,
    ret := .ok () }

/-! ## get, done (lines 418-483) -/

/-- The predicate that `get` passes to `wait_for`: a frame is in the slot, or streaming
was turned off. -/
def waitPredicate (s : CameraDevice) : Bool :=
  s.itsOutputImage.valid || (s.itsStreaming == false)

/-- The call `itsOutputCondVar.wait_for(lock, 2500ms, pred)`: when the predicate already
holds nothing is waited for; otherwise the thread blocks, other threads change the device,
and `wake` is the state seen when the wait ends (by notification or by timeout).  The
returned flag is the value of the predicate at that moment. -/
def waitFor (s wake : CameraDevice) : CameraDevice × Bool :=
  if waitPredicate s then (s, true) else (wake, waitPredicate wake)

/-- The state that `get` looks at once its wait is over: the entry state when a frame was
already in the slot (lines 428 and 454 skip the wait), else the state after `waitFor`. -/
def endOfWait (s wake : CameraDevice) : CameraDevice × Bool :=
  if s.itsOutputImage.valid == false then waitFor s wake else (s, true)

/-- The member function `CameraDevice::get` (lines 418-468).  `s` is the state at entry and
`wake` the state when a wait, if any, ends.  The test of the conversion image at line 422
is made at entry; everything else is read after the wait. -/
def get (s wake : CameraDevice) : Result RawImage :=
  let e := endOfWait s wake
  if e.2 = false then
    { state := e.1, calls := [], ret := .threw .timeoutWaitingForFrame }
  else if e.1.itsStreaming = false then
    { state := e.1, calls := [], ret := .threw .notStreaming }
  else if s.itsConvertedOutputImage.valid then
    if e.1.itsFormat.pixelformat = V4L2_PIX_FMT_SRGGB8
        ∨ e.1.itsFormat.pixelformat = V4L2_PIX_FMT_GREY then
      { state := { e.1 with itsOutputImage := e.1.itsOutputImage.invalidate },
        calls := [],
        ret := .ok { e.1.itsConvertedOutputImage with bufindex := e.1.itsOutputImage.bufindex } }
    else
      { state := e.1, calls := [], ret := .threw .cannotConvert }
  else
    { state := { e.1 with itsOutputImage := e.1.itsOutputImage.invalidate },
      calls := [],
      ret := .ok e.1.itsOutputImage }

/-- The member function `CameraDevice::done` (lines 471-483). -/
def done (s : CameraDevice) (img : RawImage) : Result Unit :=
  if s.itsStreaming = false then
    { state := s, calls := [], ret := .threw .doneRejected }
  else
    { state := { s with itsDoneIdx := s.itsDoneIdx ++ [img.bufindex] }, calls := [],
      ret := .ok () }

/-! ## One iteration of the poll thread (lines 218-307) -/

/-- What `select` on the device descriptor reports in one iteration, together with the
answer of the dequeue when a frame is ready. -/
inductive PollEvent where
  | selectFailed (eintr : Bool)
  | timeout
  | errorEvent
  | notReadable
  | dqbufFailed
  | frame (index : Nat)
  deriving DecidableEq, Repr

/-- What one loop iteration leaves behind: the shared state, the local vector `doneidx`,
the buffers enqueued by the re-queue step (line 233), the buffers enqueued by the low-water
step (line 257), all device calls in order, and the exception swallowed by the catch-all
handler of line 307, if any. -/
structure RunResult where
  state : CameraDevice
  doneidx : List Nat
  requeued : List Nat
  forced : List Nat
  calls : List DevCall
  caught : Option Error
  deriving DecidableEq, Repr

/-- Lines 224-227: under the output lock, swap the pending-done list with the local vector
when the former is not empty. -/
def runSwap (s : CameraDevice) (doneidx : List Nat) : CameraDevice × List Nat :=
  if s.itsDoneIdx.isEmpty = false then ({ s with itsDoneIdx := doneidx }, s.itsDoneIdx)
  else (s, doneidx)

/-- Line 233: enqueue every index of the local vector, when a pool exists; returns the state
and the indices enqueued.  Line 234 then clears the local vector. -/
def runRequeue (s : CameraDevice) (doneidx : List Nat) : CameraDevice × List Nat :=
  match s.itsBuffers with
  | some b => ({ s with itsBuffers := some (doneidx.foldl VideoBuffers.qbuf b) }, doneidx)
  | none => (s, [])

/-- Lines 248-254: the buffer spared by the low-water step, the index of the frame in the
latest-frame slot when there is one, else the sentinel 12345678. -/
def lowWaterKeep (s : CameraDevice) : Nat :=
  if s.itsOutputImage.valid then s.itsOutputImage.bufindex else 12345678

/-- Lines 245-258: when fewer than two buffers are queued, enqueue all buffers but
`lowWaterKeep`; returns the state and the indices enqueued. -/
def runLowWater (s : CameraDevice) : CameraDevice × List Nat :=
  match s.itsBuffers with
  | some b =>
    if b.nqueued < 2 then
      ({ s with itsBuffers := some (b.qbufallbutone (lowWaterKeep s)) },
        b.allButOne (lowWaterKeep s))
    else (s, [])
  | none => (s, [])

/-- Lines 277-283: the image built for the buffer just dequeued. -/
def capturedImage (s : CameraDevice) (index : Nat) : RawImage :=
  { width := s.itsFormat.width, height := s.itsFormat.height, fmt := s.itsFormat.pixelformat,
    fps := s.itsFps, buf := some (VideoBufRef.pool index), bufindex := index }

/-- Lines 289-297: under the output lock, push the index of a frame still in the slot onto
the pending-done list, then overwrite the slot. -/
def publish (s : CameraDevice) (img : RawImage) : CameraDevice :=
  { s with
    itsDoneIdx :=
      if s.itsOutputImage.valid then s.itsDoneIdx ++ [s.itsOutputImage.bufindex]
      else s.itsDoneIdx,
    itsOutputImage := img }

/-- One iteration of the loop of `CameraDevice::run` (lines 218-307), run without
interference from other threads.  `doneidx` is the local vector as left by the previous
iteration and `ev` is what the driver reports. -/
def runIteration (s : CameraDevice) (doneidx : List Nat) (ev : PollEvent) : RunResult :=
  let sw := runSwap s doneidx
  let rq := runRequeue sw.1 sw.2
  let c2 := rq.2.map DevCall.qbuf
  if rq.1.itsStreaming = false then
    { state := rq.1, doneidx := [], requeued := rq.2, forced := [], calls := c2,
      caught := none }
  else
    let lw := runLowWater rq.1
    let c3 := c2 ++ lw.2.map DevCall.qbuf ++ [DevCall.select]
    match ev with
    | .selectFailed eintr =>
      { state := lw.1, doneidx := [], requeued := rq.2, forced := lw.2, calls := c3,
        caught := if eintr then none else some .selectError }
    | .timeout =>
      { state := lw.1, doneidx := [], requeued := rq.2, forced := lw.2, calls := c3,
        caught := none }
    | .errorEvent =>
      { state := lw.1, doneidx := [], requeued := rq.2, forced := lw.2, calls := c3,
        caught := some .deviceError }
    | .notReadable =>
      { state := lw.1, doneidx := [], requeued := rq.2, forced := lw.2, calls := c3,
        caught := none }
    | .dqbufFailed =>
      { state := lw.1, doneidx := [], requeued := rq.2, forced := lw.2,
        calls := c3 ++ [DevCall.dqbuf], caught := some .ioctlFailed }
    | .frame index =>
      match lw.1.itsBuffers with
      | none =>
        { state := lw.1, doneidx := [], requeued := rq.2, forced := lw.2, calls := c3,
          caught := some .nullBuffers }
      | some b =>
        let s4 := { lw.1 with itsBuffers := some b.dqbuf }
        if index < b.size then
          { state := publish s4 (capturedImage s4 index), doneidx := [], requeued := rq.2,
            forced := lw.2, calls := c3 ++ [DevCall.dqbuf], caught := none }
        else
          { state := s4, doneidx := [], requeued := rq.2, forced := lw.2,
            calls := c3 ++ [DevCall.dqbuf], caught := some .indexOutOfRange }

/-- The index of the frame that an iteration with this event dequeues, if any. -/
def PollEvent.published : PollEvent → Option Nat
  | .frame index => some index
  | _ => none

/-- The indices of the frames dequeued over a sequence of iterations, in capture order. -/
def publishedFrames (evs : List PollEvent) : List Nat :=
  evs.filterMap PollEvent.published

/-- What a run of consecutive loop iterations leaves behind: the shared state, the local
vector, and all indices enqueued by the re-queue steps (line 233), in order. -/
structure RunTrace where
  state : CameraDevice
  doneidx : List Nat
  requeued : List Nat
  deriving DecidableEq, Repr

/-- Consecutive iterations of the loop of `CameraDevice::run`, one per event, without
interference from other threads. -/
def runEvents (s : CameraDevice) (doneidx : List Nat) : List PollEvent → RunTrace
  | [] => { state := s, doneidx := doneidx, requeued := [] }
  | ev :: evs =>
    let r := runIteration s doneidx ev
    let rest := runEvents r.state r.doneidx evs
    { state := rest.state, doneidx := rest.doneidx, requeued := r.requeued ++ rest.requeued }

/-! ## streamOn (lines 314-362) -/

/-- Compile-time configuration and helpers defined outside these sources: whether the build is
for JeVois-Pro (`JEVOIS_PRO`), whether it is for the A33 platform (`JEVOIS_PLATFORM_A33`), and
the function `jevois::v4l2ImageSize(fcc, width, height)` giving the byte size of one frame. -/
structure Platform where
  pro : Bool
  a33 : Bool
  v4l2ImageSize : Nat → Nat → Nat → Nat

/-- What the driver answers during `streamOn`: whether the buffers can be allocated (the
constructor of `VideoBuffers`) and whether `VIDIOC_STREAMON` succeeds. -/
structure StreamDriver where
  reqbufsOk : Bool
  streamonOk : Bool
  deriving DecidableEq, Repr

/-- The memory budget of lines 335-341, in bytes: 256 MiB on JeVois-Pro, else 4 MiB. -/
def bufferBudget (p : Platform) : Nat :=
  if p.pro then 256 * 1024 * 1024 else 4 * 1024 * 1024

/-- The frame size of lines 332-333, an `unsigned int`. -/
def frameSize (p : Platform) (s : CameraDevice) : Nat :=
  p.v4l2ImageSize s.itsFormat.pixelformat s.itsFormat.width s.itsFormat.height % 2 ^ 32

/-- Lines 329-342: the buffer count before clamping; `none` stands for the division by a zero
frame size. -/
def requestedBuffers (p : Platform) (s : CameraDevice) : Option Nat :=
  if s.itsNbufs = 0 then
    if frameSize p s = 0 then none else some (bufferBudget p / frameSize p s)
  else some s.itsNbufs

/-- Line 345: force the number of buffers into 5..8. -/
def clampBuffers (nbuf : Nat) : Nat :=
  if nbuf < 5 then 5 else if nbuf > 8 then 8 else nbuf

/-- The member function `CameraDevice::streamOn` (lines 314-362). -/
def streamOn (p : Platform) (drv : StreamDriver) (s : CameraDevice) : Result Unit :=
  if s.itsFormatOk = false then
    { state := s, calls := [], ret := .threw .noValidFormat }
  else if s.itsStreaming = true ∨ s.itsBuffers.isSome = true then
    { state := s, calls := [], ret := .ok () }
  else
    let s1 := { s with itsStreaming := false }
    match requestedBuffers p s1 with
    | none => { state := s1, calls := [], ret := .threw .divisionByZero }
    | some n =>
      let nbuf := clampBuffers n
      if drv.reqbufsOk = false then
        { state := s1, calls := [DevCall.reqbufs nbuf], ret := .threw .ioctlFailed }
      else
        let pool : VideoBuffers := { size := nbuf, nqueued := 0 }
        let s2 := { s1 with itsBuffers := some pool.qbufall }
        let calls := [DevCall.reqbufs nbuf] ++ (List.range nbuf).map DevCall.qbuf
          ++ [DevCall.streamon]
        if drv.streamonOk = false then
          { state := s2, calls := calls, ret := .threw .ioctlFailed }
        else
          { state := { s2 with itsStreaming := true }, calls := calls, ret := .ok () }

/-! ## setFormat (lines 486-692) -/

/-- What the driver answers during `setFormat`: whether the first `VIDIOC_G_FMT` succeeds,
which formats `VIDIOC_S_FMT` accepts, the format read back by the second `VIDIOC_G_FMT`
(`none` when that call fails), and whether the crop, frame-rate and control calls succeed. -/
structure FormatDriver where
  gfmtOk : Bool
  sfmtAccepts : V4L2Format → Bool
  readback : Option V4L2Format
  cropcapOk : Bool
  scropOk : Bool
  sparmOk : Bool
  sctrlOk : Int → Bool

/-- The function `v4l2sunxiFix` of the A33 build (lines 46-68); `none` stands for the fatal
error of the default case. -/
def v4l2sunxiFix (fcc : Nat) : Option Nat :=
  if fcc = 0x2008 ∨ fcc = V4L2_PIX_FMT_YUYV then some V4L2_PIX_FMT_YUYV
  else if fcc = 0x2001 ∨ fcc = V4L2_PIX_FMT_GREY then some V4L2_PIX_FMT_GREY
  else if fcc = 0x3001 ∨ fcc = V4L2_PIX_FMT_SRGGB8 then some V4L2_PIX_FMT_SRGGB8
  else if fcc = 0x1008 ∨ fcc = V4L2_PIX_FMT_RGB565 then some V4L2_PIX_FMT_RGB565
  else if fcc = V4L2_PIX_FMT_MJPEG then some V4L2_PIX_FMT_MJPEG
  else if fcc = V4L2_PIX_FMT_BGR24 then some V4L2_PIX_FMT_BGR24
  else none

/-- The outcome of the `VIDIOC_S_FMT` attempts of lines 543-576: the pixel formats tried, in
order, the pixel format left in `itsFormat`, and whether one attempt was accepted. -/
structure Negotiation where
  tried : List Nat
  pixelformat : Nat
  accepted : Bool
  deriving DecidableEq, Repr

/-- Lines 543-576: try the requested pixel format; on a device that is not multiplane fall
back to raw Bayer, then to monochrome. -/
def negotiate (mplane : Bool) (accepts : V4L2Format → Bool) (fmt capw caph : Nat) :
    Negotiation :=
  if accepts { width := capw, height := caph, pixelformat := fmt } then
    { tried := [fmt], pixelformat := fmt, accepted := true }
  else if mplane then
    { tried := [fmt], pixelformat := fmt, accepted := false }
  else if accepts { width := capw, height := caph, pixelformat := V4L2_PIX_FMT_SRGGB8 } then
    { tried := [fmt, V4L2_PIX_FMT_SRGGB8], pixelformat := V4L2_PIX_FMT_SRGGB8,
      accepted := true }
  else if accepts { width := capw, height := caph, pixelformat := V4L2_PIX_FMT_GREY } then
    { tried := [fmt, V4L2_PIX_FMT_SRGGB8, V4L2_PIX_FMT_GREY],
      pixelformat := V4L2_PIX_FMT_GREY, accepted := true }
  else
    { tried := [fmt, V4L2_PIX_FMT_SRGGB8, V4L2_PIX_FMT_GREY],
      pixelformat := V4L2_PIX_FMT_GREY, accepted := false }

/-- Lines 589-606: true when the format read back is refused. -/
def formatRefused (mplane : Bool) (f : V4L2Format) (fmt capw caph : Nat) : Bool :=
  if mplane then
    f.width != capw || f.height != caph || f.pixelformat != fmt
  else
    f.width != capw || f.height != caph ||
      (f.pixelformat != fmt &&
        (fmt != V4L2_PIX_FMT_YUYV ||
          (f.pixelformat != V4L2_PIX_FMT_SRGGB8 && f.pixelformat != V4L2_PIX_FMT_GREY)))

/-- Lines 629-630: `((a - b) >> 1) & 0xfffc` on `unsigned int`. -/
def cropOffset (a b : Nat) : Nat :=
  Nat.land (((a + 2 ^ 32 - b % 2 ^ 32) % 2 ^ 32) / 2) 0xfffc

/-- Lines 610-643: the calls of the crop reset, made only for a positive frame rate; a
failure of either call is caught and logged. -/
def cropCalls (drv : FormatDriver) (fps : ℚ) (capw caph cropw croph : Nat) : List DevCall :=
  if fps > 0 then
    if drv.cropcapOk then
      if capw = cropw ∧ caph = croph then [DevCall.cropcap, DevCall.scropDefault]
      else [DevCall.cropcap,
        DevCall.scrop (cropOffset capw cropw) (cropOffset caph croph) cropw croph]
    else [DevCall.cropcap]
  else []

/-- Lines 649-660: the conversion image after `setFormat`: invalidated, then allocated as a
YUYV image of the cropped size when the device is not multiplane, YUYV was requested and the
device delivers raw Bayer or monochrome. -/
def conversionImage (s : CameraDevice) (fmt : Nat) : RawImage :=
  if s.itsMplane = false ∧ fmt = V4L2_PIX_FMT_YUYV ∧
      (s.itsFormat.pixelformat = V4L2_PIX_FMT_SRGGB8
        ∨ s.itsFormat.pixelformat = V4L2_PIX_FMT_GREY) then
    { s.itsConvertedOutputImage.invalidate with
      width := s.itsFormat.width, height := s.itsFormat.height, fmt := V4L2_PIX_FMT_YUYV,
      fps := s.itsFps, buf := some VideoBufRef.heap }
  else s.itsConvertedOutputImage.invalidate

/-- Lines 679-688: the values written to control 0xf0f003 (the sensor preset), in order. -/
def presetValues (preset : Int) : List Int :=
  if preset = -1 then [] else if preset = 0 then [1, 0] else [preset]

/-- Issue the control writes in order, stopping at the first one the driver refuses; returns
the calls made and whether all succeeded. -/
def writeControls (ok : Int → Bool) : List Int → List DevCall × Bool
  | [] => ([], true)
  | v :: vs =>
    if ok v then
      ((DevCall.sctrl 0xf0f003 v) :: (writeControls ok vs).1, (writeControls ok vs).2)
    else ([DevCall.sctrl 0xf0f003 v], false)

/-- Lines 579-584: the pixel format kept from the read-back: the one the driver reports,
passed through `v4l2sunxiFix` on the A33 build. -/
def readbackPixelformat (p : Platform) (rb : V4L2Format) : Option Nat :=
  if p.a33 then v4l2sunxiFix rb.pixelformat else some rb.pixelformat

/-- The pixel format of a `VIDIOC_S_FMT` call, `none` for any other call. -/
def DevCall.sfmtPixelformat : DevCall → Option Nat
  | .sfmt f _ _ => some f
  | _ => none

/-- Lines 495-692 of `setFormat`: everything after the initial `streamOff`, run with the
device lock held. -/
def setFormatLocked (p : Platform) (drv : FormatDriver) (s : CameraDevice)
    (fmt capw caph : Nat) (fps : ℚ) (cropw croph : Nat) (preset : Int) : Result Unit :=
  let s0 := { s with itsFormatOk := false }
  if drv.gfmtOk = false then
    { state := s0, calls := [DevCall.gfmt], ret := .threw .ioctlFailed }
  else
    let n := negotiate s0.itsMplane drv.sfmtAccepts fmt capw caph
    let s1 := { s0 with
      itsFormat := { width := capw, height := caph, pixelformat := n.pixelformat },
      itsFps := fps }
    let c1 := [DevCall.gfmt] ++ n.tried.map (fun f => DevCall.sfmt f capw caph)
    if n.accepted = false then
      { state := s1, calls := c1, ret := .threw .couldNotSetFormat }
    else
      match drv.readback with
      | none => { state := s1, calls := c1 ++ [DevCall.gfmt], ret := .threw .ioctlFailed }
      | some rb =>
        match readbackPixelformat p rb with
        | none =>
          { state := { s1 with itsFormat := rb }, calls := c1 ++ [DevCall.gfmt],
            ret := .threw .unsupportedPixelFormat }
        | some pf =>
          let s2 := { s1 with itsFormat := { rb with pixelformat := pf } }
          if formatRefused s2.itsMplane s2.itsFormat fmt capw caph then
            { state := s2, calls := c1 ++ [DevCall.gfmt], ret := .threw .formatNotAccepted }
          else
            let c2 := c1 ++ [DevCall.gfmt] ++ cropCalls drv fps capw caph cropw croph
            let s3 := { s2 with
              itsFormat := { s2.itsFormat with width := cropw, height := croph } }
            let s4 := { s3 with itsConvertedOutputImage := conversionImage s3 fmt }
            let c3 := c2 ++ (if p.pro = false ∧ fps > 0 then [DevCall.sparm] else [])
            let w := writeControls drv.sctrlOk (presetValues preset)
            if w.2 = false then
              { state := s4, calls := c3 ++ w.1, ret := .threw .ioctlFailed }
            else
              { state := { s4 with itsFormatOk := true }, calls := c3 ++ w.1, ret := .ok () }

/-- The member function `CameraDevice::setFormat` (lines 486-692): turn the stream off when
it is on (line 493), then set the format. -/
def setFormat (p : Platform) (drv : FormatDriver) (s : CameraDevice)
    (fmt capw caph : Nat) (fps : ℚ) (cropw croph : Nat) (preset : Int) : Result Unit :=
  let off : Result Unit :=
    if s.itsStreaming then streamOff s else { state := s, calls := [], ret := .ok () }
  let r := setFormatLocked p drv off.state fmt capw caph fps cropw croph preset
  { r with calls := off.calls ++ r.calls }

/-! ## Sequences of consumer calls -/

/-- A sequence of `done` calls, one per image, each on the state left by the previous one. -/
def doneAll (s : CameraDevice) : List RawImage → CameraDevice
  | [] => s
  | img :: rest => doneAll (done s img).state rest

/-- True for the enqueue calls of a device trace. -/
def DevCall.isQbuf : DevCall → Bool
  | .qbuf _ => true
  | _ => false

/-! ## Single-precision arithmetic

The frame rates of the sources are `float` values.  They are carried as the rationals that
they denote, and every single-precision operation rounds its exact result with `f32`. -/

/-- Round to the nearest integer, ties to the even one. -/
def roundHalfEven (y : ℚ) : Int :=
  if y - ⌊y⌋ < 1 / 2 then ⌊y⌋
  else if 1 / 2 < y - ⌊y⌋ then ⌊y⌋ + 1
  else if ⌊y⌋ % 2 = 0 then ⌊y⌋
  else ⌊y⌋ + 1

/-- The largest `e` between -126 and `n - 126` with `2 ^ e ≤ x`, and -126 when there is
none. -/
def exponentUpTo : Nat → ℚ → Int
  | 0, _ => -126
  | n + 1, x =>
    if (2 : ℚ) ^ ((n : Int) + 1 - 126) ≤ x then (n : Int) + 1 - 126 else exponentUpTo n x

/-- The binary exponent of a positive single-precision number near `x`: the `e` with
`2 ^ e ≤ x < 2 ^ (e + 1)`, kept between -126 (the subnormal numbers share the exponent of
the smallest normal ones) and 127. -/
def f32Exponent (x : ℚ) : Int := exponentUpTo 253 x

/-- The single-precision number nearest to `x ≥ 0`: `x` is rounded to a multiple of the
spacing `2 ^ (e - 23)` of the numbers with its exponent `e`. -/
def f32Abs (x : ℚ) : ℚ :=
  roundHalfEven (x / (2 : ℚ) ^ (f32Exponent x - 23)) * (2 : ℚ) ^ (f32Exponent x - 23)

/-- The single-precision number (IEEE 754 binary32) nearest to `x`, ties to the even
significand: the rounding of every `float` operation and constant.  Overflow to infinity is
not modelled. -/
def f32 (x : ℚ) : ℚ := if x < 0 then -f32Abs (-x) else f32Abs x

/-! ## Video mappings (VideoMapping.C) and the mapping table of the engine -/

/-- The enumeration `jevois::CropType`. -/
inductive CropType where
  | Scale
  | Crop
  | CropScale
  deriving DecidableEq, Repr

/-- The enumeration `jevois::WDRtype`. -/
inductive WDRtype where
  | Linear
  | DOL
  deriving DecidableEq, Repr

/-- The fourcc code `JEVOISPRO_FMT_GUI`, characters J V U I. -/
def JEVOISPRO_FMT_GUI : Nat := 0x4955564A

/-- The data members of `jevois::VideoMapping` that the sources read.  The frame rates are
`float` members, carried as the rationals that they denote. -/
structure VideoMapping where
  ofmt : Nat
  ow : Nat
  oh : Nat
  ofps : ℚ
  cfmt : Nat
  cw : Nat
  ch : Nat
  cfps : ℚ
  uvcformat : Nat
  uvcframe : Nat
  wdr : WDRtype
  crop : CropType
  c2fmt : Nat
  c2w : Nat
  c2h : Nat
  vendor : String
  modulename : String
  ispython : Bool
  deriving DecidableEq, Repr

/-- The function `VideoMapping::uvcToFps` (VideoMapping.C lines 97-101),
`float(1000000000U / interval) * 0.01F`: the unsigned integer quotient is converted to
single precision and multiplied, in single precision, by the constant `0.01F`.  `none`
stands for the division by zero. -/
def uvcToFps (interval : Nat) : Option ℚ :=
  if interval = 0 then none
  else some (f32 (f32 ((1000000000 / interval : Nat) : ℚ) * f32 (1 / 100)))

/-- The test of Engine.C line 1541 on one mapping,
`m.uvcformat == iformat && m.uvcframe == iframe && std::fabs(m.ofps - fps) < 0.1F`: the
difference is computed in single precision and its absolute value is compared with the
constant `0.1F`. -/
def matchesWithRate (iformat iframe : Nat) (fps : ℚ) (m : VideoMapping) : Bool :=
  m.uvcformat == iformat && m.uvcframe == iframe
    && decide (|f32 (m.ofps - fps)| < f32 (1 / 10))

/-- The test of Engine.C line 1551 on one mapping: same format and frame index. -/
def matchesIndices (iformat iframe : Nat) (m : VideoMapping) : Bool :=
  m.uvcformat == iformat && m.uvcframe == iframe

/-- The two loops of Engine.C lines 1540-1542 and 1550-1552: walk the table with a running
index and return the index of the first mapping that passes the test. -/
def firstMapping (test : VideoMapping → Bool) : List VideoMapping → Nat → Option Nat
  | [], _ => none
  | m :: ms, idx => if test m then some idx else firstMapping test ms (idx + 1)

/-- The member function `Engine::getVideoMappingIdx` (Engine.C lines 1528-1556), on the
mapping table and the default index of the engine. -/
def getVideoMappingIdx (itsMappings : List VideoMapping) (itsDefaultMappingIdx : Nat)
    (iformat iframe interval : Nat) : Outcome Nat :=
  if iformat = 0 ∨ iframe = 0 then .ok itsDefaultMappingIdx
  else if interval ≠ 0 then
    match uvcToFps interval with
    | none => .threw .divisionByZero
    | some fps =>
      match firstMapping (matchesWithRate iformat iframe fps) itsMappings 0 with
      | some idx => .ok idx
      | none => .threw .noVideoMapping
  else
    match firstMapping (matchesIndices iformat iframe) itsMappings 0 with
    | some idx => .ok idx
    | none => .threw .noVideoMapping

/-- The member function `Engine::getVideoMapping` (Engine.C lines 1519-1525). -/
def getVideoMapping (itsMappings : List VideoMapping) (idx : Nat) : Outcome VideoMapping :=
  match itsMappings[idx]? with
  | some m => .ok m
  | none => .threw .indexOutOfRange

/-! ## The USB gadget (Gadget.C): data model -/

/-- The request code `UVC_SET_CUR` of `linux/usb/video.h`. -/
def UVC_SET_CUR : Nat := 0x01

/-- The request code `UVC_GET_CUR`. -/
def UVC_GET_CUR : Nat := 0x81

/-- The request code `UVC_GET_MIN`. -/
def UVC_GET_MIN : Nat := 0x82

/-- The request code `UVC_GET_MAX`. -/
def UVC_GET_MAX : Nat := 0x83

/-- The request code `UVC_GET_RES`. -/
def UVC_GET_RES : Nat := 0x84

/-- The request code `UVC_GET_LEN`. -/
def UVC_GET_LEN : Nat := 0x85

/-- The request code `UVC_GET_INFO`. -/
def UVC_GET_INFO : Nat := 0x86

/-- The request code `UVC_GET_DEF`. -/
def UVC_GET_DEF : Nat := 0x87

/-- The control selector `UVC_VC_REQUEST_ERROR_CODE_CONTROL`. -/
def UVC_VC_REQUEST_ERROR_CODE_CONTROL : Nat := 0x02

/-- The streaming control selector `UVC_VS_PROBE_CONTROL`. -/
def UVC_VS_PROBE_CONTROL : Nat := 0x01

/-- The streaming control selector `UVC_VS_COMMIT_CONTROL`. -/
def UVC_VS_COMMIT_CONTROL : Nat := 0x02

/-- The capability bit `UVC_CONTROL_CAP_GET`. -/
def UVC_CONTROL_CAP_GET : Nat := 0x01

/-- The capability bit `UVC_CONTROL_CAP_SET`. -/
def UVC_CONTROL_CAP_SET : Nat := 0x02

/-- The error number `EL2HLT` of `errno.h`; a response length of `-EL2HLT` stalls the
request. -/
def EL2HLT : Int := 51

/-- The control id `V4L2_CID_BRIGHTNESS` (`V4L2_CID_BASE` is 0x00980900). -/
def V4L2_CID_BRIGHTNESS : Nat := 0x00980900

/-- The control id `V4L2_CID_CONTRAST`. -/
def V4L2_CID_CONTRAST : Nat := 0x00980901

/-- The control id `V4L2_CID_SATURATION`. -/
def V4L2_CID_SATURATION : Nat := 0x00980902

/-- The control id `V4L2_CID_HUE`. -/
def V4L2_CID_HUE : Nat := 0x00980903

/-- The control id `V4L2_CID_AUTO_WHITE_BALANCE`. -/
def V4L2_CID_AUTO_WHITE_BALANCE : Nat := 0x0098090c

/-- The control id `V4L2_CID_RED_BALANCE`. -/
def V4L2_CID_RED_BALANCE : Nat := 0x0098090e

/-- The control id `V4L2_CID_BLUE_BALANCE`. -/
def V4L2_CID_BLUE_BALANCE : Nat := 0x0098090f

/-- The control id `V4L2_CID_GAIN`. -/
def V4L2_CID_GAIN : Nat := 0x00980913

/-- The control id `V4L2_CID_POWER_LINE_FREQUENCY`. -/
def V4L2_CID_POWER_LINE_FREQUENCY : Nat := 0x00980918

/-- The control id `V4L2_CID_SHARPNESS`. -/
def V4L2_CID_SHARPNESS : Nat := 0x0098091b

/-- The control id `V4L2_CID_BACKLIGHT_COMPENSATION`. -/
def V4L2_CID_BACKLIGHT_COMPENSATION : Nat := 0x0098091c

/-- The control id `V4L2_CID_EXPOSURE_AUTO` (`V4L2_CID_CAMERA_CLASS_BASE` is 0x009a0900). -/
def V4L2_CID_EXPOSURE_AUTO : Nat := 0x009a0901

/-- The control id `V4L2_CID_EXPOSURE_ABSOLUTE`. -/
def V4L2_CID_EXPOSURE_ABSOLUTE : Nat := 0x009a0902

/-- The control id `V4L2_CID_EXPOSURE_AUTO_PRIORITY`. -/
def V4L2_CID_EXPOSURE_AUTO_PRIORITY : Nat := 0x009a0903

/-- The value `V4L2_EXPOSURE_AUTO`. -/
def V4L2_EXPOSURE_AUTO : Nat := 0

/-- The value `V4L2_EXPOSURE_MANUAL`. -/
def V4L2_EXPOSURE_MANUAL : Nat := 1

/-- The function `uvcToV4Lcontrol` (Gadget.C lines 56-134): the camera control behind a
control selector of the camera unit (entity 1) or of the processing unit (entity 2); `none`
stands for the fatal error raised for every other request. -/
def uvcToV4Lcontrol (entity cs : Nat) : Option Nat :=
  if entity = 1 then
    if cs = 0x02 then some V4L2_CID_EXPOSURE_AUTO
    else if cs = 0x03 then some V4L2_CID_EXPOSURE_AUTO_PRIORITY
    else if cs = 0x04 then some V4L2_CID_EXPOSURE_ABSOLUTE
    else none
  else if entity = 2 then
    if cs = 0x01 then some V4L2_CID_BACKLIGHT_COMPENSATION
    else if cs = 0x02 then some V4L2_CID_BRIGHTNESS
    else if cs = 0x03 then some V4L2_CID_CONTRAST
    else if cs = 0x04 then some V4L2_CID_GAIN
    else if cs = 0x05 then some V4L2_CID_POWER_LINE_FREQUENCY
    else if cs = 0x06 then some V4L2_CID_HUE
    else if cs = 0x07 then some V4L2_CID_SATURATION
    else if cs = 0x08 then some V4L2_CID_SHARPNESS
    else if cs = 0x0c then some V4L2_CID_RED_BALANCE
    else if cs = 0x0d then some V4L2_CID_AUTO_WHITE_BALANCE
    else none
  else none

/-- The fields of `struct uvc_streaming_control` (`linux/usb/video.h`). -/
structure StreamingControl where
  bmHint : Nat
  bFormatIndex : Nat
  bFrameIndex : Nat
  dwFrameInterval : Nat
  wKeyFrameRate : Nat
  wPFrameRate : Nat
  wCompQuality : Nat
  wCompWindowSize : Nat
  wDelay : Nat
  dwMaxVideoFrameSize : Nat
  dwMaxPayloadTransferSize : Nat
  dwClockFrequency : Nat
  bmFramingInfo : Nat
  bPreferedVersion : Nat
  bMinVersion : Nat
  bMaxVersion : Nat
  deriving DecidableEq, Repr

/-- A streaming control block after `memset` to zero. -/
def StreamingControl.zero : StreamingControl :=
  { bmHint := 0, bFormatIndex := 0, bFrameIndex := 0, dwFrameInterval := 0,
    wKeyFrameRate := 0, wPFrameRate := 0, wCompQuality := 0, wCompWindowSize := 0,
    wDelay := 0, dwMaxVideoFrameSize := 0, dwMaxPayloadTransferSize := 0,
    dwClockFrequency := 0, bmFramingInfo := 0, bPreferedVersion := 0, bMinVersion := 0,
    bMaxVersion := 0 }

/-- The function `VideoMapping::fpsToUvc` (VideoMapping.C lines 104-107): the frame
interval in units of 100 ns, `(unsigned int)(10000000.0F / fps + 0.499F)`, with the
division and the addition in single precision and the conversion truncating.  The source
leaves a rate of zero undefined; the model gives 0 there. -/
def fpsToUvc (fps : ℚ) : Nat :=
  if fps ≤ 0 then 0
  else (⌊f32 (f32 (10000000 / fps) + f32 (499 / 1000))⌋).toNat % 2 ^ 32

/-- The function `VideoMapping::osize` (VideoMapping.C lines 85-86). -/
def VideoMapping.osize (p : Platform) (m : VideoMapping) : Nat :=
  p.v4l2ImageSize m.ofmt m.ow m.oh % 2 ^ 32

/-- The member function `Gadget::fillStreamingControl` (Gadget.C lines 583-597); the two
index fields are bytes. -/
def fillStreamingControl (p : Platform) (multicam : Bool) (m : VideoMapping) :
    StreamingControl :=
  { StreamingControl.zero with
    bFormatIndex := m.uvcformat % 256,
    bFrameIndex := m.uvcframe % 256,
    dwFrameInterval := fpsToUvc m.ofps,
    dwMaxVideoFrameSize := m.osize p,
    dwMaxPayloadTransferSize := if multicam then 1024 else 3072,
    bmFramingInfo := 3,
    bPreferedVersion := 1,
    bMaxVersion := 1 }

/-- The structure `uvc_request_data` of the gadget driver: a signed length and a fixed
array of 60 bytes. -/
structure RequestData where
  length : Int
  data : List Nat
  deriving DecidableEq, Repr

/-- The response that `processEvents` prepares before it dispatches an event (Gadget.C
lines 331-332): 60 zero bytes and a length that stalls the request. -/
def RequestData.initial : RequestData :=
  { length := -EL2HLT, data := List.replicate 60 0 }

/-- Byte `i` of the data array, 0 outside the array. -/
def RequestData.byte (r : RequestData) (i : Nat) : Nat := r.data.getD i 0

/-- The three fields of the streaming control block that the gadget reads from received
data, at their offsets in the packed structure: format index at byte 2, frame index at
byte 3, frame interval in bytes 4 to 7, little endian. -/
def RequestData.requestedTriple (r : RequestData) : Nat × Nat × Nat :=
  (r.byte 2, r.byte 3,
    r.byte 4 + 256 * r.byte 5 + 65536 * r.byte 6 + 16777216 * r.byte 7)

/-- The calls that the gadget makes on the engine, on the camera and on the output driver. -/
inductive GadgetCall where
  | engineSetFormat (idx : Nat)
  | engineStreamOn
  | engineStreamOff
  | cameraGetControl (id : Nat)
  | cameraQueryControl (id : Nat)
  | cameraSetControl (id value : Nat)
  | sendResponse (resp : RequestData)
  | reqbufs (n : Nat)
  | release
  | qbuf (index : Nat)
  | dqbuf
  | streamon
  | streamoff
  | sfmt (pixelformat width height : Nat)
  | sparm
  deriving DecidableEq, Repr

/-- The data members of `jevois::Gadget` that the modelled functions use. -/
structure Gadget where
  itsMulticam : Bool
  itsNbufs : Nat
  itsBuffers : Option VideoBuffers
  itsFormat : V4L2Format
  itsFps : ℚ
  itsStreaming : Bool
  itsErrorCode : Nat
  itsControl : Nat
  itsEntity : Nat
  itsProbe : StreamingControl
  itsCommit : StreamingControl
  itsImageQueue : List RawImage
  itsDoneImgs : List Nat
  deriving DecidableEq, Repr

/-- What a member function of the gadget leaves behind. -/
structure GadgetResult (α : Type) where
  state : Gadget
  calls : List GadgetCall
  ret : Outcome α
  deriving DecidableEq, Repr

/-! ## The USB gadget: control requests (Gadget.C lines 432-713) -/

/-- The fields of `struct v4l2_queryctrl` that the gadget reads, as 32-bit patterns. -/
structure QueryCtrl where
  minimum : Nat
  maximum : Nat
  step : Nat
  default_value : Nat
  deriving DecidableEq, Repr

/-- What the camera answers to the control calls of the gadget: the value of a control
(`none` when `getControl` throws), its range (`none` when `queryControl` throws) and whether
`setControl` succeeds.  Values are 32-bit patterns of the `int` of the source. -/
structure ControlCamera where
  getControl : Nat → Option Nat
  queryControl : Nat → Option QueryCtrl
  setControlOk : Nat → Nat → Bool

/-- The local shortcut `failure(code)` of line 441. -/
def failure (code : Nat) (g : Gadget) (resp : RequestData) : Gadget × RequestData :=
  ({ g with itsErrorCode := code }, { resp with length := -EL2HLT })

/-- The local shortcut `byteresponse(val)` of line 444. -/
def byteresponse (val : Nat) (g : Gadget) (resp : RequestData) : Gadget × RequestData :=
  ({ g with itsErrorCode := 0 }, { length := 1, data := resp.data.set 0 (val % 256) })

/-- The local shortcut `wordresponse(val)` of lines 447-448. -/
def wordresponse (val : Nat) (g : Gadget) (resp : RequestData) : Gadget × RequestData :=
  ({ g with itsErrorCode := 0 },
   { length := 2, data := (resp.data.set 0 (val % 256)).set 1 (val / 256 % 256) })

/-- The local shortcut `intresponse(val)` of lines 451-453. -/
def intresponse (val : Nat) (g : Gadget) (resp : RequestData) : Gadget × RequestData :=
  ({ g with itsErrorCode := 0 },
   { length := 4,
     data := (((resp.data.set 0 (val % 256)).set 1 (val / 256 % 256)).set 2
       (val / 65536 % 256)).set 3 (val / 16777216 % 256) })

/-- The local shortcut `arrayblankresponse(len)` of line 456: `memset` of the first `len`
bytes, then the length and the error code are stored.  Nothing is thrown.  The array has 60
bytes and the source does not guard against a larger `len`: the `memset` then clears the
whole array and runs past its end; the bytes behind the array are not part of the model. -/
def arrayblankresponse (len : Nat) (g : Gadget) (resp : RequestData) :
    Option (Gadget × RequestData) :=
  some ({ g with itsErrorCode := 0 },
        { length := len,
          data := List.replicate (min len resp.data.length) 0 ++ resp.data.drop len })

/-- The `switch (len)` of lines 514-521 and 565-572. -/
def lengthResponse (len val : Nat) (g : Gadget) (resp : RequestData) :
    Option (Gadget × RequestData) :=
  if len = 1 then some (byteresponse val g resp)
  else if len = 2 then some (wordresponse val g resp)
  else if len = 4 then some (intresponse val g resp)
  else arrayblankresponse len g resp

/-- Wrap up `processEventControl`: the state and response reached.  No shortcut of lines
441-456 fails, so the second case does not arise. -/
def controlResult (g : Gadget) (calls : List GadgetCall) (x : Option (Gadget × RequestData)) :
    GadgetResult RequestData :=
  match x with
  | some (g1, r) => { state := g1, calls := calls, ret := .ok r }
  | none => { state := g, calls := calls, ret := .threw .outOfBounds }

/-- Line 489: the control id and value after the guarded `uvcToV4Lcontrol` and `getControl`,
with the camera calls made; the id is 0 when either of them throws. -/
def currentControl (cam : ControlCamera) (entity_id cs : Nat) : Nat × Nat × List GadgetCall :=
  match uvcToV4Lcontrol entity_id cs with
  | none => (0, 0, [])
  | some id =>
    match cam.getControl id with
    | none => (0, 0, [GadgetCall.cameraGetControl id])
    | some v => (id, v, [GadgetCall.cameraGetControl id])

/-- The range reported for an unknown control (line 553). -/
def QueryCtrl.unknown : QueryCtrl :=
  { minimum := 0, step := 1, maximum := 1, default_value := 0 }

/-- A zero-initialised `struct v4l2_queryctrl` (line 527). -/
def QueryCtrl.zero : QueryCtrl :=
  { minimum := 0, step := 0, maximum := 0, default_value := 0 }

/-- Line 528: the control id and range after the guarded `uvcToV4Lcontrol` and
`queryControl`, with the camera calls made; the id is 0 when either of them throws. -/
def queriedControl (cam : ControlCamera) (entity_id cs : Nat) :
    Nat × QueryCtrl × List GadgetCall :=
  match uvcToV4Lcontrol entity_id cs with
  | none => (0, QueryCtrl.zero, [])
  | some id =>
    match cam.queryControl id with
    | none => (0, QueryCtrl.zero, [GadgetCall.cameraQueryControl id])
    | some qc => (id, qc, [GadgetCall.cameraQueryControl id])

/-- The expression `(a << 16) | b` on 32-bit patterns (lines 539-542). -/
def shiftOr (a b : Nat) : Nat := (a * 65536 % 2 ^ 32) ||| b

/-- Lines 555-572: pick the field that `req` asks for and answer with it. -/
def rangeResponse (req len : Nat) (qc : QueryCtrl) (g : Gadget) (resp : RequestData) :
    Option (Gadget × RequestData) :=
  if req = UVC_GET_DEF then lengthResponse len qc.default_value g resp
  else if req = UVC_GET_RES then lengthResponse len qc.step g resp
  else if req = UVC_GET_MIN then lengthResponse len qc.minimum g resp
  else if req = UVC_GET_MAX then lengthResponse len qc.maximum g resp
  else some (failure 0x07 g resp)

/-- The member function `Gadget::processEventControl` (lines 432-580).  The four request
fields are bytes in the source.  The result carries the response `resp` as left by the
call. -/
def processEventControl (cam : ControlCamera) (req cs entity_id len : Nat)
    (resp : RequestData) (g : Gadget) : GadgetResult RequestData :=
  if entity_id = 0 then
    if cs = UVC_VC_REQUEST_ERROR_CODE_CONTROL then
      controlResult g [] (some (byteresponse g.itsErrorCode g resp))
    else controlResult g [] (some (failure 0x06 g resp))
  else if req = UVC_SET_CUR then
    controlResult g []
      (some ({ g with itsEntity := entity_id, itsControl := cs, itsErrorCode := 0 },
             { length := len, data := resp.data.set 0 0 }))
  else if req = UVC_GET_INFO then
    controlResult g [] (some (byteresponse (UVC_CONTROL_CAP_GET ||| UVC_CONTROL_CAP_SET) g resp))
  else if req = UVC_GET_CUR then
    let c := currentControl cam entity_id cs
    if c.1 = V4L2_CID_RED_BALANCE then
      let calls := c.2.2 ++ [GadgetCall.cameraGetControl V4L2_CID_BLUE_BALANCE]
      match cam.getControl V4L2_CID_BLUE_BALANCE with
      | none => controlResult g calls (some (failure 0x06 g resp))
      | some blue =>
        controlResult g calls
          (lengthResponse len ((blue % 65536) ||| (c.2.1 % 65536 * 65536)) g resp)
    else if c.1 = V4L2_CID_EXPOSURE_AUTO then
      let value :=
        if c.2.1 = V4L2_EXPOSURE_MANUAL then 0x01
        else if c.2.1 = V4L2_EXPOSURE_AUTO then 0x02
        else 0x03
      controlResult g c.2.2 (lengthResponse len value g resp)
    else if c.1 = 0 then controlResult g c.2.2 (lengthResponse len 0 g resp)
    else controlResult g c.2.2 (lengthResponse len c.2.1 g resp)
  else
    let q := queriedControl cam entity_id cs
    if q.1 = V4L2_CID_RED_BALANCE then
      let calls := q.2.2 ++ [GadgetCall.cameraQueryControl V4L2_CID_BLUE_BALANCE]
      match cam.queryControl V4L2_CID_BLUE_BALANCE with
      | none => controlResult g calls (some (failure 0x06 g resp))
      | some qc2 =>
        controlResult g calls
          (rangeResponse req len
            { minimum := shiftOr q.2.1.minimum qc2.minimum,
              maximum := shiftOr q.2.1.maximum qc2.maximum,
              step := shiftOr q.2.1.step qc2.step,
              default_value := shiftOr q.2.1.default_value qc2.default_value } g resp)
    else if q.1 = V4L2_CID_EXPOSURE_AUTO then
      controlResult g q.2.2
        (rangeResponse req len { minimum := 0, step := 3, maximum := 3, default_value := 1 }
          g resp)
    else if q.1 = 0 then
      controlResult g q.2.2 (rangeResponse req len QueryCtrl.unknown g resp)
    else controlResult g q.2.2 (rangeResponse req len q.2.1 g resp)

/-! ## The USB gadget: streaming requests and the data stage (lines 600-713) -/

/-- Two bytes, little endian. -/
def le16 (x : Nat) : List Nat := [x % 256, x / 256 % 256]

/-- Four bytes, little endian. -/
def le32 (x : Nat) : List Nat :=
  [x % 256, x / 256 % 256, x / 65536 % 256, x / 16777216 % 256]

/-- The first 26 bytes of the packed `struct uvc_streaming_control`, the length `datalen`
of line 604. -/
def StreamingControl.toBytes (c : StreamingControl) : List Nat :=
  le16 c.bmHint ++ [c.bFormatIndex % 256, c.bFrameIndex % 256] ++ le32 c.dwFrameInterval
    ++ le16 c.wKeyFrameRate ++ le16 c.wPFrameRate ++ le16 c.wCompQuality
    ++ le16 c.wCompWindowSize ++ le16 c.wDelay ++ le32 c.dwMaxVideoFrameSize
    ++ le32 c.dwMaxPayloadTransferSize

/-- The effect of `memcpy(ctrl, src, datalen)` on the data array. -/
def RequestData.overwrite (resp : RequestData) (bytes : List Nat) : List Nat :=
  bytes ++ resp.data.drop bytes.length

/-- Store a block into the probe or the commit member, as `target` points to. -/
def Gadget.setTarget (g : Gadget) (cs : Nat) (c : StreamingControl) : Gadget :=
  if cs = UVC_VS_PROBE_CONTROL then { g with itsProbe := c } else { g with itsCommit := c }

/-- The member function `Gadget::processEventStreaming` (lines 600-638).  The table of
video mappings and the default index are those of the engine. -/
def processEventStreaming (p : Platform) (itsMappings : List VideoMapping)
    (itsDefaultMappingIdx : Nat) (req cs : Nat) (resp : RequestData) (g : Gadget) :
    GadgetResult RequestData :=
  if cs ≠ UVC_VS_PROBE_CONTROL ∧ cs ≠ UVC_VS_COMMIT_CONTROL then
    { state := g, calls := [], ret := .ok resp }
  else
    let target := if cs = UVC_VS_PROBE_CONTROL then g.itsProbe else g.itsCommit
    if req = UVC_SET_CUR then
      { state := { g with itsControl := cs }, calls := [],
        ret := .ok { resp with length := 26 } }
    else if req = UVC_GET_CUR ∨ req = UVC_GET_MIN ∨ req = UVC_GET_MAX then
      { state := g, calls := [],
        ret := .ok { length := 26, data := resp.overwrite target.toBytes } }
    else if req = UVC_GET_DEF then
      let t := resp.requestedTriple
      let idx :=
        match getVideoMappingIdx itsMappings itsDefaultMappingIdx t.1 t.2.1 t.2.2 with
        | .ok i => i
        | .threw _ => itsDefaultMappingIdx
      match getVideoMapping itsMappings idx with
      | .threw e => { state := g, calls := [], ret := .threw e }
      | .ok m =>
        let c := fillStreamingControl p g.itsMulticam m
        { state := g.setTarget cs c, calls := [],
          ret := .ok { length := 26, data := resp.overwrite c.toBytes } }
    else if req = UVC_GET_RES then
      { state := g, calls := [],
        ret := .ok { length := 26, data := resp.overwrite (List.replicate 26 0) } }
    else if req = UVC_GET_LEN then
      { state := g, calls := [],
        ret := .ok { length := 2, data := (resp.data.set 0 0).set 1 26 } }
    else if req = UVC_GET_INFO then
      { state := g, calls := [], ret := .ok { length := 1, data := resp.data.set 0 0x03 } }
    else
      { state := g, calls := [], ret := .ok { resp with length := 26 } }

/-- The control value that `processEventControlData` reads from the received data (lines
683-689), as a 32-bit pattern; `none` stands for the fatal error of the default case.  A
two-byte value is sign extended. -/
def receivedValue (data : RequestData) : Option Nat :=
  if data.length = 1 then some (data.byte 0)
  else if data.length = 2 then
    let w := data.byte 0 + 256 * data.byte 1
    some (if w < 32768 then w else w + (2 ^ 32 - 65536))
  else if data.length = 4 then
    some (data.byte 0 + 256 * data.byte 1 + 65536 * data.byte 2 + 16777216 * data.byte 3)
  else none

/-- The expression `value >> 16` on the 32-bit pattern of a signed `int`. -/
def sar16 (v : Nat) : Nat :=
  if v < 2 ^ 31 then v / 65536 else v / 65536 + 0xffff0000

/-- One call of `itsCamera->setControl`, appended to the calls made so far. -/
def setControl (cam : ControlCamera) (id value : Nat) (r : GadgetResult Unit) :
    GadgetResult Unit :=
  match r.ret with
  | .threw _ => r
  | .ok _ =>
    { state := r.state, calls := r.calls ++ [GadgetCall.cameraSetControl id value],
      ret := if cam.setControlOk id value then .ok () else .threw .deviceFailed }

/-- The member function `Gadget::processEventControlData` (lines 673-713). -/
def processEventControlData (cam : ControlCamera) (data : RequestData) (g : Gadget) :
    GadgetResult Unit :=
  match uvcToV4Lcontrol g.itsEntity g.itsControl with
  | none => { state := g, calls := [], ret := .threw .unsupportedControl }
  | some id =>
    match receivedValue data with
    | none => { state := g, calls := [], ret := .threw .badDataLength }
    | some value =>
      let start : GadgetResult Unit := { state := g, calls := [], ret := .ok () }
      if id = V4L2_CID_RED_BALANCE then
        setControl cam V4L2_CID_BLUE_BALANCE (value % 65536)
          (setControl cam V4L2_CID_RED_BALANCE (sar16 value) start)
      else if id = V4L2_CID_EXPOSURE_AUTO then
        let v :=
          if value % 2 = 1 then V4L2_EXPOSURE_MANUAL
          else if value / 2 % 2 = 1 then V4L2_EXPOSURE_AUTO
          else value
        setControl cam id v start
      else setControl cam id value start

/-- The member function `Gadget::processEventData` (lines 641-670).  `engineSetFormat` is
the call `itsEngine->setFormat(idx)` of line 669 as the gadget sees it: the engine calls
back into the gadget (`itsGadget->setFormat(m)`, Engine.C line 995), so the call takes the
gadget as it is after the block was filled and gives the gadget that it leaves, the calls
made on the gadget on the way and its outcome. -/
def processEventData (p : Platform) (cam : ControlCamera) (itsMappings : List VideoMapping)
    (itsDefaultMappingIdx : Nat) (engineSetFormat : Nat → Gadget → GadgetResult Unit)
    (data : RequestData) (g : Gadget) : GadgetResult Unit :=
  if g.itsEntity = 2 ∨ g.itsEntity = 1 then processEventControlData cam data g
  else if g.itsControl = UVC_VS_PROBE_CONTROL ∨ g.itsControl = UVC_VS_COMMIT_CONTROL then
    let t := data.requestedTriple
    match getVideoMappingIdx itsMappings itsDefaultMappingIdx t.1 t.2.1 t.2.2 with
    | .threw e => { state := g, calls := [], ret := .threw e }
    | .ok idx =>
      match getVideoMapping itsMappings idx with
      | .threw e => { state := g, calls := [], ret := .threw e }
      | .ok m =>
        let g1 := g.setTarget g.itsControl (fillStreamingControl p g.itsMulticam m)
        if g.itsControl = UVC_VS_COMMIT_CONTROL then
          { state := (engineSetFormat idx g1).state,
            calls := GadgetCall.engineSetFormat idx :: (engineSetFormat idx g1).calls,
            ret := (engineSetFormat idx g1).ret }
        else { state := g1, calls := [], ret := .ok () }
  else processEventControlData cam data g

/-! ## The USB gadget: streaming and the two image queues (lines 201-321, 353-379, 716-893)

As for the camera, locks are assumed to be acquired without timing out. -/

/-- The state of a gadget right after construction (lines 139-150), for a given default
video mapping. -/
def Gadget.init (p : Platform) (nbufs : Nat) (multicam : Bool) (m : VideoMapping) : Gadget :=
  { itsMulticam := multicam, itsNbufs := nbufs, itsBuffers := none,
    itsFormat := { width := 0, height := 0, pixelformat := 0 }, itsFps := 0,
    itsStreaming := false, itsErrorCode := 0, itsControl := 0, itsEntity := 0,
    itsProbe := fillStreamingControl p multicam m,
    itsCommit := fillStreamingControl p multicam m,
    itsImageQueue := [], itsDoneImgs := [] }

/-- The member function `Gadget::setFormat` (lines 201-237); `sfmtOk` tells whether the
driver accepts `VIDIOC_S_FMT`.  A failure of `VIDIOC_S_PARM` is swallowed. -/
def Gadget.setFormat (sfmtOk : Bool) (m : VideoMapping) (g : Gadget) : GadgetResult Unit :=
  let g1 := { g with itsFormat := { width := m.ow, height := m.oh, pixelformat := m.ofmt },
                     itsFps := m.ofps }
  if m.ofmt = 0 then { state := g1, calls := [], ret := .ok () }
  else if sfmtOk = false then
    { state := g1, calls := [GadgetCall.sfmt m.ofmt m.ow m.oh], ret := .threw .ioctlFailed }
  else
    { state := g1, calls := [GadgetCall.sfmt m.ofmt m.ow m.oh, GadgetCall.sparm],
      ret := .ok () }

/-- Lines 728-740: the number of buffers to allocate; `none` stands for the division by a
zero frame size. -/
def Gadget.bufferCount (p : Platform) (g : Gadget) : Option Nat :=
  let requested : Option Nat :=
    if g.itsNbufs = 0 then
      let framesize := p.v4l2ImageSize g.itsFormat.pixelformat g.itsFormat.width
        g.itsFormat.height
      if framesize = 0 then none
      else some (if 4 * 1024 * 1024 / framesize > 4 then 4 else 4 * 1024 * 1024 / framesize)
    else some g.itsNbufs
  requested.map (fun nbuf => if nbuf < 3 then 3 else if nbuf > 16 then 16 else nbuf)

/-- The blank image for buffer `i` that `streamOn` and `processVideo` hand to the
application (lines 749-755 and 369-374). -/
def Gadget.blankImage (g : Gadget) (i : Nat) : RawImage :=
  { width := g.itsFormat.width, height := g.itsFormat.height, fmt := g.itsFormat.pixelformat,
    fps := g.itsFps, buf := some (VideoBufRef.pool i), bufindex := i }

/-- The member function `Gadget::streamOn` (lines 716-769). -/
def Gadget.streamOn (p : Platform) (drv : StreamDriver) (g : Gadget) : GadgetResult Unit :=
  if g.itsStreaming = true ∨ g.itsBuffers.isSome = true then
    { state := g, calls := [], ret := .ok () }
  else if g.itsFormat.pixelformat = 0 then { state := g, calls := [], ret := .ok () }
  else
    match g.bufferCount p with
    | none => { state := g, calls := [], ret := .threw .divisionByZero }
    | some nbuf =>
      if drv.reqbufsOk = false then
        { state := g, calls := [GadgetCall.reqbufs nbuf], ret := .threw .ioctlFailed }
      else
        let g1 := { g with itsBuffers := some { size := nbuf, nqueued := 0 },
                           itsImageQueue := g.itsImageQueue
                             ++ (List.range nbuf).map g.blankImage }
        if drv.streamonOk = false then
          { state := g1, calls := [GadgetCall.reqbufs nbuf, GadgetCall.streamon],
            ret := .threw .ioctlFailed }
        else
          { state := { g1 with itsStreaming := true },
            calls := [GadgetCall.reqbufs nbuf, GadgetCall.streamon], ret := .ok () }

/-- The member function `Gadget::abortStream` (lines 772-777). -/
def Gadget.abortStream (g : Gadget) : GadgetResult Unit :=
  { state := { g with itsStreaming := false }, calls := [], ret := .ok () }

/-- The member function `Gadget::streamOff` (lines 780-803); a failure of
`VIDIOC_STREAMOFF` is swallowed. -/
def Gadget.streamOff (g : Gadget) : GadgetResult Unit :=
  { state := { g with itsStreaming := false, itsBuffers := none, itsImageQueue := [],
                      itsDoneImgs := [] },
    calls := [GadgetCall.streamoff] ++ (if g.itsBuffers.isSome then [GadgetCall.release] else []),
    ret := .ok () }

/-- One pass through the loop body of `Gadget::get` (lines 813-838): the image popped from
the front of the queue of blank images, or `none` when the queue is empty and the caller
sleeps before the next pass. -/
def Gadget.tryGet (g : Gadget) : GadgetResult (Option RawImage) :=
  if g.itsStreaming = false then { state := g, calls := [], ret := .threw .notStreaming }
  else
    match g.itsImageQueue with
    | img :: rest => { state := { g with itsImageQueue := rest }, calls := [], ret := .ok (some img) }
    | [] => { state := g, calls := [], ret := .ok none }

/-- The loop of `Gadget::get` with `retry` passes left, when no other thread changes the
gadget between the passes. -/
def Gadget.getLoop : Nat → Gadget → GadgetResult RawImage
  | 0, g => { state := g, calls := [], ret := .threw .giveUpWaiting }
  | retry + 1, g =>
    match (g.tryGet).ret with
    | .threw e => { state := g, calls := [], ret := .threw e }
    | .ok (some img) => { state := (g.tryGet).state, calls := [], ret := .ok img }
    | .ok none => Gadget.getLoop retry g

/-- The member function `Gadget::get` (lines 806-846). -/
def Gadget.get (g : Gadget) : GadgetResult RawImage := Gadget.getLoop 2000 g

/-- The member function `Gadget::send` (lines 849-893). -/
def Gadget.send (img : RawImage) (g : Gadget) : GadgetResult Unit :=
  if g.itsStreaming = false then { state := g, calls := [], ret := .threw .notStreaming }
  else if img.width ≠ g.itsFormat.width ∨ img.height ≠ g.itsFormat.height
      ∨ img.fmt ≠ g.itsFormat.pixelformat then
    { state := g, calls := [], ret := .ok () }
  else
    { state := { g with itsDoneImgs := g.itsDoneImgs ++ [img.bufindex] }, calls := [],
      ret := .ok () }

/-- The last step of one iteration of `Gadget::run` (lines 286-316): hand at most one filled
buffer to the output driver.  `qbufOk` tells whether the driver accepts it; a refusal is
caught and the index stays at the front of the queue. -/
def Gadget.queueDone (qbufOk : Bool) (g : Gadget) : GadgetResult Unit :=
  match g.itsDoneImgs with
  | [] => { state := g, calls := [], ret := .ok () }
  | idx :: rest =>
    match g.itsBuffers with
    | none => { state := g, calls := [], ret := .threw .nullBuffers }
    | some b =>
      if b.size ≤ idx then { state := g, calls := [], ret := .threw .indexOutOfRange }
      else if qbufOk = false then
        { state := g, calls := [GadgetCall.qbuf idx], ret := .ok () }
      else
        { state := { g with itsBuffers := some (b.qbuf idx), itsDoneImgs := rest },
          calls := [GadgetCall.qbuf idx], ret := .ok () }

/-- The member function `Gadget::processVideo` (lines 353-379); `dequeued` is the index of
the buffer that the driver hands back, `none` when `VIDIOC_DQBUF` fails. -/
def Gadget.processVideo (dequeued : Option Nat) (g : Gadget) : GadgetResult Unit :=
  if g.itsStreaming = false then { state := g, calls := [], ret := .threw .notStreaming }
  else
    match g.itsBuffers with
    | none => { state := g, calls := [], ret := .threw .nullBuffers }
    | some b =>
      match dequeued with
      | none => { state := g, calls := [GadgetCall.dqbuf], ret := .threw .ioctlFailed }
      | some idx =>
        if b.size ≤ idx then
          { state := { g with itsBuffers := some b.dqbuf }, calls := [GadgetCall.dqbuf],
            ret := .threw .indexOutOfRange }
        else
          { state := { g with itsBuffers := some b.dqbuf,
                              itsImageQueue := g.itsImageQueue ++ [g.blankImage idx] },
            calls := [GadgetCall.dqbuf], ret := .ok () }

/-! ## The engine (Engine.C): format changes (lines 934-1084) -/

/-- The data members of `jevois::Engine` that the modelled functions use.  A loaded module is
known by the identity of its instance.  `frameNumber` is the global `engine::frameNumber`,
`quietcmd` the value of the parameter of that name, and `itsGUIhelper` tells whether a GUI
helper exists (JeVois-Pro only); `itsRunning` is the flag that the main loop tests before
each iteration.  `itsCamera` and `itsGadget` are set before the main loop
starts and stay set. -/
structure Engine where
  itsMappings : List VideoMapping
  itsDefaultMappingIdx : Nat
  itsCurrentMapping : VideoMapping
  itsModule : Option Nat
  itsModuleConstructionError : String
  itsStreaming : Bool
  itsStopMainLoop : Bool
  itsRequestedFormat : Int
  itsMassStorageMode : Bool
  itsVideoErrors : Bool
  itsVideoErrorImage : RawImage
  itsGUIhelper : Bool
  itsShellMode : Bool
  quietcmd : Bool
  frameNumber : Nat
  itsNumSerialSent : Nat
  itsRunning : Bool
  deriving DecidableEq, Repr

/-- The calls that the engine makes on its camera, its gadget, its module, its GUI helper and
its serial interfaces, and the calls of its own error reporting functions. -/
inductive EngineCall where
  | removeComponent (instance_ : Nat)
  | cameraSetFormat (m : VideoMapping)
  | gadgetSetFormat (m : VideoMapping)
  | constructModule (m : VideoMapping)
  | gadgetAbortStream
  | cameraAbortStream
  | gadgetStreamOff
  | cameraStreamOff
  | cameraStreamOn
  | gadgetStreamOn
  | guiResetState (full : Bool)
  | guiReportError (msg : String)
  | headlessDisplay
  | reportErrorInternal (err : String)
  | reportError (err : String)
  | gadgetGet
  | drawErrorImage (msg : String)
  | gadgetSend (bufindex : Nat)
  | logError (msg : String)
  | process (instance_ : Nat)
  | parseCommand (port : Nat) (str pfx : String)
  | parseSerial (instance_ : Nat) (port : Nat) (str : String)
  | writeString (port : Nat) (pfx str : String)
  deriving DecidableEq, Repr

/-- What a member function of the engine leaves behind. -/
structure EngineResult (α : Type) where
  state : Engine
  calls : List EngineCall
  ret : Outcome α
  deriving DecidableEq, Repr

/-- How the construction of a module ends (the `try` block of lines 1013-1077): with a new
instance that is loaded, initialised and ready; with an exception thrown before the handle
`itsModule` is assigned (loader, version symbols, constructor); or with an exception thrown
after it was assigned (initialisation, parameter file, script). -/
inductive Construction where
  | ready (instance_ : Nat)
  | failedBefore (e : Error)
  | failedAfter (instance_ : Nat) (e : Error)
  deriving DecidableEq, Repr

/-- The instance that a construction assigns to the handle, if it gets that far. -/
def Construction.assigned : Construction → Option Nat
  | .ready i => some i
  | .failedBefore _ => none
  | .failedAfter i _ => some i

/-- How `Engine::parseCommand` ends: it handled the command, did not recognise it, or
threw. -/
inductive ParseOutcome where
  | handled
  | notRecognized
  | threw (e : Error)
  deriving DecidableEq, Repr

/-- Everything outside the engine that its modelled functions depend on: whether the camera
and the gadget accept a format and start and stop streaming, how the construction of the
module for a mapping ends, what `Gadget::get` and `Gadget::send` answer, how the `process`
and `parseSerial` functions of a module instance and `Engine::parseCommand` end, the text
`what()` of an exception and its split into lines, the renderings `cstrall()` and `ostr()`
of a mapping, the hidden command prefix `JEVOIS_JVINV_PREFIX`, and whether the backing file
of the mass-storage gadget can be opened. -/
structure EngineEnv where
  cameraSetFormatOk : VideoMapping → Bool
  gadgetSetFormatOk : VideoMapping → Bool
  cameraStreamOnOk : Bool
  gadgetStreamOnOk : Bool
  cameraStreamOffOk : Bool
  gadgetStreamOffOk : Bool
  construction : VideoMapping → Construction
  gadgetGet : Outcome RawImage
  gadgetSendOk : Bool
  process : Nat → Outcome Unit
  parseSerial : Nat → String → Outcome Unit
  parseCommand : Engine → String → String → Engine × ParseOutcome
  what : Error → String
  splitLines : String → List String
  cstrall : VideoMapping → String
  ostr : VideoMapping → String
  jvinv : String
  usbsdOk : Bool

/-- True for the exceptions derived from `std::exception`: all but the Python error and
the unknown exception. -/
def Error.isStd : Error → Bool
  | .pythonException _ => false
  | .unknownException => false
  | _ => true

/-- The function `jevois::warnAndIgnoreException` with an empty prefix (Log.C lines
235-270) for the exception `e` in flight: a header naming the kind of exception, then the
lines of its message, each followed by a line feed. -/
def warnAndIgnoreException (env : EngineEnv) (e : Error) : String :=
  let retvec : List String :=
    match e with
    | .pythonException text =>
      "Caught exception from the Python interpreter:" :: env.splitLines text
    | .unknownException => ["Caught unknown exception"]
    | _ => "Caught std::exception:" :: env.splitLines (env.what e)
  retvec.foldl (fun ret m => ret ++ (m ++ "\n")) ""

/-- Run `f` on the state that `r` left, unless `r` threw; the calls add up. -/
def EngineResult.andThen (r : EngineResult Unit) (f : Engine → EngineResult Unit) :
    EngineResult Unit :=
  match r.ret with
  | .threw _ => r
  | .ok _ =>
    { state := (f r.state).state, calls := r.calls ++ (f r.state).calls, ret := (f r.state).ret }

/-- A call on a device that leaves the engine as it is and throws when the device
refuses. -/
def deviceCall (accepted : Bool) (c : EngineCall) (e : Engine) : EngineResult Unit :=
  { state := e, calls := [c], ret := if accepted then .ok () else .threw .deviceFailed }

/-- Modelled from the spec: `Manager::removeComponent(std::shared_ptr<Comp> &)`, a template
defined outside these sources, followed by `itsModule.reset()` (line 977): "Destroy the
current Module Handle (always)".  Whatever the un-initialisation of the old module does, the
engine is left without a module. -/
def removeComponent (_itsModule : Option Nat) : Option Nat := none

/-- The member function `Engine::setFormatInternal(m, reload)` (lines 959-1084). -/
def setFormatInternal (p : Platform) (env : EngineEnv) (m : VideoMapping) (reload : Bool)
    (e : Engine) : EngineResult Unit :=
  let e1 := { e with itsModuleConstructionError :=
    "Unknown error while starting module " ++ m.modulename ++ " ..." }
  if p.a33 = true ∧ e1.itsMassStorageMode = true then
    { state := e1, calls := [], ret := .threw .massStorageMode }
  else
    let calls1 : List EngineCall :=
      match e1.itsModule with
      | some i => [EngineCall.removeComponent i]
      | none => []
    let e2 := { e1 with itsModule := removeComponent e1.itsModule }
    if reload = false ∧ env.cameraSetFormatOk m = false then
      { state := { e2 with itsModuleConstructionError :=
          "Camera did not accept format:\n\n" ++ env.cstrall m ++
            "\n\nCheck videomappings.cfg and camera sensor specifications." },
        calls := calls1 ++ [EngineCall.cameraSetFormat m], ret := .ok () }
    else if reload = false ∧ env.gadgetSetFormatOk m = false then
      { state := { e2 with itsModuleConstructionError :=
          "Gadget did not accept format:\n\n" ++ env.ostr m ++
            "\n\nCheck videomappings.cfg for any unsupported output formats." },
        calls := calls1 ++ [EngineCall.cameraSetFormat m, EngineCall.gadgetSetFormat m],
        ret := .ok () }
    else
      let calls2 := calls1
        ++ (if reload = false then [EngineCall.cameraSetFormat m, EngineCall.gadgetSetFormat m]
            else [])
        ++ [EngineCall.constructModule m]
      let e3 := { e2 with itsCurrentMapping := m, frameNumber := 0 }
      match env.construction m with
      | .ready i =>
        { state := { e3 with itsModule := some i, itsModuleConstructionError := "" },
          calls := calls2, ret := .ok () }
      | .failedBefore x =>
        { state := { e3 with itsModuleConstructionError := warnAndIgnoreException env x },
          calls := calls2, ret := .ok () }
      | .failedAfter i x =>
        { state := { e3 with itsModule := some i,
                             itsModuleConstructionError := warnAndIgnoreException env x },
          calls := calls2, ret := .ok () }

/-- The member function `Engine::setFormat(idx)` (lines 934-946). -/
def Engine.setFormat (p : Platform) (env : EngineEnv) (idx : Nat) (e : Engine) :
    EngineResult Unit :=
  match e.itsMappings[idx]? with
  | none => { state := e, calls := [], ret := .threw .indexOutOfRange }
  | some m => setFormatInternal p env m false e

/-- The member function `Engine::requestSetFormat` (lines 927-931). -/
def Engine.requestSetFormat (idx : Int) (e : Engine) : Engine :=
  { e with itsRequestedFormat := idx }

/-- The member function `Engine::startMassStorageMode` of the A33 build (lines 1801-1822). -/
def startMassStorageMode (env : EngineEnv) (e : Engine) : EngineResult Unit :=
  if e.itsMassStorageMode = true then { state := e, calls := [], ret := .ok () }
  else
    let calls : List EngineCall :=
      match e.itsModule with
      | some i => [EngineCall.removeComponent i]
      | none => []
    let e1 := { e with itsModule := removeComponent e.itsModule }
    if env.usbsdOk = false then { state := e1, calls := calls, ret := .threw .deviceFailed }
    else { state := { e1 with itsMassStorageMode := true }, calls := calls, ret := .ok () }

/-! ## The engine: error reports and one iteration of the main loop (lines 1105-1444) -/

/-- The member function `Engine::reportErrorInternal(err)` (lines 1400-1444).  `caught` is
the exception in flight, which supplies the message when `err` is empty.  The first call
recorded is the call of the function itself, then come the calls it makes.  An exception of
`Gadget::get` or of `Gadget::send` is caught (lines 1426 and 1433) and it is that exception
which `warnAndIgnoreException` then writes to the log; `Gadget::send` throws when the gadget
does not stream.  `warnAndIgnoreException` also logs the message that it returns; the trace
records a `logError` where the log is the only destination of the message (lines 1426, 1433
and 1441). -/
def reportErrorInternal (p : Platform) (env : EngineEnv) (err : String) (caught : Error)
    (e : Engine) : EngineResult Unit :=
  let msg := if err = "" then warnAndIgnoreException env caught else err
  if p.pro = true ∧ e.itsGUIhelper = true ∧ e.itsCurrentMapping.ofmt = JEVOISPRO_FMT_GUI then
    { state := e,
      calls := [EngineCall.reportErrorInternal err, EngineCall.guiReportError msg],
      ret := .ok () }
  else if e.itsCurrentMapping.ofmt ≠ 0 ∧ e.itsCurrentMapping.ofmt ≠ JEVOISPRO_FMT_GUI
      ∧ e.itsVideoErrors = true then
    -- first try block: get a buffer if none is held, then draw
    let got : RawImage × List EngineCall :=
      if e.itsVideoErrorImage.valid = false then
        match env.gadgetGet with
        | .ok img => (img, [EngineCall.gadgetGet, EngineCall.drawErrorImage msg])
        | .threw g =>
          (e.itsVideoErrorImage,
            [EngineCall.gadgetGet, EngineCall.logError (warnAndIgnoreException env g)])
      else (e.itsVideoErrorImage, [EngineCall.drawErrorImage msg])
    -- second try block: send the image if there is one
    let sent : List EngineCall :=
      if got.1.valid then
        if env.gadgetSendOk then [EngineCall.gadgetSend got.1.bufindex]
        else [EngineCall.gadgetSend got.1.bufindex,
              EngineCall.logError (warnAndIgnoreException env Error.notStreaming)]
      else []
    { state := { e with itsVideoErrorImage := got.1.invalidate },
      calls := [EngineCall.reportErrorInternal err] ++ got.2 ++ sent,
      ret := .ok () }
  else
    { state := e, calls := [EngineCall.reportErrorInternal err, EngineCall.logError msg],
      ret := .ok () }

/-- Abort and stop the gadget and the camera, then clear the streaming flag (lines
1128-1133 and 1180-1185). -/
def stopDevices (env : EngineEnv) (e : Engine) : EngineResult Unit :=
  ((((deviceCall true EngineCall.gadgetAbortStream e).andThen
      (deviceCall true EngineCall.cameraAbortStream)).andThen
      (deviceCall env.gadgetStreamOffOk EngineCall.gadgetStreamOff)).andThen
      (deviceCall env.cameraStreamOffOk EngineCall.cameraStreamOff)).andThen
    (fun e1 => { state := { e1 with itsStreaming := false }, calls := [], ret := .ok () })

/-- Start the camera and the gadget, then set the streaming flag (lines 1155-1157 and
1167-1169). -/
def startDevices (env : EngineEnv) (e : Engine) : EngineResult Unit :=
  ((deviceCall env.cameraStreamOnOk EngineCall.cameraStreamOn e).andThen
      (deviceCall env.gadgetStreamOnOk EngineCall.gadgetStreamOn)).andThen
    (fun e1 => { state := { e1 with itsStreaming := true }, calls := [], ret := .ok () })

/-- The conversion of an `int` to the 64-bit `size_t` at the call `setFormat(rf)` of line
1143. -/
def toSizeT (rf : Int) : Nat := (rf % 2 ^ 64).toNat

/-- The `try` block of lines 1122-1172 for the requested format `rf`, which is not -2. -/
def changeFormat (p : Platform) (env : EngineEnv) (rf : Int) (e : Engine) : EngineResult Unit :=
  ((((({ state := e, calls := [], ret := .ok () } : EngineResult Unit).andThen (fun e1 =>
      if rf ≠ -1 ∧ e1.itsStreaming = true then stopDevices env e1
      else { state := e1, calls := [], ret := .ok () })).andThen (fun e1 =>
      if rf = -1 then setFormatInternal p env e1.itsCurrentMapping true e1
      else Engine.setFormat p env (toSizeT rf) e1)).andThen (fun e1 =>
      if p.pro = true ∧ e1.itsGUIhelper = true then
        { state := e1, calls := [EngineCall.guiResetState (decide (rf ≠ -1))], ret := .ok () }
      else { state := e1, calls := [], ret := .ok () })).andThen (fun e1 =>
      if rf ≠ -1 ∧ e1.itsCurrentMapping.ofmt ≠ 0 then startDevices env e1
      else { state := e1, calls := [], ret := .ok () })).andThen (fun e1 =>
      if p.pro = true ∧ e1.itsGUIhelper = true ∧ e1.itsStreaming = false then startDevices env e1
      else { state := e1, calls := [], ret := .ok () })

/-- Lines 1114-1189 of `Engine::mainLoop`: service a pending format request.  An exception
of the `try` block is reported and the devices are stopped; an exception while stopping
them is swallowed. -/
def serviceFormatRequest (p : Platform) (env : EngineEnv) (e : Engine) : EngineResult Unit :=
  if e.itsRequestedFormat = -2 then { state := e, calls := [], ret := .ok () }
  else
    let r := changeFormat p env e.itsRequestedFormat { e with itsRequestedFormat := -2 }
    match r.ret with
    | .ok _ => r
    | .threw x =>
      let r1 := reportErrorInternal p env "" x r.state
      let r2 := stopDevices env r1.state
      { state := r2.state, calls := r.calls ++ r1.calls ++ r2.calls, ret := .ok () }

/-- Lines 1196-1262 of `Engine::mainLoop`: run the current module.  The value returned is
`dosleep`. -/
def runModule (p : Platform) (env : EngineEnv) (e : Engine) : EngineResult Bool :=
  if e.itsStreaming = false then { state := e, calls := [], ret := .ok true }
  else if e.itsModuleConstructionError ≠ "" then
    let r := reportErrorInternal p env e.itsModuleConstructionError Error.unknownException e
    { state := r.state, calls := r.calls, ret := .ok true }
  else
    match e.itsModule with
    | none => { state := e, calls := [], ret := .ok true }
    | some i =>
      let display : List EngineCall :=
        if e.itsCurrentMapping.ofmt = 0 ∧ p.pro = true ∧ e.itsGUIhelper = true then
          [EngineCall.headlessDisplay]
        else []
      match env.process i with
      | .ok _ =>
        { state := { e with frameNumber := e.frameNumber + 1, itsNumSerialSent := 0 },
          calls := [EngineCall.process i] ++ display, ret := .ok false }
      | .threw x =>
        let r := reportErrorInternal p env "" x e
        { state := { r.state with frameNumber := r.state.frameNumber + 1,
                                  itsNumSerialSent := 0 },
          calls := [EngineCall.process i] ++ r.calls, ret := .ok true }

/-- Lines 1264-1269 of `Engine::mainLoop`: honour a request to stop the main loop. -/
def stopMainLoop (e : Engine) : Engine :=
  if e.itsStopMainLoop then { e with itsStreaming := false, itsStopMainLoop := false } else e

/-- A serial interface as the main loop sees it through `readSome` and `writeString`: the
complete lines that wait to be read, in arrival order, and whether writing to the interface
succeeds.  Each `readSome` returns the next complete line, and returns false when there is
none (Serial.C, `Serial::readSome`).  Read errors are not part of the model. -/
structure UserInterface where
  instanceName : String
  pending : List String
  writeOk : Bool
  deriving DecidableEq, Repr

/-- The function `stringStartsWith` for the prefix test of line 1298. -/
def stringStartsWith (str pfx : String) : Bool := pfx.data.isPrefixOf str.data

/-- The member function `Engine::reportError` (lines 1380-1387). -/
def reportError (p : Platform) (err : String) (e : Engine) : EngineResult Unit :=
  { state := e,
    calls := [EngineCall.reportError err]
      ++ (if p.pro = true ∧ e.itsGUIhelper = true then [EngineCall.guiReportError err] else [])
      ++ [EngineCall.logError err],
    ret := .ok () }

/-- One call of `s->writeString(pfx, str)`. -/
def writeString (port : Nat) (s : UserInterface) (pfx str : String) (e : Engine) :
    EngineResult Unit :=
  { state := e, calls := [EngineCall.writeString port pfx str],
    ret := if s.writeOk then .ok () else .threw .ioctlFailed }

/-- Lines 1298-1303: the command prefix in force for a line, the hidden prefix when the
line starts with it and the empty string otherwise. -/
def commandPrefix (env : EngineEnv) (line : String) : String :=
  if stringStartsWith line env.jvinv then env.jvinv else ""

/-- Lines 1298-1303: the command carried by a line, which is the line without the hidden
prefix. -/
def commandText (env : EngineEnv) (line : String) : String :=
  if stringStartsWith line env.jvinv then ⟨line.data.drop env.jvinv.data.length⟩ else line

/-- The body of the `while` loop of lines 1285-1327 for the line `line` just read from
interface number `port`; `received` counts the lines read from it in this iteration, this
one included. -/
def serviceLine (p : Platform) (env : EngineEnv) (port : Nat) (s : UserInterface)
    (received : Nat) (line : String) (e : Engine) : EngineResult Unit :=
  let warned : EngineResult Unit :=
    if received % 10 = 0 then
      reportError p ("Warning: high rate of serial inputs on port: " ++ s.instanceName
        ++ ". \n\n" ++ "This may adversely affect JeVois framerate.") e
    else { state := e, calls := [], ret := .ok () }
  let pfx := commandPrefix env line
  let str := commandText env line
  warned.andThen (fun e0 =>
    let parsed := env.parseCommand e0 str pfx
    let tried : EngineResult Unit :=
      { state := parsed.1, calls := [EngineCall.parseCommand port str pfx], ret := .ok () }
    match parsed.2 with
    | .handled =>
      tried.andThen (fun e1 =>
        if e1.quietcmd = false ∧ e1.itsShellMode = false then writeString port s pfx "OK" e1
        else { state := e1, calls := [], ret := .ok () })
    | .threw x =>
      tried.andThen
        (writeString port s pfx (if x.isStd then "ERR " ++ env.what x else "ERR Unknown error"))
    | .notRecognized =>
      tried.andThen (fun e1 =>
        match e1.itsModule with
        | none =>
          writeString port s pfx ("ERR Unsupported command [" ++ str ++ "] and no module") e1
        | some i =>
          let asked : EngineResult Unit :=
            { state := e1, calls := [EngineCall.parseSerial i port str], ret := .ok () }
          match env.parseSerial i str with
          | .ok _ =>
            asked.andThen (fun e2 =>
              if e2.quietcmd = false ∧ e2.itsShellMode = false then
                writeString port s pfx "OK" e2
              else { state := e2, calls := [], ret := .ok () })
          | .threw x =>
            asked.andThen
              (writeString port s pfx
                (if x.isStd then "ERR " ++ env.what x
                 else "ERR Command [" ++ str ++ "] not recognized by Engine or Module"))))

/-- The `while (s->readSome(str))` loop of lines 1285-1327 over the lines that wait at one
interface, after `received` lines were read.  The value returned is the list of lines that
still wait when the loop is left: none when it ran to its end, those after the line being
served when an exception escaped to the `catch` of line 1329. -/
def serviceLines (p : Platform) (env : EngineEnv) (port : Nat) (s : UserInterface) :
    Nat → List String → Engine → EngineResult (List String)
  | _, [], e => { state := e, calls := [], ret := .ok [] }
  | received, line :: rest, e =>
    let r := serviceLine p env port s (received + 1) line e
    match r.ret with
    | .threw _ => { state := r.state, calls := r.calls, ret := .ok rest }
    | .ok _ =>
      let r1 := serviceLines p env port s (received + 1) rest r.state
      { state := r1.state, calls := r.calls ++ r1.calls, ret := r1.ret }

/-- The lines left waiting after `serviceLines`. -/
def EngineResult.remaining (r : EngineResult (List String)) : List String :=
  match r.ret with
  | .ok rest => rest
  | .threw _ => []

/-- The `for` loop of lines 1279-1330 over the interfaces, numbered from `port` on.  The
value returned is the interfaces with the lines that still wait at each. -/
def serviceSerials (p : Platform) (env : EngineEnv) :
    Nat → List UserInterface → Engine → EngineResult (List UserInterface)
  | _, [], e => { state := e, calls := [], ret := .ok [] }
  | port, s :: more, e =>
    let r := serviceLines p env port s 0 s.pending e
    let r1 := serviceSerials p env (port + 1) more r.state
    { state := r1.state, calls := r.calls ++ r1.calls,
      ret := match r1.ret with
        | .ok others => .ok ({ s with pending := r.remaining } :: others)
        | .threw x => .threw x }

/-- One iteration of the `while` loop of `Engine::mainLoop` (lines 1105-1331); sleeping is
not part of the model. -/
def mainLoopIteration (p : Platform) (env : EngineEnv) (serials : List UserInterface)
    (e : Engine) : EngineResult (List UserInterface) :=
  let r1 := serviceFormatRequest p env e
  let r2 := runModule p env r1.state
  let r3 := serviceSerials p env 0 serials (stopMainLoop r2.state)
  { state := r3.state, calls := r1.calls ++ r2.calls ++ r3.calls, ret := r3.ret }
/-! ## The command `setmapping` of the engine (Engine.C, `parseCommand`) -/

/-- The characters that `std::isspace` accepts in the C locale: blank, tab, line feed,
vertical tab, form feed and carriage return. -/
def isSpaceChar (c : Char) : Bool :=
  c.toNat = 32 || (9 ≤ c.toNat && c.toNat ≤ 13)

/-- The value of a string of decimal digits. -/
def digitsValue (ds : List Char) : Nat :=
  ds.foldl (fun n c => 10 * n + (c.toNat - 48)) 0

/-- The library function `std::stoi(str)` in base 10, as called at line 2502: leading white
space is skipped, an optional sign is read, then as many decimal digits as there are, and
what follows them is ignored.  Without a digit it throws `std::invalid_argument`; a value
outside the range of `int` throws `std::out_of_range`. -/
def stoi (str : String) : Outcome Int :=
  let cs := str.toList.dropWhile isSpaceChar
  let body := if cs.head? = some '-' ∨ cs.head? = some '+' then cs.tail else cs
  let ds := body.takeWhile Char.isDigit
  if ds = [] then .threw .invalidArgument
  else
    let v : Int := if cs.head? = some '-' then - (digitsValue ds : Int) else (digitsValue ds : Int)
    if v < -2147483648 ∨ 2147483647 < v then .threw .outOfRange else .ok v

/-- The first word `cmd` of a command that does not start with an exclamation mark, and the
text `rem` after its first blank (lines 2017-2021). -/
def splitCommand (str : String) : String × String :=
  (String.mk (str.toList.takeWhile (fun c => c != ' ')),
   String.mk (str.toList.dropWhile (fun c => c != ' ')).tail)

/-- The exception thrown at the end of `Engine::parseCommand` (line 2759) for the command
`str` when an error message was set. -/
def commandError (str errmsg : String) : Error :=
  .commandError ("Command error [" ++ str ++ "]: " ++ errmsg)

/-- The block of `Engine::parseCommand` for the command `setmapping` (lines 2500-2519),
entered with the whole command `str` and the text `rem` after its first word, followed by
the end of the function (lines 2757-2760): no later block matches the word `setmapping`, so
an error message set here is thrown as `commandError`.  The index is the `int` returned by
`std::stoi`, converted to `size_t`. -/
def setmappingCommand (p : Platform) (env : EngineEnv) (str rem : String) (e : Engine) :
    EngineResult Bool :=
  match stoi rem with
  | .threw x => { state := e, calls := [], ret := .threw x }
  | .ok n =>
    if e.itsStreaming = true ∧ e.itsCurrentMapping.ofmt ≠ 0 then
      { state := e, calls := [],
        ret := .threw (commandError str
          "Cannot set mapping while streaming: Stop your webcam program on the host computer first.") }
    else if h : e.itsMappings.length ≤ toSizeT n then
      { state := e, calls := [],
        ret := .threw (commandError str
          ("Requested mapping index " ++ toString (toSizeT n) ++ " out of range [0 .. "
            ++ toString ((e.itsMappings.length + 2 ^ 64 - 1) % 2 ^ 64) ++ "]")) }
    else
      match (setFormatInternal p env (e.itsMappings.get ⟨toSizeT n, Nat.lt_of_not_le h⟩)
              false e).ret with
      | .ok _ =>
        { state := (setFormatInternal p env (e.itsMappings.get ⟨toSizeT n, Nat.lt_of_not_le h⟩)
                     false e).state,
          calls := (setFormatInternal p env (e.itsMappings.get ⟨toSizeT n, Nat.lt_of_not_le h⟩)
                     false e).calls,
          ret := .ok true }
      | .threw x =>
        { state := (setFormatInternal p env (e.itsMappings.get ⟨toSizeT n, Nat.lt_of_not_le h⟩)
                     false e).state,
          calls := (setFormatInternal p env (e.itsMappings.get ⟨toSizeT n, Nat.lt_of_not_le h⟩)
                     false e).calls,
          ret := .threw (commandError str
            ("Error parsing or setting mapping [" ++ rem
              ++ (if x.isStd then "]: " ++ env.what x else "]"))) }

/-- The member function `Engine::parseCommand` (lines 1957-2761) as far as the command
`setmapping` is concerned.  In shell mode every command goes to the shell (lines 1964-1972)
and the block is not reached.  Otherwise a command whose first word is `setmapping` is not
empty and starts neither with a tilde, `AT`, a hash nor an exclamation mark, so it passes
lines 1987-2012, is split at line 2017 and runs the block of lines 2500-2519; the blocks
before it match other words.  Every other command is answered by the environment. -/
def Engine.parseCommand (p : Platform) (env : EngineEnv) (str pfx : String) (e : Engine) :
    EngineResult Bool :=
  if e.itsShellMode = false ∧ (splitCommand str).1 = "setmapping" then
    setmappingCommand p env str (splitCommand str).2 e
  else
    { state := (env.parseCommand e str pfx).1, calls := [],
      ret := match (env.parseCommand e str pfx).2 with
        | .handled => .ok true
        | .notRecognized => .ok false
        | .threw x => .threw x }

/-! ## Loading the table of video mappings (VideoMapping.C) -/

/-- The member function `VideoMapping::hasSameSpecsAs` (lines 199-206). -/
def VideoMapping.hasSameSpecsAs (a other : VideoMapping) : Bool :=
  a.ofmt == other.ofmt && a.ow == other.ow && a.oh == other.oh &&
  decide (|a.ofps - other.ofps| < 1 / 100) &&
  a.cfmt == other.cfmt && a.cw == other.cw && a.ch == other.ch &&
  decide (|a.cfps - other.cfps| < 1 / 100) &&
  a.crop == other.crop &&
  (a.crop != CropType.CropScale ||
    (a.c2fmt == other.c2fmt && a.c2w == other.c2w && a.c2h == other.c2h &&
      decide (|a.cfps - other.cfps| < 1 / 100)))

/-- The member function `VideoMapping::isSameAs` (lines 209-213). -/
def VideoMapping.isSameAs (a other : VideoMapping) : Bool :=
  a.hasSameSpecsAs other && a.wdr == other.wdr && a.vendor == other.vendor &&
  a.modulename == other.modulename && a.ispython == other.ispython

/-- A default-constructed `VideoMapping` (`jevois::VideoMapping m;`): the member initialisers
are in VideoMapping.H, outside these sources; they are taken to be zero, empty, `Linear` and
`Scale`, as the test `defmapping.cfmt == 0` of line 393 relies on. -/
def VideoMapping.blank : VideoMapping :=
  { ofmt := 0, ow := 0, oh := 0, ofps := 0, cfmt := 0, cw := 0, ch := 0, cfps := 0,
    uvcformat := 0, uvcframe := 0, wdr := WDRtype.Linear, crop := CropType.Scale,
    c2fmt := 0, c2w := 0, c2h := 0, vendor := "", modulename := "", ispython := false }

/-- The conversion of an `int` to `unsigned int` (32 bits). -/
def toUnsigned (n : Int) : Nat := (n % 2 ^ 32).toNat

/-- The function `parse_relative_dim(str, c)` (lines 238-247): an absolute value, or `c` plus
or minus the number that follows the sign.  The sum is the exact integer. -/
def parse_relative_dim (str : String) (c : Int) : Outcome Int :=
  if str = "" then .threw .rangeError
  else if str.toList.head? = some '+' then
    match stoi (String.mk str.toList.tail) with
    | .ok v => .ok (c + v)
    | .threw x => .threw x
  else if str.toList.head? = some '-' then
    match stoi (String.mk str.toList.tail) with
    | .ok v => .ok (c - v)
    | .threw x => .threw x
  else stoi str

/-- A line of the stream that has at least ten tokens and is no comment, after the
conversions whose code is outside these sources or that do not matter here: `strfcc` of token
0, `std::stof` of tokens 3 and 7, and `parse_cam_format` of token 4 (camera format, WDR mode,
crop type and second stream).  Tokens 1, 2, 5 and 6 are kept as text.  `moduleType` is what
`setModuleType` finds, the language of the module, or nothing when it throws because there
is no module file; `star` tells whether token 10 is an asterisk.  Lines for which one of
these conversions throws are skipped by lines 354-355 like the lines that are blank,
comments or too short, and are not part of the input. -/
structure MappingLine where
  ofmt : Nat
  ows : String
  ohs : String
  ofps : ℚ
  cfmt : Nat
  wdr : WDRtype
  crop : CropType
  c2fmt : Nat
  c2w : Nat
  c2h : Nat
  cws : String
  chs : String
  cfps : ℚ
  vendor : String
  modulename : String
  moduleType : Option Bool
  star : Bool

/-- The `try` block of lines 341-355 followed by lines 357-366: the mapping parsed from one
line, with its module language when the module file exists; a conversion that throws makes
the loop skip the line. -/
def parseLine (l : MappingLine) : Outcome VideoMapping :=
  match stoi l.cws with
  | .threw x => .threw x
  | .ok cw =>
    match stoi l.chs with
    | .threw x => .threw x
    | .ok ch =>
      match parse_relative_dim l.ows cw with
      | .threw x => .threw x
      | .ok ow =>
        match parse_relative_dim l.ohs ch with
        | .threw x => .threw x
        | .ok oh =>
          .ok { VideoMapping.blank with
                ofmt := l.ofmt, ow := toUnsigned ow, oh := toUnsigned oh, ofps := l.ofps,
                cfmt := l.cfmt, cw := toUnsigned cw, ch := toUnsigned ch, cfps := l.cfps,
                wdr := l.wdr, crop := l.crop, c2fmt := l.c2fmt, c2w := l.c2w, c2h := l.c2h,
                vendor := l.vendor, modulename := l.modulename,
                ispython := l.moduleType.getD false }

/-- The tests of lines 361-386 on a parsed mapping: true when the loop goes on to keep it.
`pro` stands for `JEVOIS_PRO` and `platform` for `JEVOIS_PLATFORM`; `sensorSupports` is the
function `sensorSupportsFormat` for the sensor in use. -/
def keepMapping (pro platform checkso hasgui : Bool) (sensorSupports : VideoMapping → Bool)
    (found : Bool) (m : VideoMapping) : Bool :=
  if found = false ∧ checkso = true then false
  else if sensorSupports m = false then false
  else if hasgui = false ∧ m.ofmt = JEVOISPRO_FMT_GUI then false
  else if pro = false ∧ m.ofmt = JEVOISPRO_FMT_GUI then false
  else if pro = false ∧ platform = false
      ∧ (m.crop = CropType.CropScale ∨ m.crop = CropType.Crop) then false
  else true

/-- One round of the loop of lines 332-401 on the table built so far and the default mapping
found so far. -/
def parseStep (pro platform checkso hasgui : Bool) (sensorSupports : VideoMapping → Bool)
    (st : List VideoMapping × VideoMapping) (l : MappingLine) :
    List VideoMapping × VideoMapping :=
  match parseLine l with
  | .threw _ => st
  | .ok m =>
    if keepMapping pro platform checkso hasgui sensorSupports l.moduleType.isSome m = true then
      (st.1 ++ [m], if l.star = true ∧ st.2.cfmt = 0 then m else st.2)
    else st

/-- The comparison passed to `std::sort` (lines 405-438): true when `a` goes before `b`. -/
def mappingBefore (a b : VideoMapping) : Bool :=
  if a.ofmt < b.ofmt then true
  else if a.ofmt = b.ofmt then
    if a.ow > b.ow then true
    else if a.ow = b.ow then
      if a.oh > b.oh then true
      else if a.oh = b.oh then
        if a.ofps > b.ofps then true
        else if |a.ofps - b.ofps| < 1 / 100 then
          if a.cfmt < b.cfmt then true
          else if a.cfmt = b.cfmt then
            if a.cw > b.cw then true
            else if a.cw = b.cw then
              if a.ch > b.ch then true
              else if a.ch = b.ch then decide (a.cfps > b.cfps)
              else false
            else false
          else false
        else false
      else false
    else false
  else false

/-- Puts `x` into a sorted list in front of the first element that it goes before. -/
def insertSorted (x : VideoMapping) : List VideoMapping → List VideoMapping
  | [] => [x]
  | y :: l => if mappingBefore x y = true then x :: y :: l else y :: insertSorted x l

/-- The call of `std::sort` at line 404.  The standard leaves the order of elements that the
comparison does not separate unspecified; here they keep the order of the input, as with the
insertion sort that the library runs on short ranges. -/
def sortMappings (l : List VideoMapping) : List VideoMapping :=
  l.foldl (fun acc x => insertSorted x acc) []

/-- The mapping inserted by lines 447-450 when no mapping with UVC output was found. -/
def defaultMapping : VideoMapping :=
  { VideoMapping.blank with
    ofmt := V4L2_PIX_FMT_YUYV, ow := 640, oh := 480, ofps := 30,
    cfmt := V4L2_PIX_FMT_YUYV, cw := 640, ch := 480, cfps := 30,
    vendor := "JeVois", modulename := "PassThrough", ispython := false }

/-- Lines 444-454: the default mapping is appended when the sorted table is empty or ends
with a mapping whose output is NONE or GUI. -/
def insertDefault (mappings : List VideoMapping) : List VideoMapping :=
  match mappings.getLast? with
  | none => mappings ++ [defaultMapping]
  | some m =>
    if m.ofmt = 0 ∨ m.ofmt = JEVOISPRO_FMT_GUI then mappings ++ [defaultMapping]
    else mappings

/-- The frame rate adjustment of lines 464-470 on the entry `b` that follows `a`, compiled
only when the build is not for JeVois-Pro. -/
def adjustRate (pro : Bool) (a b : VideoMapping) : VideoMapping :=
  if pro = false ∧ b.ofmt ≠ 0 ∧ b.ofmt ≠ JEVOISPRO_FMT_GUI
      ∧ a.ofmt = b.ofmt ∧ a.ow = b.ow ∧ a.oh = b.oh then
    if |a.ofps - b.ofps| < 1 / 100 then { b with ofps := b.ofps - 1 }
    else if b.ofps > a.ofps then { b with ofps := a.ofps - 1 }
    else b
  else b

/-- The loop of lines 459-472 with the iterator `a` on the entry `a` and `b` at the head of
the list: an entry that is the same as `a` is erased, any other entry is adjusted and
becomes the next `a`. -/
def dedupeFrom (pro : Bool) (a : VideoMapping) : List VideoMapping → List VideoMapping
  | [] => [a]
  | b :: rest =>
    if a.isSameAs b = true then dedupeFrom pro a rest
    else a :: dedupeFrom pro (adjustRate pro a b) rest

/-- Lines 459-472 on the whole table, which is not empty at that point. -/
def dedupe (pro : Bool) : List VideoMapping → List VideoMapping
  | [] => []
  | a :: rest => dedupeFrom pro a rest

/-- The local variables of lines 490-498. -/
structure UvcCursor where
  ofmt : Nat
  ow : Nat
  oh : Nat
  iformat : Nat
  iframe : Nat
  deriving DecidableEq, Repr

/-- The initial values of line 490; `~0U` is 4294967295. -/
def UvcCursor.start : UvcCursor :=
  { ofmt := 4294967295, ow := 4294967295, oh := 4294967295, iformat := 0, iframe := 0 }

/-- The loop of lines 491-498, which numbers the formats and frames. -/
def assignUvc : UvcCursor → List VideoMapping → List VideoMapping
  | _, [] => []
  | c, m :: ms =>
    if m.ofmt = 0 ∨ m.ofmt = JEVOISPRO_FMT_GUI then
      { m with uvcformat := 0, uvcframe := 0 } :: assignUvc c ms
    else
      let c1 : UvcCursor :=
        if m.ofmt ≠ c.ofmt then
          { ofmt := m.ofmt, ow := 4294967295, oh := 4294967295,
            iformat := c.iformat + 1, iframe := 0 }
        else c
      let c2 : UvcCursor :=
        if m.ow ≠ c1.ow ∨ m.oh ≠ c1.oh then
          { c1 with ow := m.ow, oh := m.oh, iframe := c1.iframe + 1 }
        else c1
      { m with uvcformat := c2.iformat, uvcframe := c2.iframe } :: assignUvc c2 ms

/-- Lines 475-485: the index of the default mapping in the table; `defidx` is the value that
the caller's variable had, which stays when no mapping has an output format. -/
def findDefault (mappings : List VideoMapping) (defmapping : VideoMapping) (defidx : Nat) :
    Nat :=
  if defmapping.cfmt = 0 then
    (firstMapping (fun m => m.ofmt != 0) mappings 0).getD defidx
  else
    (firstMapping (fun m => m.isSameAs defmapping) mappings 0).getD 0

/-- The function `videoMappingsFromStream(s, is, defidx, checkso, hasgui)` (lines 325-501)
from the lines of the stream: the returned table and the value left in `defidx`. -/
def videoMappingsFromStream (pro platform : Bool) (sensorSupports : VideoMapping → Bool)
    (lines : List MappingLine) (defidx : Nat) (checkso hasgui : Bool) :
    List VideoMapping × Nat :=
  let parsed := lines.foldl (parseStep pro platform checkso hasgui sensorSupports)
    ([], VideoMapping.blank)
  let sorted := sortMappings parsed.1
  if checkso = false then (sorted, 0)
  else
    let cleaned := dedupe pro (insertDefault sorted)
    (assignUvc UvcCursor.start cleaned, findDefault cleaned parsed.2 defidx)

/-! ## The engine with its camera and its gadget: format changes (Camera.C, Engine.C) -/

/-- The data members of `jevois::Camera` that `setFormat` uses: the buffer count given at
construction, the capture devices in order of creation, and the indices of the devices that
deliver the main and the second stream (-1 for none). -/
structure Camera where
  itsNbufs : Nat
  itsDev : List CameraDevice
  itsDevIdx : Int
  itsDev2Idx : Int
  deriving DecidableEq, Repr

/-- What `Camera::setFormat` needs from outside these sources: the native capture size and
the preset chosen by `sensorPrepareSetFormat` for a mapping, the pixel format
`ISP_V4L2_PIX_FMT_META`, whether a newly opened device reports the multi-plane capability,
and the answers of the driver to a device that is asked for a pixel format at a capture
size. -/
structure CameraEnv where
  sensorPrepare : VideoMapping → Nat × Nat × Int
  metaFormat : Nat
  mplane : Bool
  driver : Nat → Nat → Nat → FormatDriver

/-- The constant `ISP_META_WIDTH` (Camera.C line 30). -/
def ISP_META_WIDTH : Nat := 272

/-- The constant `ISP_META_HEIGHT` (Camera.C line 31). -/
def ISP_META_HEIGHT : Nat := 1

/-- One device that `Camera::setFormat` opens: the arguments `nbufs` and `dummy` of the
constructor of `CameraDevice`, then the arguments of `CameraDevice::setFormat`. -/
structure DeviceRequest where
  nbufs : Nat
  dummy : Bool
  fmt : Nat
  capw : Nat
  caph : Nat
  fps : ℚ
  cropw : Nat
  croph : Nat
  preset : Int
  deriving DecidableEq, Repr

/-- A device when its constructor returns (CameraDevice.C lines 75-169): the state of
`CameraDevice.init`, with the poll thread running unless the device is a dummy. -/
def CameraDevice.opened (cenv : CameraEnv) (nbufs : Nat) (dummy : Bool) : CameraDevice :=
  { CameraDevice.init nbufs cenv.mplane with itsRunning := !dummy }

/-- The statements `itsDev.push_back(std::make_shared<CameraDevice>(...))` and
`itsDev.back()->setFormat(...)` for each request in turn, as long as none throws: the
devices of the camera afterwards and the outcome. -/
def openDevices (p : Platform) (cenv : CameraEnv) :
    List DeviceRequest → List CameraDevice → List CameraDevice × Outcome Unit
  | [], devs => (devs, .ok ())
  | r :: rest, devs =>
    match (setFormat p (cenv.driver r.fmt r.capw r.caph) (CameraDevice.opened cenv r.nbufs r.dummy)
            r.fmt r.capw r.caph r.fps r.cropw r.croph r.preset).ret with
    | .ok _ =>
      openDevices p cenv rest
        (devs ++ [(setFormat p (cenv.driver r.fmt r.capw r.caph)
          (CameraDevice.opened cenv r.nbufs r.dummy)
          r.fmt r.capw r.caph r.fps r.cropw r.croph r.preset).state])
    | .threw x =>
      (devs ++ [(setFormat p (cenv.driver r.fmt r.capw r.caph)
          (CameraDevice.opened cenv r.nbufs r.dummy)
          r.fmt r.capw r.caph r.fps r.cropw r.croph r.preset).state], .threw x)

/-- The devices that `Camera::setFormat` opens for a mapping, with the values that it then
gives to `itsDevIdx` and `itsDev2Idx`.  Without `JEVOIS_PLATFORM_PRO` (lines 132-146) there
is one device at the camera size.  With it (lines 49-128), for the native size `capw` by
`caph` and the preset of the sensor: three devices (raw frame, metadata, scaled frame) when
the crop type is `Scale` and the native size differs from the camera size, one device when
it is `Crop` or when `Scale` falls through, and three devices (raw frame, metadata, second
stream) when it is `CropScale`. -/
def devicePlan (platformPro : Bool) (cenv : CameraEnv) (nbufs : Nat) (m : VideoMapping) :
    List DeviceRequest × Int × Int :=
  if platformPro = false then
    ([{ nbufs := nbufs, dummy := false, fmt := m.cfmt, capw := m.cw, caph := m.ch,
        fps := m.cfps, cropw := m.cw, croph := m.ch, preset := -1 }], 0, -1)
  else
    match m.crop with
    | .Scale =>
      if (cenv.sensorPrepare m).1 ≠ m.cw ∨ (cenv.sensorPrepare m).2.1 ≠ m.ch then
        ([{ nbufs := 2, dummy := true, fmt := m.cfmt, capw := (cenv.sensorPrepare m).1,
            caph := (cenv.sensorPrepare m).2.1, fps := m.cfps, cropw := m.cw, croph := m.ch,
            preset := (cenv.sensorPrepare m).2.2 },
          { nbufs := 2, dummy := true, fmt := cenv.metaFormat, capw := ISP_META_WIDTH,
            caph := ISP_META_HEIGHT, fps := 0, cropw := ISP_META_WIDTH,
            croph := ISP_META_HEIGHT, preset := -1 },
          { nbufs := nbufs, dummy := false, fmt := m.cfmt, capw := m.cw, caph := m.ch,
            fps := 0, cropw := m.cw, croph := m.ch, preset := -1 }], 2, -1)
      else
        ([{ nbufs := nbufs, dummy := false, fmt := m.cfmt, capw := (cenv.sensorPrepare m).1,
            caph := (cenv.sensorPrepare m).2.1, fps := m.cfps, cropw := m.cw, croph := m.ch,
            preset := (cenv.sensorPrepare m).2.2 }], 0, -1)
    | .Crop =>
      ([{ nbufs := nbufs, dummy := false, fmt := m.cfmt, capw := (cenv.sensorPrepare m).1,
          caph := (cenv.sensorPrepare m).2.1, fps := m.cfps, cropw := m.cw, croph := m.ch,
          preset := (cenv.sensorPrepare m).2.2 }], 0, -1)
    | .CropScale =>
      ([{ nbufs := 2, dummy := false, fmt := m.cfmt, capw := (cenv.sensorPrepare m).1,
          caph := (cenv.sensorPrepare m).2.1, fps := m.cfps, cropw := m.cw, croph := m.ch,
          preset := (cenv.sensorPrepare m).2.2 },
        { nbufs := 2, dummy := true, fmt := cenv.metaFormat, capw := ISP_META_WIDTH,
          caph := ISP_META_HEIGHT, fps := 0, cropw := ISP_META_WIDTH,
          croph := ISP_META_HEIGHT, preset := -1 },
        { nbufs := nbufs, dummy := false, fmt := m.c2fmt, capw := m.c2w, caph := m.c2h,
          fps := m.cfps, cropw := m.c2w, croph := m.c2h, preset := -1 }], 0, 2)

/-- The member function `Camera::setFormat` (Camera.C lines 49-146): the devices in use are
destroyed, then those of the plan are opened one after the other; the device indices are
set once all of them accepted their format. -/
def Camera.setFormat (p : Platform) (platformPro : Bool) (cenv : CameraEnv) (m : VideoMapping)
    (c : Camera) : Camera × Outcome Unit :=
  match (openDevices p cenv (devicePlan platformPro cenv c.itsNbufs m).1 []).2 with
  | .ok _ =>
    ({ itsNbufs := c.itsNbufs,
       itsDev := (openDevices p cenv (devicePlan platformPro cenv c.itsNbufs m).1 []).1,
       itsDevIdx := (devicePlan platformPro cenv c.itsNbufs m).2.1,
       itsDev2Idx := (devicePlan platformPro cenv c.itsNbufs m).2.2 }, .ok ())
  | .threw x =>
    ({ c with itsDev := (openDevices p cenv (devicePlan platformPro cenv c.itsNbufs m).1 []).1 },
      .threw x)

/-- The engine together with the camera and the gadget that it owns. -/
structure System where
  engine : Engine
  camera : Camera
  gadget : Gadget
  deriving DecidableEq, Repr

/-- What a format change leaves behind: the three objects, the calls of the engine and the
outcome. -/
structure SystemResult where
  state : System
  calls : List EngineCall
  ret : Outcome Unit
  deriving DecidableEq, Repr

/-- The member function `Engine::setFormatInternal(m, reload)` (Engine.C lines 959-1084) on
the engine with its devices: `itsCamera->setFormat(m)` (line 985) runs unless the call is a
reload or mass storage mode made the function throw before; `itsGadget->setFormat(m)` (line
995) runs next when the camera did not throw.  The engine sees whether each of them threw.
`sfmtOk` tells whether the gadget driver accepts the output format of a mapping. -/
def System.setFormatInternal (p : Platform) (platformPro : Bool) (cenv : CameraEnv)
    (sfmtOk : VideoMapping → Bool) (env : EngineEnv) (m : VideoMapping) (reload : Bool)
    (sys : System) : SystemResult :=
  let cam := Camera.setFormat p platformPro cenv m sys.camera
  let gad := Gadget.setFormat (sfmtOk m) m sys.gadget
  let r := jevois.setFormatInternal p
    { env with cameraSetFormatOk := fun _ => cam.2.isOk,
               gadgetSetFormatOk := fun _ => gad.ret.isOk } m reload sys.engine
  if reload = true ∨ (p.a33 = true ∧ sys.engine.itsMassStorageMode = true) then
    { state := { sys with engine := r.state }, calls := r.calls, ret := r.ret }
  else if cam.2.isOk = false then
    { state := { engine := r.state, camera := cam.1, gadget := sys.gadget },
      calls := r.calls, ret := r.ret }
  else
    { state := { engine := r.state, camera := cam.1, gadget := gad.state },
      calls := r.calls, ret := r.ret }

/-- The capture side of a camera as the claim observes it: for each device the format in
force, the frame rate, the conversion image and the format-valid flag. -/
def Camera.formatState (c : Camera) : List (V4L2Format × ℚ × RawImage × Bool) :=
  c.itsDev.map (fun d => (d.itsFormat, d.itsFps, d.itsConvertedOutputImage, d.itsFormatOk))

/-- The member function `Engine::setFormat(idx)` (Engine.C lines 934-946) on the engine with
its devices: an index outside the table throws, any other runs `setFormatInternal` on the
mapping at that index. -/
def System.setFormat (p : Platform) (platformPro : Bool) (cenv : CameraEnv)
    (sfmtOk : VideoMapping → Bool) (env : EngineEnv) (idx : Nat) (sys : System) :
    SystemResult :=
  match sys.engine.itsMappings[idx]? with
  | none => { state := sys, calls := [], ret := .threw .indexOutOfRange }
  | some m => System.setFormatInternal p platformPro cenv sfmtOk env m false sys

/-- The call `itsEngine->setFormat(idx)` as the gadget sees it while it handles an event:
the engine and the camera are those of `sys`, the gadget is the one that makes the call.
The calls on the gadget are those of `Gadget::setFormat`, when the engine gets that far. -/
def System.engineSetFormat (p : Platform) (platformPro : Bool) (cenv : CameraEnv)
    (sfmtOk : VideoMapping → Bool) (env : EngineEnv) (sys : System) (idx : Nat) (g : Gadget) :
    GadgetResult Unit :=
  { state := (System.setFormat p platformPro cenv sfmtOk env idx
      { sys with gadget := g }).state.gadget,
    calls :=
      match sys.engine.itsMappings[idx]? with
      | none => []
      | some m =>
        if (p.a33 = true ∧ sys.engine.itsMassStorageMode = true)
            ∨ (Camera.setFormat p platformPro cenv m sys.camera).2.isOk = false then []
        else (Gadget.setFormat (sfmtOk m) m g).calls,
    ret := (System.setFormat p platformPro cenv sfmtOk env idx { sys with gadget := g }).ret }

/-! ## The poll threads: locks and loop exits (CameraDevice.C and Gadget.C, `run`) -/

/-- Whether each timed lock of one iteration of `CameraDevice::run` is obtained within its
time limit: the output lock of line 225, the device lock of line 229, the output lock of
line 252 and the output lock of line 290.  A lock that is not obtained throws. -/
structure LockAnswers where
  swapLock : Bool
  deviceLock : Bool
  keepLock : Bool
  publishLock : Bool
  deriving DecidableEq, Repr

/-- All locks are obtained. -/
def LockAnswers.granted : LockAnswers :=
  { swapLock := true, deviceLock := true, keepLock := true, publishLock := true }

/-- What the poll thread does to the two mutexes and to the device, in program order:
`itsOutputMtx` protects the latest-frame slot and the pending-done list, `itsMtx` protects
the access to the device. -/
inductive LockEvent where
  | lockOutput
  | unlockOutput
  | lockDevice
  | unlockDevice
  | device (c : DevCall)
  deriving DecidableEq, Repr

/-- What one iteration with its locks leaves behind: the shared state, the local vector
`doneidx`, the lock operations and device calls in order, and the exception swallowed by
the handler of line 307, if any. -/
structure LockedRun where
  state : CameraDevice
  doneidx : List Nat
  trace : List LockEvent
  caught : Option Error
  deriving DecidableEq, Repr

/-- The test of line 245: a pool exists and fewer than two of its buffers are queued. -/
def lowWater (s : CameraDevice) : Bool :=
  match s.itsBuffers with
  | some b => decide (b.nqueued < 2)
  | none => false

/-- Lines 261-305 of `CameraDevice::run`, entered with the device lock held: the call of
`select` and what follows from the answer `ev` of the driver.  `t` is the trace so far.  The
device lock is released by `lck.unlock()` at line 286 before the frame is published, and by
the destructor of `lck` wherever else the `try` block is left. -/
def runPoll (la : LockAnswers) (s : CameraDevice) (t : List LockEvent) (ev : PollEvent) :
    LockedRun :=
  match ev with
  | .selectFailed eintr =>
    { state := s, doneidx := [],
      trace := t ++ [LockEvent.device DevCall.select, LockEvent.unlockDevice],
      caught := if eintr then none else some .selectError }
  | .timeout =>
    { state := s, doneidx := [],
      trace := t ++ [LockEvent.device DevCall.select, LockEvent.unlockDevice], caught := none }
  | .errorEvent =>
    { state := s, doneidx := [],
      trace := t ++ [LockEvent.device DevCall.select, LockEvent.unlockDevice],
      caught := some .deviceError }
  | .notReadable =>
    { state := s, doneidx := [],
      trace := t ++ [LockEvent.device DevCall.select, LockEvent.unlockDevice], caught := none }
  | .dqbufFailed =>
    { state := s, doneidx := [],
      trace := t ++ [LockEvent.device DevCall.select, LockEvent.device DevCall.dqbuf,
        LockEvent.unlockDevice],
      caught := some .ioctlFailed }
  | .frame index =>
    match s.itsBuffers with
    | none =>
      { state := s, doneidx := [],
        trace := t ++ [LockEvent.device DevCall.select, LockEvent.unlockDevice],
        caught := some .nullBuffers }
    | some b =>
      if index < b.size then
        if la.publishLock = true then
          { state := publish { s with itsBuffers := some b.dqbuf }
              (capturedImage { s with itsBuffers := some b.dqbuf } index),
            doneidx := [],
            trace := t ++ [LockEvent.device DevCall.select, LockEvent.device DevCall.dqbuf,
              LockEvent.unlockDevice, LockEvent.lockOutput, LockEvent.unlockOutput],
            caught := none }
        else
          { state := { s with itsBuffers := some b.dqbuf }, doneidx := [],
            trace := t ++ [LockEvent.device DevCall.select, LockEvent.device DevCall.dqbuf,
              LockEvent.unlockDevice],
            caught := some .lockTimeout }
      else
        { state := { s with itsBuffers := some b.dqbuf }, doneidx := [],
          trace := t ++ [LockEvent.device DevCall.select, LockEvent.device DevCall.dqbuf,
            LockEvent.unlockDevice],
          caught := some .indexOutOfRange }

/-- One iteration of the loop of `CameraDevice::run` (lines 218-307) with its lock
operations.  The output lock is taken and released around the swap (lines 224-227); the
device lock is taken at line 229 and held over the re-queue, the low-water step and the
poll; in the low-water step it is released (line 250) while the output lock is held to read
the slot (lines 251-254) and taken again (line 255). -/
def runLocked (la : LockAnswers) (s : CameraDevice) (doneidx : List Nat) (ev : PollEvent) :
    LockedRun :=
  if la.swapLock = false then
    { state := s, doneidx := doneidx, trace := [], caught := some .lockTimeout }
  else if la.deviceLock = false then
    { state := (runSwap s doneidx).1, doneidx := (runSwap s doneidx).2,
      trace := [LockEvent.lockOutput, LockEvent.unlockOutput], caught := some .lockTimeout }
  else
    let rq := runRequeue (runSwap s doneidx).1 (runSwap s doneidx).2
    let t2 := [LockEvent.lockOutput, LockEvent.unlockOutput, LockEvent.lockDevice]
      ++ rq.2.map (fun i => LockEvent.device (DevCall.qbuf i))
    if rq.1.itsStreaming = false then
      { state := rq.1, doneidx := [], trace := t2 ++ [LockEvent.unlockDevice], caught := none }
    else if lowWater rq.1 = true then
      if la.keepLock = true then
        runPoll la (runLowWater rq.1).1
          (t2 ++ [LockEvent.unlockDevice, LockEvent.lockOutput, LockEvent.unlockOutput,
              LockEvent.lockDevice]
            ++ (runLowWater rq.1).2.map (fun i => LockEvent.device (DevCall.qbuf i))) ev
      else
        { state := rq.1, doneidx := [], trace := t2 ++ [LockEvent.unlockDevice],
          caught := some .lockTimeout }
    else runPoll la rq.1 t2 ev

/-- Follows a trace from the lock state `held` (device lock held, output lock held): the
lock state at the end, or nothing when the trace breaks the discipline, that is when a
device call is made without the device lock or with the output lock, when the output lock
is taken while the device lock is held, or when a lock is taken twice or released without
being held. -/
def lockState : Bool × Bool → List LockEvent → Option (Bool × Bool)
  | held, [] => some held
  | held, .lockOutput :: t =>
    if held.1 = false ∧ held.2 = false then lockState (held.1, true) t else none
  | held, .unlockOutput :: t =>
    if held.2 = true then lockState (held.1, false) t else none
  | held, .lockDevice :: t =>
    if held.1 = false then lockState (true, held.2) t else none
  | held, .unlockDevice :: t =>
    if held.1 = true then lockState (false, held.2) t else none
  | held, .device _ :: t =>
    if held.1 = true ∧ held.2 = false then lockState held t else none

/-- The device calls of a trace, in order. -/
def deviceCalls : List LockEvent → List DevCall
  | [] => []
  | .device c :: t => c :: deviceCalls t
  | _ :: t => deviceCalls t

/-- What happens next around the loop of `CameraDevice::run`: the thread comes to the loop
test of line 218 and, when the flag is set, runs one iteration with the given locks and
driver answer; or the owner of the device clears the running flag (the destructor, line
180). -/
inductive CameraTurn where
  | iteration (la : LockAnswers) (ev : PollEvent)
  | ownerStops
  deriving DecidableEq, Repr

/-- The poll thread of the camera device between iterations: the shared state, the local
vector, whether the loop was left, and the number of iterations run. -/
structure CameraThread where
  state : CameraDevice
  doneidx : List Nat
  exited : Bool
  iterations : Nat
  deriving DecidableEq, Repr

/-- One turn of the loop of `CameraDevice::run`: the loop is left only by its test, there is
no `break` and the handler of line 307 catches everything thrown inside. -/
def CameraThread.step (t : CameraThread) : CameraTurn → CameraThread
  | .ownerStops => { t with state := { t.state with itsRunning := false } }
  | .iteration la ev =>
    if t.exited = true then t
    else if t.state.itsRunning = false then { t with exited := true }
    else
      { state := (runLocked la t.state t.doneidx ev).state,
        doneidx := (runLocked la t.state t.doneidx ev).doneidx,
        exited := false, iterations := t.iterations + 1 }

/-- The loop of `CameraDevice::run` over a sequence of turns. -/
def CameraThread.run (t : CameraThread) (turns : List CameraTurn) : CameraThread :=
  turns.foldl CameraThread.step t

/-- The answer of `select` in `Gadget::run` (line 261): failure with or without `EINTR`,
timeout, or a ready descriptor with its event and write flags. -/
inductive GadgetSelect where
  | failed (eintr : Bool)
  | timeout
  | ready (events writable : Bool)
  deriving DecidableEq, Repr

/-- The poll thread of the gadget between iterations: the gadget, its running flag, the
events that wait in the driver, whether the loop was left and the number of iterations run
to their end or to a `continue`. -/
structure GadgetThread where
  gadget : Gadget
  itsRunning : Bool
  pending : List Nat
  exited : Bool
  iterations : Nat
  deriving DecidableEq, Repr

/-- The member function `Gadget::processEvents` (lines 324-350) on the events that wait in
the driver: `VIDIOC_DQEVENT` throws when there is none; otherwise the first event is taken
and its handler runs inside `try ... catch (...) { }`, so nothing else is thrown.  `handle`
is what the handlers leave of the gadget.  Returns the gadget, the events left, and whether
the call threw. -/
def processEvents (handle : Nat → Gadget → Gadget) (pending : List Nat) (g : Gadget) :
    Gadget × List Nat × Bool :=
  match pending with
  | [] => (g, [], true)
  | ev :: rest => (handle ev g, rest, false)

/-- The loops `while (true) try { processEvents(); } catch (...) { break; }` of lines 273
and 283: events are processed until `processEvents` throws. -/
def drainEvents (handle : Nat → Gadget → Gadget) : List Nat → Gadget → Gadget × List Nat
  | [], g => (g, [])
  | ev :: rest, g => drainEvents handle rest (handle ev g)

/-- The block of lines 286-316 with its timed lock: at most one filled buffer is handed to
the driver; a lock that is not obtained, like any other exception, is caught by the handler
of line 316. -/
def queueDoneLocked (lockOk qbufOk : Bool) (g : Gadget) : Gadget :=
  if lockOk = true then (Gadget.queueDone qbufOk g).state else g

/-- What one iteration of the loop of `Gadget::run` needs from outside: the answer of
`select`, the events that arrived in the driver, the buffer that `VIDIOC_DQBUF` hands back,
whether the lock of line 288 is obtained and whether the driver accepts the buffer queued at
line 311. -/
structure GadgetAnswers where
  select : GadgetSelect
  arrived : List Nat
  dequeued : Option Nat
  lockOk : Bool
  qbufOk : Bool
  deriving DecidableEq, Repr

/-- One iteration of the loop of `Gadget::run` (lines 256-317): the gadget and the waiting
events afterwards, and whether the iteration ended with the `break` of line 263. -/
def gadgetIteration (handle : Nat → Gadget → Gadget) (a : GadgetAnswers) (pending : List Nat)
    (g : Gadget) : Gadget × List Nat × Bool :=
  match a.select with
  | .failed eintr => (g, pending ++ a.arrived, !eintr)
  | .timeout =>
    let d := drainEvents handle (pending ++ a.arrived) g
    (queueDoneLocked a.lockOk a.qbufOk d.1, d.2, false)
  | .ready events writable =>
    let e1 :=
      if events = true then
        drainEvents handle (processEvents handle (pending ++ a.arrived) g).2.1
          (processEvents handle (pending ++ a.arrived) g).1
      else (g, pending ++ a.arrived)
    let v := if writable = true then (Gadget.processVideo a.dequeued e1.1).state else e1.1
    let d := drainEvents handle e1.2 v
    (queueDoneLocked a.lockOk a.qbufOk d.1, d.2, false)

/-- What happens next around the loop of `Gadget::run`: the thread comes to the loop test of
line 255 and, when the flag is set, runs one iteration; or the owner of the gadget clears the
running flag (the destructor, line 192). -/
inductive GadgetTurn where
  | iteration (a : GadgetAnswers)
  | ownerStops
  deriving DecidableEq, Repr

/-- One turn of the loop of `Gadget::run`: the loop is left by its test, or by the `break`
of line 263 after which line 320 clears the running flag. -/
def GadgetThread.step (handle : Nat → Gadget → Gadget) (t : GadgetThread) :
    GadgetTurn → GadgetThread
  | .ownerStops => { t with itsRunning := false }
  | .iteration a =>
    if t.exited = true then t
    else if t.itsRunning = false then { t with exited := true }
    else if (gadgetIteration handle a t.pending t.gadget).2.2 = true then
      { t with gadget := (gadgetIteration handle a t.pending t.gadget).1,
               pending := (gadgetIteration handle a t.pending t.gadget).2.1,
               itsRunning := false, exited := true }
    else
      { gadget := (gadgetIteration handle a t.pending t.gadget).1,
        itsRunning := true,
        pending := (gadgetIteration handle a t.pending t.gadget).2.1,
        exited := false, iterations := t.iterations + 1 }

/-- The loop of `Gadget::run` over a sequence of turns. -/
def GadgetThread.run (handle : Nat → Gadget → Gadget) (t : GadgetThread)
    (turns : List GadgetTurn) : GadgetThread :=
  turns.foldl (GadgetThread.step handle) t

/-- True for an iteration in which `select` fails with an error other than `EINTR`. -/
def GadgetTurn.selectBreaks : GadgetTurn → Bool
  | .iteration a => a.select == GadgetSelect.failed false
  | .ownerStops => false

/-! ## Auxiliary definitions for the statements -/

/-- The indices that are waiting to go back to the device: the pending-done list followed
by the index of the frame in the slot, if any. -/
def pendingWithSlot (s : CameraDevice) : List Nat :=
  s.itsDoneIdx ++ (if s.itsOutputImage.valid then [s.itsOutputImage.bufindex] else [])

/-- The image handed to the caller of `get`: the slot image, or the conversion image
carrying the buffer index of the slot image when a conversion image is allocated. -/
def delivered (s : CameraDevice) : RawImage :=
  if s.itsConvertedOutputImage.valid then
    { s.itsConvertedOutputImage with bufindex := s.itsOutputImage.bufindex }
  else s.itsOutputImage

/-- The state in which `setFormat` starts its locked part: the state after `streamOff` when
the device was streaming, else the state itself. -/
def afterStreamOff (s : CameraDevice) : CameraDevice :=
  if s.itsStreaming then (streamOff s).state else s

/-- The rate that the interval encodes for `getVideoMappingIdx`: the integer quotient
`1000000000 / interval`, rounded to single precision, times the single-precision constant
nearest to 0.01, which is 5368709 / 2 ^ 29, rounded again. -/
def encodedRate (interval : Nat) : ℚ :=
  f32 (f32 ((1000000000 / interval : Nat) : ℚ) * (5368709 / 536870912))

/-- The selection rule of `getVideoMappingIdx` written out: the mapping has the requested
format and frame index and, when the interval is not zero, the difference between its
output rate and the encoded rate, rounded to single precision, is in absolute value below
the single-precision constant nearest to 0.1, which is 13421773 / 2 ^ 27. -/
def MappingSelected (iformat iframe interval : Nat) (m : VideoMapping) : Prop :=
  m.uvcformat = iformat ∧ m.uvcframe = iframe ∧
    (interval ≠ 0 → |f32 (m.ofps - encodedRate interval)| < 13421773 / 134217728)

/-- The selection rule in the words of the specification, over the exact rationals: same
format and frame index and, when the interval is not zero, an output frame rate within 0.1
fps of the rate encoded by the interval. -/
def WithinTenth (iformat iframe interval : Nat) (m : VideoMapping) : Prop :=
  m.uvcformat = iformat ∧ m.uvcframe = iframe ∧
    (interval ≠ 0 → |m.ofps - encodedRate interval| < 1 / 10)

/-- The gadget together with the whereabouts of the buffers that are in neither of its two
queues: `held` lists the indices of the images that the application obtained from `get` and
has not passed to `send`, `inDriver` the indices handed to the output driver and not yet
handed back by it. -/
structure GadgetWorld where
  gadget : Gadget
  held : List Nat
  inDriver : List Nat
  deriving DecidableEq, Repr

/-- A call by the application or a step of the poll thread of the gadget. -/
inductive GadgetAction where
  | setFormat (sfmtOk : Bool) (m : VideoMapping)
  | streamOn (drv : StreamDriver)
  | abortStream
  | streamOff
  | get
  | send (img : RawImage)
  | queueDone (qbufOk : Bool)
  | processVideo (dequeued : Option Nat)
  deriving DecidableEq, Repr

/-- The world right after the construction of the gadget. -/
def GadgetWorld.init (p : Platform) (nbufs : Nat) (multicam : Bool) (m : VideoMapping) :
    GadgetWorld :=
  { gadget := Gadget.init p nbufs multicam m, held := [], inDriver := [] }

/-- The discipline of the two parties outside the gadget: the application passes to `send`
only an image that it holds, and the output driver hands back only a buffer that it was
given. -/
def GadgetWorld.allowed (w : GadgetWorld) : GadgetAction → Bool
  | .send img => decide (img.bufindex ∈ w.held)
  | .processVideo (some idx) => decide (idx ∈ w.inDriver)
  | _ => true

/-- The world after one action.  `streamOff` releases the pool, so the images that the
application still holds and the buffers in the driver are gone.  A successful `get` adds the
image to those held and a `send` that returns removes it; the indices that `queueDone` takes
off the transmit queue go to the driver, and the index that `processVideo` dequeues leaves
it. -/
def GadgetWorld.step (p : Platform) (w : GadgetWorld) : GadgetAction → GadgetWorld
  | .setFormat sfmtOk m => { w with gadget := (w.gadget.setFormat sfmtOk m).state }
  | .streamOn drv => { w with gadget := (w.gadget.streamOn p drv).state }
  | .abortStream => { w with gadget := (w.gadget.abortStream).state }
  | .streamOff => { gadget := (w.gadget.streamOff).state, held := [], inDriver := [] }
  | .get =>
    { w with
      gadget := (w.gadget.get).state,
      held := match (w.gadget.get).ret with
        | .ok img => img.bufindex :: w.held
        | .threw _ => w.held }
  | .send img =>
    { w with
      gadget := (w.gadget.send img).state,
      held := match (w.gadget.send img).ret with
        | .ok _ => w.held.erase img.bufindex
        | .threw _ => w.held }
  | .queueDone qbufOk =>
    { w with
      gadget := (w.gadget.queueDone qbufOk).state,
      inDriver :=
        w.gadget.itsDoneImgs.take
            (w.gadget.itsDoneImgs.length - (w.gadget.queueDone qbufOk).state.itsDoneImgs.length)
          ++ w.inDriver }
  | .processVideo dequeued =>
    { w with
      gadget := (w.gadget.processVideo dequeued).state,
      inDriver := match dequeued with
        | some idx =>
          if GadgetCall.dqbuf ∈ (w.gadget.processVideo dequeued).calls then w.inDriver.erase idx
          else w.inDriver
        | none => w.inDriver }

/-- The world after a sequence of actions, `none` when one of them breaks the discipline. -/
def GadgetWorld.run (p : Platform) : GadgetWorld → List GadgetAction → Option GadgetWorld
  | w, [] => some w
  | w, a :: rest => if w.allowed a then GadgetWorld.run p (w.step p a) rest else none

/-- All buffer indices that the world accounts for: blank images queued for the application,
images held by it, the transmit queue, and buffers in the driver. -/
def GadgetWorld.owners (w : GadgetWorld) : Multiset Nat :=
  (w.gadget.itsImageQueue.map RawImage.bufindex : Multiset Nat) + (w.held : Multiset Nat)
    + (w.gadget.itsDoneImgs : Multiset Nat) + (w.inDriver : Multiset Nat)

/-- The invariant of the ownership discipline: no buffer index is accounted for twice, and
without a pool no index is accounted for at all. -/
def GadgetWorld.Consistent (w : GadgetWorld) : Prop :=
  w.owners.Nodup ∧
    (w.gadget.itsBuffers = none →
      w.gadget.itsImageQueue = [] ∧ w.held = [] ∧ w.gadget.itsDoneImgs = [] ∧ w.inDriver = [])

/-- The command and prefix of a recorded call of `Engine::parseCommand`. -/
def EngineCall.dispatched : EngineCall → Option (String × String)
  | .parseCommand _ str pfx => some (str, pfx)
  | _ => none

/-- True for the calls made by the warning about a high rate of serial input (lines
1290-1292): `Engine::reportError` and what it calls. -/
def EngineCall.isWarning : EngineCall → Bool
  | .reportError _ => true
  | .guiReportError _ => true
  | .logError _ => true
  | _ => false

/-- The reply "OK" of line 1326, written unless the `quietcmd` parameter or shell mode is
on. -/
def okReply (port : Nat) (pfx : String) (e : Engine) : List EngineCall :=
  if e.quietcmd = false ∧ e.itsShellMode = false then [EngineCall.writeString port pfx "OK"]
  else []

/-- The system after `Engine::setFormatInternal(m)`. -/
def System.afterFormat (p : Platform) (platformPro : Bool) (cenv : CameraEnv)
    (sfmtOk : VideoMapping → Bool) (env : EngineEnv) (m : VideoMapping) (sys : System) :
    System :=
  (System.setFormatInternal p platformPro cenv sfmtOk env m false sys).state

/-- The engine apart from the four members that `setFormatInternal` writes. -/
def Engine.rest (e : Engine) : Engine :=
  { e with itsModule := none, itsModuleConstructionError := "",
           itsCurrentMapping := VideoMapping.blank, frameNumber := 0 }

/-- The gadget apart from the two members that `Gadget::setFormat` writes. -/
def Gadget.rest (g : Gadget) : Gadget :=
  { g with itsFormat := { width := 0, height := 0, pixelformat := 0 }, itsFps := 0 }

/-- One call of a member function of `CameraDevice` that changes its stream state, with the
answers of the driver during that call. -/
inductive DeviceAction where
  | setFormat (drv : FormatDriver) (fmt capw caph : Nat) (fps : ℚ) (cropw croph : Nat)
      (preset : Int)
  | streamOn (drv : StreamDriver)
  | abortStream
  | streamOff

/-- The state of the device after an action, whether the call returned or threw. -/
def DeviceAction.run (p : Platform) (s : CameraDevice) : DeviceAction → CameraDevice
  | .setFormat drv fmt capw caph fps cropw croph preset =>
    (jevois.setFormat p drv s fmt capw caph fps cropw croph preset).state
  | .streamOn drv => (jevois.streamOn p drv s).state
  | .abortStream => (jevois.abortStream s).state
  | .streamOff => (jevois.streamOff s).state

/-- True for a call of `setFormat`. -/
def DeviceAction.isSetFormat : DeviceAction → Bool
  | .setFormat _ _ _ _ _ _ _ _ => true
  | _ => false

/-- The state of the device after a sequence of actions, first action first. -/
def runActions (p : Platform) : CameraDevice → List DeviceAction → CameraDevice
  | s, [] => s
  | s, a :: rest => runActions p (a.run p s) rest

/-- Every `setFormat` of the sequence is issued on a device that holds no buffer pool or
that is streaming: the two situations in which the test of line 493 does what its comment
says.  `Camera::setFormat` (Camera.C lines 49-147) only calls `setFormat` on a device it has
just constructed, which holds no pool. -/
def formatCallsGuarded (p : Platform) : CameraDevice → List DeviceAction → Bool
  | _, [] => true
  | s, a :: rest =>
    (!a.isSetFormat || s.itsBuffers.isNone || s.itsStreaming)
      && formatCallsGuarded p (a.run p s) rest

/-! ## Concrete states used to evaluate the model -/

/-- A streaming device with a pool of five buffers that are all queued to the driver, an
empty slot and nothing pending, capturing 640 by 480 YUYV. -/
def demoStreaming : CameraDevice :=
  { itsNbufs := 0, itsBuffers := some { size := 5, nqueued := 5 }, itsStreaming := true,
    itsFormatOk := true, itsRunning := true, itsMplane := false,
    itsFormat := { width := 640, height := 480, pixelformat := V4L2_PIX_FMT_YUYV },
    itsFps := 30, itsOutputImage := RawImage.empty,
    itsConvertedOutputImage := RawImage.empty, itsDoneIdx := [] }

/-- The consumer side of one frame: the poll thread captures buffer `f`, then the consumer
calls `get` (and does not call `done`). -/
def captureThenGet (s : CameraDevice) (f : Nat) : Result RawImage :=
  get (runIteration s [] (PollEvent.frame f)).state
    (runIteration s [] (PollEvent.frame f)).state

/-- The state reached from `demoStreaming` when the device fills buffers 0, 1, 2 and 3 one
after the other and the consumer takes each of them with `get` without ever calling `done`:
the consumer holds four buffers and the one returned last is buffer 3. -/
def demoHolding : CameraDevice :=
  (captureThenGet (captureThenGet (captureThenGet
    (captureThenGet demoStreaming 0).state 1).state 2).state 3).state

/-- A bayer sensor behind a YUYV request: streaming, conversion image allocated, frame 3 in
the slot. -/
def demoBayer : CameraDevice :=
  { itsNbufs := 0, itsBuffers := some { size := 5, nqueued := 4 }, itsStreaming := true,
    itsFormatOk := true, itsRunning := true, itsMplane := false,
    itsFormat := { width := 640, height := 480, pixelformat := V4L2_PIX_FMT_SRGGB8 },
    itsFps := 30,
    itsOutputImage :=
      { width := 640, height := 480, fmt := V4L2_PIX_FMT_SRGGB8, fps := 30,
        buf := some (VideoBufRef.pool 3), bufindex := 3 },
    itsConvertedOutputImage :=
      { width := 640, height := 480, fmt := V4L2_PIX_FMT_YUYV, fps := 30,
        buf := some VideoBufRef.heap, bufindex := 0 },
    itsDoneIdx := [] }

/-- The state reached from `demoStreaming` when the consumer has taken buffers 0, 1 and 2
with `get` without calling `done`, and buffer 3 has just been captured into the slot: one
buffer is left queued. -/
def demoSlotFull : CameraDevice :=
  (runIteration (captureThenGet (captureThenGet
    (captureThenGet demoStreaming 0).state 1).state 2).state [] (PollEvent.frame 3)).state

/-- A 32-bit non-Pro, non-A33 build with two bytes per pixel for every format. -/
def demoPlatform : Platform :=
  { pro := false, a33 := false, v4l2ImageSize := fun _ w h => w * h * 2 }

/-- A driver for a sensor that only delivers raw Bayer: it refuses every format but SRGGB8
and reads back SRGGB8 at 640 by 480. -/
def demoBayerDriver : FormatDriver :=
  { gfmtOk := true,
    sfmtAccepts := fun f => f.pixelformat == V4L2_PIX_FMT_SRGGB8,
    readback := some { width := 640, height := 480, pixelformat := V4L2_PIX_FMT_SRGGB8 },
    cropcapOk := true, scropOk := true, sparmOk := true, sctrlOk := fun _ => true }

/-- A driver that accepts whatever is asked and reads back YUYV at 640 by 480. -/
def demoYuyvDriver : FormatDriver :=
  { gfmtOk := true,
    sfmtAccepts := fun _ => true,
    readback := some { width := 640, height := 480, pixelformat := V4L2_PIX_FMT_YUYV },
    cropcapOk := true, scropOk := true, sparmOk := true, sctrlOk := fun _ => true }

/-- A device constructed with automatic buffer count, after a successful `setFormat` for
YUYV at 640 by 480. -/
def demoFormatSet : CameraDevice :=
  (setFormat demoPlatform demoYuyvDriver (CameraDevice.init 0 false)
    V4L2_PIX_FMT_YUYV 640 480 30 640 480 (-1)).state

/-- A device constructed with a buffer count of 2, as `Camera::setFormat` does for its raw
frame and metadata streams, after a successful `setFormat`. -/
def demoTwoBuffers : CameraDevice :=
  (setFormat demoPlatform demoYuyvDriver (CameraDevice.init 2 false)
    V4L2_PIX_FMT_YUYV 640 480 30 640 480 (-1)).state

/-- A driver that allocates buffers and starts streaming without error. -/
def demoStreamDriver : StreamDriver := { reqbufsOk := true, streamonOk := true }

/-- A driver that refuses every format. -/
def demoRejectDriver : FormatDriver :=
  { gfmtOk := true,
    sfmtAccepts := fun _ => false,
    readback := none,
    cropcapOk := true, scropOk := true, sparmOk := true, sctrlOk := fun _ => true }

/-- A driver that allocates buffers but fails to start streaming. -/
def demoNoStreamDriver : StreamDriver := { reqbufsOk := true, streamonOk := false }

/-- A mapping with the given output side and UVC indices, capturing YUYV 640 by 480 at 30
frames per second for a C++ module. -/
def demoMapping (ofmt ow oh : Nat) (ofps : ℚ) (uvcformat uvcframe : Nat)
    (modulename : String) : VideoMapping :=
  { ofmt := ofmt, ow := ow, oh := oh, ofps := ofps,
    cfmt := V4L2_PIX_FMT_YUYV, cw := 640, ch := 480, cfps := 30,
    uvcformat := uvcformat, uvcframe := uvcframe, wdr := WDRtype.Linear,
    crop := CropType.Scale, c2fmt := 0, c2w := 0, c2h := 0,
    vendor := "JeVois", modulename := modulename, ispython := false }

/-- A table of four mappings: a headless one, then YUYV 640 by 480 at 30 and at 15 frames
per second (same UVC format and frame), then YUYV 320 by 240 at 30. -/
def demoMappings : List VideoMapping :=
  [demoMapping 0 0 0 0 0 0 "SaveVideo",
   demoMapping V4L2_PIX_FMT_YUYV 640 480 30 1 1 "PassThrough",
   demoMapping V4L2_PIX_FMT_YUYV 640 480 15 1 1 "Convert",
   demoMapping V4L2_PIX_FMT_YUYV 320 240 30 1 2 "Edges"]

/-- A gadget right after construction, with YUYV 640 by 480 at 30 frames per second as the
default mapping and a buffer count left to the gadget. -/
def demoGadget : Gadget :=
  Gadget.init demoPlatform 0 false (demoMapping V4L2_PIX_FMT_YUYV 640 480 30 1 1 "PassThrough")

/-- A camera whose controls all read 0, range from 0 to 255 in steps of 1 with default 128,
and accept every value. -/
def demoControlCamera : ControlCamera :=
  { getControl := fun _ => some 0,
    queryControl := fun _ => some { minimum := 0, maximum := 255, step := 1, default_value := 128 },
    setControlOk := fun _ _ => true }

/-- Received streaming data asking for format 1, frame 1 and a frame interval of 333333
units of 100 ns (30 frames per second). -/
def demoCommitData : RequestData :=
  { length := 26, data := [0, 0, 1, 1, 0x15, 0x16, 0x05, 0x00] ++ List.replicate 52 0 }

/-- The gadget after YUYV 640 by 480 was set as its output format and streaming was turned
on: four buffers, all of them blank images queued for the application. -/
def demoGadgetStreaming : Gadget :=
  (Gadget.streamOn demoPlatform demoStreamDriver
    (Gadget.setFormat true (demoMapping V4L2_PIX_FMT_YUYV 640 480 30 1 1 "PassThrough")
      demoGadget).state).state

/-- The image that the application obtains from the first `get` after `streamOn`. -/
def demoGotImage : RawImage :=
  match (Gadget.get demoGadgetStreaming).ret with
  | .ok img => img
  | .threw _ => RawImage.empty

/-- A run in which the application gets two images and sends each of them once. -/
def demoSendOnce : List GadgetAction :=
  [GadgetAction.setFormat true (demoMapping V4L2_PIX_FMT_YUYV 640 480 30 1 1 "PassThrough"),
   GadgetAction.streamOn demoStreamDriver,
   GadgetAction.get,
   GadgetAction.send (Gadget.blankImage demoGadgetStreaming 0),
   GadgetAction.get,
   GadgetAction.send (Gadget.blankImage demoGadgetStreaming 1)]

/-- The world at the end of `demoSendOnce`. -/
def demoWorld : GadgetWorld :=
  demoSendOnce.foldl (GadgetWorld.step demoPlatform)
    (GadgetWorld.init demoPlatform 0 false
      (demoMapping V4L2_PIX_FMT_YUYV 640 480 30 1 1 "PassThrough"))

/-- An environment in which every device call succeeds, every module is constructed as
instance 7 and runs without error, and every command is handled by the engine. -/
def demoEnv : EngineEnv :=
  { cameraSetFormatOk := fun _ => true,
    gadgetSetFormatOk := fun _ => true,
    cameraStreamOnOk := true,
    gadgetStreamOnOk := true,
    cameraStreamOffOk := true,
    gadgetStreamOffOk := true,
    construction := fun _ => Construction.ready 7,
    gadgetGet := Outcome.ok (Gadget.blankImage demoGadgetStreaming 0),
    gadgetSendOk := true,
    process := fun _ => Outcome.ok (),
    parseSerial := fun _ _ => Outcome.ok (),
    parseCommand := fun e _ _ => (e, ParseOutcome.handled),
    what := fun _ => "error",
    splitLines := fun s => [s],
    cstrall := fun m => m.modulename,
    ostr := fun m => m.modulename,
    jvinv := "JVINV",
    usbsdOk := true }

/-- The environment `demoEnv` with a camera that refuses every format. -/
def demoCameraRefuses : EngineEnv := { demoEnv with cameraSetFormatOk := fun _ => false }

/-- An engine that streams YUYV 640 by 480 at 30 frames per second with module instance 3
loaded, no construction error and no pending format request; not a JeVois-Pro GUI. -/
def demoEngine : Engine :=
  { itsMappings := demoMappings,
    itsDefaultMappingIdx := 1,
    itsCurrentMapping := demoMapping V4L2_PIX_FMT_YUYV 640 480 30 1 1 "PassThrough",
    itsModule := some 3,
    itsModuleConstructionError := "",
    itsStreaming := true,
    itsStopMainLoop := false,
    itsRequestedFormat := -2,
    itsMassStorageMode := false,
    itsVideoErrors := true,
    itsVideoErrorImage := RawImage.empty,
    itsGUIhelper := false,
    itsShellMode := false,
    quietcmd := false,
    frameNumber := 0,
    itsNumSerialSent := 0,
    itsRunning := true }

/-- The demo engine when it is not streaming. -/
def demoIdle : Engine := { demoEngine with itsStreaming := false }

/-- A serial interface at which two complete command lines wait. -/
def demoPort : UserInterface :=
  { instanceName := "serial", pending := ["help", "info"], writeOk := true }

/-- The demo engine while it streams the headless mapping of the table (no USB output), as
after the command `streamon`. -/
def demoHeadlessStreaming : Engine :=
  { demoEngine with itsCurrentMapping := demoMapping 0 0 0 0 0 0 "SaveVideo" }

/-- A camera whose red balance reads 0x8000 and whose blue balance reads 0x1234. -/
def demoBalanceCamera : ControlCamera :=
  { getControl := fun id =>
      if id = V4L2_CID_RED_BALANCE then some 0x8000
      else if id = V4L2_CID_BLUE_BALANCE then some 0x1234
      else some 0,
    queryControl := fun _ => some { minimum := 0, maximum := 65535, step := 1, default_value := 0 },
    setControlOk := fun _ _ => true }

/-- The response of the gadget to a four-byte GET_CUR of the white balance component
control (selector 0x0c of the processing unit) with `demoBalanceCamera`. -/
def demoBalanceWord : RequestData :=
  match (processEventControl demoBalanceCamera UVC_GET_CUR 0x0c 2 4 RequestData.initial
      demoGadget).ret with
  | .ok r => r
  | .threw _ => RequestData.initial

/-- The gadget in the data stage of a SET_CUR of the white balance component control. -/
def demoBalanceSetCur : Gadget :=
  (processEventControl demoBalanceCamera UVC_SET_CUR 0x0c 2 4 RequestData.initial
    demoGadget).state

/-- A line of the stream for a C++ module of vendor JeVois that captures YUYV at `cws` by
`chs` and 30 frames per second, without asterisk. -/
def demoLine (ofmt : Nat) (ows ohs : String) (ofps : ℚ) (cws chs : String)
    (modulename : String) : MappingLine :=
  { ofmt := ofmt, ows := ows, ohs := ohs, ofps := ofps, cfmt := V4L2_PIX_FMT_YUYV,
    wdr := WDRtype.Linear, crop := CropType.Scale, c2fmt := 0, c2w := 0, c2h := 0,
    cws := cws, chs := chs, cfps := 30, vendor := "JeVois", modulename := modulename,
    moduleType := some false, star := false }

/-- The output side, the module and the UVC indices of the entries of a table. -/
def summary (l : List VideoMapping) : List (Nat × Nat × Nat × String × Nat × Nat) :=
  l.map (fun m => (m.ofmt, m.ow, m.oh, m.modulename, m.uvcformat, m.uvcframe))

/-- Three headless lines: `SaveVideo`, `Edges` and `SaveVideo` again, alike in everything
but the module. -/
def demoDuplicateLines : List MappingLine :=
  [demoLine 0 "0" "0" 0 "640" "480" "SaveVideo",
   demoLine 0 "0" "0" 0 "640" "480" "Edges",
   demoLine 0 "0" "0" 0 "640" "480" "SaveVideo"]

/-- Three headless lines whose output rates are 30, 30.0078125 and 30.00390625: the first
two are for `SaveVideo`, the third for `Edges`. -/
def demoNearLines : List MappingLine :=
  [demoLine 0 "0" "0" 30 "640" "480" "SaveVideo",
   demoLine 0 "0" "0" (3841 / 128) "640" "480" "SaveVideo",
   demoLine 0 "0" "0" (7681 / 256) "640" "480" "Edges"]

/-- The poll thread of the streaming demo camera at the loop test, with the running flag set. -/
def demoCameraThread : CameraThread :=
  { state := demoStreaming, doneidx := [], exited := false, iterations := 0 }

/-- The poll thread of the streaming demo gadget at the loop test, with the running flag set and
no event waiting. -/
def demoGadgetThread : GadgetThread :=
  { gadget := demoGadgetStreaming, itsRunning := true, pending := [], exited := false,
    iterations := 0 }

/-- An iteration of the gadget loop in which `select` fails with an error other than
`EINTR`. -/
def demoSelectFails : GadgetTurn :=
  GadgetTurn.iteration
    { select := GadgetSelect.failed false, arrived := [], dequeued := none, lockOk := true,
      qbufOk := true }

/-- An iteration of the gadget loop in which `select` times out. -/
def demoSelectTimeout : GadgetTurn :=
  GadgetTurn.iteration
    { select := GadgetSelect.timeout, arrived := [], dequeued := none, lockOk := true,
      qbufOk := true }

/-- Four iterations of the camera loop that each meet an error: a failed `select`, a device
error event, a device lock that is not obtained in time, and a failed dequeue. -/
def demoFaultyTurns : List CameraTurn :=
  [CameraTurn.iteration LockAnswers.granted (PollEvent.selectFailed false),
   CameraTurn.iteration LockAnswers.granted PollEvent.errorEvent,
   CameraTurn.iteration { LockAnswers.granted with deviceLock := false } PollEvent.timeout,
   CameraTurn.iteration LockAnswers.granted PollEvent.dqbufFailed]

/-- A camera environment whose sensor captures at the requested size without preset and
whose driver accepts every format and reads it back as asked. -/
def demoCameraEnv : CameraEnv :=
  { sensorPrepare := fun m => (m.cw, m.ch, -1),
    metaFormat := 0x4154454D,
    mplane := false,
    driver := fun fmt capw caph =>
      { gfmtOk := true, sfmtAccepts := fun _ => true,
        readback := some { width := capw, height := caph, pixelformat := fmt },
        cropcapOk := true, scropOk := true, sparmOk := true, sctrlOk := fun _ => true } }

/-- The idle demo engine with a camera that has no device yet and the demo gadget. -/
def demoSystem : System :=
  { engine := demoIdle,
    camera := { itsNbufs := 0, itsDev := [], itsDevIdx := -1, itsDev2Idx := -1 },
    gadget := demoGadget }

/-- A table with one mapping whose output rate is the single-precision number nearest to
0.11 frames per second. -/
def demoSlowTable : List VideoMapping :=
  [demoMapping V4L2_PIX_FMT_YUYV 640 480 (7381975 / 67108864) 1 1 "Slow"]

/-- The calls of the counterexample to C11: a format is set, the stream is started and
aborted, then a format that the driver refuses is set while the pool is still held. -/
def demoUnguardedCalls : List DeviceAction :=
  [DeviceAction.setFormat demoYuyvDriver V4L2_PIX_FMT_YUYV 640 480 30 640 480 (-1),
   DeviceAction.streamOn demoStreamDriver,
   DeviceAction.abortStream,
   DeviceAction.setFormat demoRejectDriver V4L2_PIX_FMT_YUYV 320 240 30 320 240 (-1)]

/-- A sequence of calls in which the second `setFormat`, refused by the driver, comes while
the device streams: the format is set, the stream is started, aborted, started again (a call
that is ignored because the pool is still held), stopped, started, and then a new format is
asked for. -/
def demoGuardedCalls : List DeviceAction :=
  [DeviceAction.setFormat demoYuyvDriver V4L2_PIX_FMT_YUYV 640 480 30 640 480 (-1),
   DeviceAction.streamOn demoStreamDriver,
   DeviceAction.abortStream,
   DeviceAction.streamOn demoStreamDriver,
   DeviceAction.streamOff,
   DeviceAction.streamOn demoStreamDriver,
   DeviceAction.setFormat demoRejectDriver V4L2_PIX_FMT_YUYV 320 240 30 320 240 (-1)]

/-! ## Auxiliary lemmas -/

theorem foldl_qbuf_size (l : List Nat) (b : VideoBuffers) :
    (l.foldl VideoBuffers.qbuf b).size = b.size := by
  induction l generalizing b with
  | nil => rfl
  | cons x xs ih => simp [List.foldl, ih, VideoBuffers.qbuf]

theorem foldl_qbuf_nqueued (l : List Nat) (b : VideoBuffers) :
    (l.foldl VideoBuffers.qbuf b).nqueued = b.nqueued + l.length := by
  induction l generalizing b with
  | nil => rfl
  | cons x xs ih => simp [List.foldl, ih, VideoBuffers.qbuf]; omega

theorem runSwap_nil (s : CameraDevice) :
    runSwap s [] = ({ s with itsDoneIdx := [] }, s.itsDoneIdx) := by
  cases s with
  | mk nb bufs st fo ru mp fm fps oi ci di =>
    cases di <;> simp [runSwap]

theorem runRequeue_some (s : CameraDevice) (b : VideoBuffers) (d : List Nat)
    (hb : s.itsBuffers = some b) :
    runRequeue s d = ({ s with itsBuffers := some (d.foldl VideoBuffers.qbuf b) }, d) := by
  simp [runRequeue, hb]

theorem runLowWater_some (s : CameraDevice) (b : VideoBuffers) (hb : s.itsBuffers = some b) :
    runLowWater s =
      if b.nqueued < 2 then
        ({ s with itsBuffers := some (b.qbufallbutone (lowWaterKeep s)) },
          b.allButOne (lowWaterKeep s))
      else (s, []) := by
  simp [runLowWater, hb]

theorem runLowWater_buffers (s : CameraDevice) (b : VideoBuffers)
    (hb : s.itsBuffers = some b) :
    ∃ b' : VideoBuffers, b'.size = b.size ∧
      (runLowWater s).1 = { s with itsBuffers := some b' } := by
  rw [runLowWater_some s b hb]
  by_cases h : b.nqueued < 2
  · refine ⟨b.qbufallbutone (lowWaterKeep s), ?_, by simp [h]⟩
    simp [VideoBuffers.qbufallbutone, foldl_qbuf_size]
  · refine ⟨b, rfl, ?_⟩
    rw [if_neg h]
    cases s
    simp_all

theorem runIteration_frame (s : CameraDevice) (b : VideoBuffers) (f : Nat)
    (hs : s.itsStreaming = true) (hb : s.itsBuffers = some b) (hf : f < b.size) :
    ∃ b' : VideoBuffers, b'.size = b.size ∧
      (runIteration s [] (PollEvent.frame f)).state =
        { s with
          itsBuffers := some b',
          itsDoneIdx := if s.itsOutputImage.valid then [s.itsOutputImage.bufindex] else [],
          itsOutputImage := capturedImage s f } ∧
      (runIteration s [] (PollEvent.frame f)).doneidx = [] ∧
      (runIteration s [] (PollEvent.frame f)).requeued = s.itsDoneIdx ∧
      (runIteration s [] (PollEvent.frame f)).caught = none := by
  obtain ⟨nb, bufs, st, fo, ru, mp, fm, fps, oi, ci, di⟩ := s
  simp only at hs hb
  subst hs hb
  obtain ⟨b1, hb1, hlw⟩ := runLowWater_buffers
    { itsNbufs := nb, itsBuffers := some (di.foldl VideoBuffers.qbuf b), itsStreaming := true,
      itsFormatOk := fo, itsRunning := ru, itsMplane := mp, itsFormat := fm, itsFps := fps,
      itsOutputImage := oi, itsConvertedOutputImage := ci, itsDoneIdx := [] }
    (di.foldl VideoBuffers.qbuf b) rfl
  rw [foldl_qbuf_size] at hb1
  refine ⟨b1.dqbuf, by simpa [VideoBuffers.dqbuf] using hb1, ?_⟩
  have hf1 : f < b1.size := by omega
  simp only [runIteration, runSwap_nil]
  rw [runRequeue_some _ b _ rfl]
  simp only [hlw]
  simp [hf1, publish, capturedImage]

theorem runIteration_step (s : CameraDevice) (b : VideoBuffers) (ev : PollEvent)
    (hs : s.itsStreaming = true) (hb : s.itsBuffers = some b)
    (hev : ∀ i, ev = PollEvent.frame i → i < b.size) :
    ∃ b' : VideoBuffers, b'.size = b.size ∧
      (runIteration s [] ev).state =
        { s with
          itsBuffers := some b',
          itsDoneIdx :=
            match ev.published with
            | some _ => if s.itsOutputImage.valid then [s.itsOutputImage.bufindex] else []
            | none => [],
          itsOutputImage :=
            match ev.published with
            | some i => capturedImage s i
            | none => s.itsOutputImage } ∧
      (runIteration s [] ev).doneidx = [] ∧
      (runIteration s [] ev).requeued = s.itsDoneIdx := by
  cases ev with
  | frame f =>
    obtain ⟨b', h1, h2, h3, h4, _⟩ := runIteration_frame s b f hs hb (hev f rfl)
    exact ⟨b', h1, h2, h3, h4⟩
  | selectFailed _ | timeout | errorEvent | notReadable | dqbufFailed =>
    obtain ⟨nb, bufs, st, fo, ru, mp, fm, fps, oi, ci, di⟩ := s
    simp only at hs hb
    subst hs hb
    obtain ⟨b1, hb1, hlw⟩ := runLowWater_buffers
      { itsNbufs := nb, itsBuffers := some (di.foldl VideoBuffers.qbuf b), itsStreaming := true,
        itsFormatOk := fo, itsRunning := ru, itsMplane := mp, itsFormat := fm, itsFps := fps,
        itsOutputImage := oi, itsConvertedOutputImage := ci, itsDoneIdx := [] }
      (di.foldl VideoBuffers.qbuf b) rfl
    rw [foldl_qbuf_size] at hb1
    refine ⟨b1, hb1, ?_⟩
    simp only [runIteration, runSwap_nil]
    rw [runRequeue_some _ b _ rfl]
    simp only [hlw]
    simp [PollEvent.published]

theorem runEvents_append (s : CameraDevice) (d : List Nat) (xs ys : List PollEvent) :
    runEvents s d (xs ++ ys) =
      { state := (runEvents (runEvents s d xs).state (runEvents s d xs).doneidx ys).state,
        doneidx := (runEvents (runEvents s d xs).state (runEvents s d xs).doneidx ys).doneidx,
        requeued := (runEvents s d xs).requeued ++
          (runEvents (runEvents s d xs).state (runEvents s d xs).doneidx ys).requeued } := by
  induction xs generalizing s d with
  | nil => simp [runEvents]
  | cons x xs ih => simp [runEvents, ih, List.append_assoc]

theorem runEvents_inv (evs : List PollEvent) (s : CameraDevice) (b : VideoBuffers)
    (hs : s.itsStreaming = true) (hb : s.itsBuffers = some b)
    (hlt : ∀ i, PollEvent.frame i ∈ evs → i < b.size) :
    (runEvents s [] evs).state.itsStreaming = true ∧
    (∃ b' : VideoBuffers, (runEvents s [] evs).state.itsBuffers = some b' ∧
      b'.size = b.size) ∧
    (runEvents s [] evs).doneidx = [] ∧
    (runEvents s [] evs).state.itsFormat = s.itsFormat ∧
    (runEvents s [] evs).state.itsFps = s.itsFps ∧
    (runEvents s [] evs).state.itsConvertedOutputImage = s.itsConvertedOutputImage ∧
    (runEvents s [] evs).requeued ++ pendingWithSlot (runEvents s [] evs).state =
      pendingWithSlot s ++ publishedFrames evs ∧
    (publishedFrames evs = [] →
      (runEvents s [] evs).state.itsOutputImage = s.itsOutputImage) ∧
    (∀ frames last, publishedFrames evs = frames ++ [last] →
      (runEvents s [] evs).state.itsOutputImage = capturedImage s last) := by
  induction evs generalizing s b with
  | nil =>
    refine ⟨hs, ⟨b, hb, rfl⟩, rfl, rfl, rfl, rfl, by simp [runEvents, publishedFrames],
      fun _ => rfl, ?_⟩
    intro frames last h
    simp [publishedFrames] at h
  | cons ev evs ih =>
    obtain ⟨b', hsz, hst, hd, hrq⟩ :=
      runIteration_step s b ev hs hb (fun i hi => hlt i (by rw [hi]; exact List.mem_cons_self _ _))
    have hlt' : ∀ i, PollEvent.frame i ∈ evs → i < b'.size := fun i hi => by
      rw [hsz]; exact hlt i (List.mem_cons_of_mem ev hi)
    have h1 : (runIteration s [] ev).state.itsStreaming = true := by
      rw [hst]; exact hs
    have h2 : (runIteration s [] ev).state.itsBuffers = some b' := by
      rw [hst]
    obtain ⟨i1, ⟨b2, i2, i2'⟩, i3, i4, i5, i6, i7, i8, i9⟩ := ih _ b' h1 h2 hlt'
    have hcap : ∀ l, capturedImage (runIteration s [] ev).state l = capturedImage s l := by
      intro l; rw [hst]; rfl
    simp only [runEvents, hd]
    refine ⟨i1, ⟨b2, i2, by omega⟩, i3, ?_, ?_, ?_, ?_, ?_, ?_⟩
    · rw [i4, hst]
    · rw [i5, hst]
    · rw [i6, hst]
    · rw [List.append_assoc, i7, hrq, hst]
      cases hp : ev.published with
      | none =>
        simp [pendingWithSlot, publishedFrames, List.filterMap_cons, hp]
      | some i =>
        simp [pendingWithSlot, publishedFrames, List.filterMap_cons, hp, capturedImage,
          RawImage.valid]
    · intro hnil
      cases hp : ev.published with
      | none =>
        have : publishedFrames evs = [] := by
          simpa [publishedFrames, List.filterMap_cons, hp] using hnil
        rw [i8 this, hst]
        simp [hp]
      | some i =>
        simp [publishedFrames, List.filterMap_cons, hp] at hnil
    · intro frames last hfl
      cases hp : ev.published with
      | none =>
        have : publishedFrames evs = frames ++ [last] := by
          simpa [publishedFrames, List.filterMap_cons, hp] using hfl
        rw [i9 frames last this, hcap]
      | some i =>
        have hcons : i :: publishedFrames evs = frames ++ [last] := by
          simpa [publishedFrames, List.filterMap_cons, hp] using hfl
        rcases List.eq_nil_or_concat (publishedFrames evs) with hnil | ⟨init, l, hcat⟩
        · rw [hnil] at hcons
          have hl : last = i := by
            cases frames with
            | nil => simpa using hcons.symm
            | cons f fs =>
              have := congrArg List.length hcons
              simp at this
          rw [i8 hnil, hst, hl]
          simp [hp]
        · rw [List.concat_eq_append] at hcat
          have hl : l = last := by
            rw [hcat] at hcons
            have h' : (i :: init) ++ [l] = frames ++ [last] := by simpa using hcons
            exact (List.append_inj' h' rfl).2 |> List.singleton_inj.1
          rw [i9 init l hcat, hcap, hl]

theorem get_of_frame (e wake : CameraDevice) (hstr : e.itsStreaming = true)
    (hv : e.itsOutputImage.valid = true)
    (hconv : e.itsConvertedOutputImage.valid = true →
      e.itsFormat.pixelformat = V4L2_PIX_FMT_SRGGB8 ∨
        e.itsFormat.pixelformat = V4L2_PIX_FMT_GREY) :
    get e wake =
      { state := { e with itsOutputImage := e.itsOutputImage.invalidate },
        calls := [],
        ret := Outcome.ok (delivered e) } := by
  have he : endOfWait e wake = (e, true) := by simp [endOfWait, hv]
  unfold get delivered
  simp only [he]
  by_cases hc : e.itsConvertedOutputImage.valid = true
  · rw [if_neg (by simp), if_neg (by simp [hstr]), if_pos hc, if_pos (hconv hc), if_pos hc]
  · rw [if_neg (by simp), if_neg (by simp [hstr]), if_neg hc, if_neg hc]

theorem endOfWait_flag (s wake : CameraDevice) :
    (endOfWait s wake).2 = waitPredicate (endOfWait s wake).1 := by
  unfold endOfWait waitFor
  cases h : s.itsOutputImage.valid
  · cases h' : waitPredicate s <;> simp [h']
  · simp [waitPredicate, h]

theorem invalidate_valid (img : RawImage) : img.invalidate.valid = false := rfl

theorem doneAll_streaming (imgs : List RawImage) (s : CameraDevice)
    (hs : s.itsStreaming = true) :
    doneAll s imgs = { s with itsDoneIdx := s.itsDoneIdx ++ imgs.map (fun i => i.bufindex) } := by
  induction imgs generalizing s with
  | nil => cases s; simp [doneAll]
  | cons img rest ih =>
    have h1 : (done s img).state = { s with itsDoneIdx := s.itsDoneIdx ++ [img.bufindex] } := by
      simp [done, hs]
    have h2 : (done s img).state.itsStreaming = true := by rw [h1]; exact hs
    simp only [doneAll]
    rw [ih _ h2, h1]
    simp

theorem filter_isQbuf_map (l : List Nat) :
    (l.map DevCall.qbuf).filter DevCall.isQbuf = l.map DevCall.qbuf := by
  induction l with
  | nil => rfl
  | cons x xs ih => simp [List.filter, DevCall.isQbuf, ih]

theorem allButOne_foldl (l : List Nat) (b : VideoBuffers) (k : Nat) :
    (l.foldl VideoBuffers.qbuf b).allButOne k = b.allButOne k := by
  simp [VideoBuffers.allButOne, foldl_qbuf_size]

theorem runIteration_requeue (s : CameraDevice) (b : VideoBuffers) (ev : PollEvent)
    (hs : s.itsStreaming = true) (hb : s.itsBuffers = some b) :
    (runIteration s [] ev).requeued = s.itsDoneIdx ∧
    (runIteration s [] ev).doneidx = [] ∧
    (runIteration s [] ev).forced =
      (if b.nqueued + s.itsDoneIdx.length < 2 then b.allButOne (lowWaterKeep s) else []) ∧
    (runIteration s [] ev).calls.filter DevCall.isQbuf =
      ((runIteration s [] ev).requeued ++ (runIteration s [] ev).forced).map DevCall.qbuf := by
  obtain ⟨nb, bufs, st, fo, ru, mp, fm, fps, oi, ci, di⟩ := s
  simp only at hs hb
  subst hs hb
  simp only [runIteration, runSwap_nil]
  rw [runRequeue_some _ b _ rfl]
  rw [runLowWater_some _ (di.foldl VideoBuffers.qbuf b) rfl]
  simp only [foldl_qbuf_nqueued, allButOne_foldl]
  have hk : lowWaterKeep
      { itsNbufs := nb, itsBuffers := some (di.foldl VideoBuffers.qbuf b), itsStreaming := true,
        itsFormatOk := fo, itsRunning := ru, itsMplane := mp, itsFormat := fm, itsFps := fps,
        itsOutputImage := oi, itsConvertedOutputImage := ci, itsDoneIdx := [] } =
      lowWaterKeep
      { itsNbufs := nb, itsBuffers := some b, itsStreaming := true,
        itsFormatOk := fo, itsRunning := ru, itsMplane := mp, itsFormat := fm, itsFps := fps,
        itsOutputImage := oi, itsConvertedOutputImage := ci, itsDoneIdx := di } := rfl
  rw [hk]
  by_cases hlow : b.nqueued + di.length < 2
  · simp only [if_pos hlow]
    cases ev <;>
      simp [List.filter_append, filter_isQbuf_map, DevCall.isQbuf, VideoBuffers.qbufallbutone,
        foldl_qbuf_size]
    split <;> simp [List.filter_append, filter_isQbuf_map, DevCall.isQbuf]
  · simp only [if_neg hlow]
    cases ev <;>
      simp [List.filter_append, filter_isQbuf_map, DevCall.isQbuf, foldl_qbuf_size]
    split <;> simp [List.filter_append, filter_isQbuf_map, DevCall.isQbuf]

theorem afterStreamOff_mplane (s : CameraDevice) : (afterStreamOff s).itsMplane = s.itsMplane := by
  unfold afterStreamOff; split <;> rfl

theorem afterStreamOff_streaming (s : CameraDevice) : (afterStreamOff s).itsStreaming = false := by
  unfold afterStreamOff; split
  · rfl
  · simp_all

theorem setFormat_state (p : Platform) (drv : FormatDriver)
    (s : CameraDevice) (fmt capw caph : Nat) (fps : ℚ) (cropw croph : Nat) (preset : Int) :
    (setFormat p drv s fmt capw caph fps cropw croph preset).state =
      (setFormatLocked p drv (afterStreamOff s) fmt capw caph fps cropw croph preset).state ∧
    (setFormat p drv s fmt capw caph fps cropw croph preset).ret =
      (setFormatLocked p drv (afterStreamOff s) fmt capw caph fps cropw croph preset).ret := by
  unfold setFormat afterStreamOff
  split <;> exact ⟨rfl, rfl⟩

/-- What a successful `setFormatLocked` has seen and what it leaves. -/
theorem setFormatLocked_ok (p : Platform) (drv : FormatDriver)
    (s : CameraDevice) (fmt capw caph : Nat) (fps : ℚ) (cropw croph : Nat) (preset : Int) :
    ((setFormatLocked p drv s fmt capw caph fps cropw croph preset).ret.isOk =
      (setFormatLocked p drv s fmt capw caph fps cropw croph preset).state.itsFormatOk) ∧
    ((setFormatLocked p drv s fmt capw caph fps cropw croph preset).state.itsFormatOk = true →
      ∃ rb pf, drv.readback = some rb ∧ readbackPixelformat p rb = some pf ∧
        formatRefused s.itsMplane { rb with pixelformat := pf } fmt capw caph = false ∧
        (setFormatLocked p drv s fmt capw caph fps cropw croph preset).state =
          { s with
            itsFormatOk := true,
            itsFormat := { width := cropw, height := croph, pixelformat := pf },
            itsFps := fps,
            itsConvertedOutputImage :=
              conversionImage
                { s with
                  itsFormatOk := false,
                  itsFormat := { width := cropw, height := croph, pixelformat := pf },
                  itsFps := fps } fmt }) := by
  unfold setFormatLocked
  simp only
  split
  · simp [Outcome.isOk]
  · split
    · simp [Outcome.isOk]
    · split
      · simp [Outcome.isOk]
      · split
        · simp [Outcome.isOk]
        · split
          · simp [Outcome.isOk]
          · split
            · simp [Outcome.isOk]
            · rename_i _ _ _ rb hrb _ pf hpf hnr hw
              refine ⟨by simp [Outcome.isOk], fun _ => ⟨rb, pf, hrb, hpf, ?_, rfl⟩⟩
              simpa using hnr

theorem formatRefused_eq_false_iff (mplane : Bool) (f : V4L2Format) (fmt capw caph : Nat) :
    formatRefused mplane f fmt capw caph = false ↔
      (f.width = capw ∧ f.height = caph ∧
        (f.pixelformat = fmt ∨ (mplane = false ∧ fmt = V4L2_PIX_FMT_YUYV ∧
          (f.pixelformat = V4L2_PIX_FMT_SRGGB8 ∨ f.pixelformat = V4L2_PIX_FMT_GREY)))) := by
  unfold formatRefused
  cases mplane
  · simp only [Bool.false_eq_true, if_false, Bool.or_eq_false_iff, Bool.and_eq_false_imp,
      bne_iff_ne, ne_eq, bne_eq_false_iff_eq, Bool.or_eq_true, Bool.and_eq_true, true_and]
    tauto
  · simp only [if_true, Bool.or_eq_false_iff, bne_eq_false_iff_eq, Bool.true_eq_false,
      false_and, or_false]
    tauto

theorem filterMap_sfmt_nil (l : List DevCall) (h : ∀ c ∈ l, c.sfmtPixelformat = none) :
    l.filterMap DevCall.sfmtPixelformat = [] := by
  induction l with
  | nil => rfl
  | cons c cs ih =>
    have hc := h c (List.mem_cons_self c cs)
    have hcs := ih (fun d hd => h d (List.mem_cons_of_mem c hd))
    simp [List.filterMap_cons, hc, hcs]

theorem filterMap_sfmt_map (l : List Nat) (w h : Nat) :
    (l.map (fun f => DevCall.sfmt f w h)).filterMap DevCall.sfmtPixelformat = l := by
  induction l with
  | nil => rfl
  | cons c cs ih => simp [List.filterMap_cons, DevCall.sfmtPixelformat, ih]

theorem streamOff_calls_sfmt (s : CameraDevice) :
    (streamOff s).calls.filterMap DevCall.sfmtPixelformat = [] := by
  apply filterMap_sfmt_nil
  intro c hc
  unfold streamOff at hc
  simp only [List.mem_append, List.mem_singleton] at hc
  rcases hc with (hc | hc) | hc
  · split at hc
    · simp only [List.mem_map] at hc
      obtain ⟨i, _, rfl⟩ := hc
      rfl
    · simp at hc
  · subst hc; rfl
  · split at hc
    · simp only [List.mem_singleton] at hc
      subst hc; rfl
    · simp at hc

theorem writeControls_calls_sfmt (ok : Int → Bool) (vs : List Int) :
    (writeControls ok vs).1.filterMap DevCall.sfmtPixelformat = [] := by
  induction vs with
  | nil => rfl
  | cons v vs ih =>
    unfold writeControls
    split
    · simp [List.filterMap_cons, DevCall.sfmtPixelformat, ih]
    · simp [List.filterMap_cons, DevCall.sfmtPixelformat]

theorem cropCalls_sfmt (drv : FormatDriver) (fps : ℚ) (capw caph cropw croph : Nat) :
    (cropCalls drv fps capw caph cropw croph).filterMap DevCall.sfmtPixelformat = [] := by
  unfold cropCalls
  split
  · split
    · split <;> rfl
    · rfl
  · rfl

theorem setFormatLocked_sfmt_calls (p : Platform) (drv : FormatDriver)
    (s : CameraDevice) (fmt capw caph : Nat) (fps : ℚ) (cropw croph : Nat) (preset : Int)
    (hg : drv.gfmtOk = true) :
    (setFormatLocked p drv s fmt capw caph fps cropw croph preset).calls.filterMap
        DevCall.sfmtPixelformat =
      (negotiate s.itsMplane drv.sfmtAccepts fmt capw caph).tried := by
  unfold setFormatLocked
  simp only [hg]
  have hsp : (if p.pro = false ∧ fps > 0 then [DevCall.sparm] else []).filterMap
      DevCall.sfmtPixelformat = [] := by
    split <;> rfl
  have hgf : [DevCall.gfmt].filterMap DevCall.sfmtPixelformat = [] := rfl
  split
  · simp at *
  · split
    · simp only [List.filterMap_append, filterMap_sfmt_map, hgf, List.nil_append]
    · split
      · simp only [List.filterMap_append, filterMap_sfmt_map, hgf, List.nil_append,
          List.append_nil]
      · split
        · simp only [List.filterMap_append, filterMap_sfmt_map, hgf, List.nil_append,
            List.append_nil]
        · split
          · simp only [List.filterMap_append, filterMap_sfmt_map, hgf, List.nil_append,
              List.append_nil]
          · split
            · simp only [List.filterMap_append, filterMap_sfmt_map, cropCalls_sfmt, hsp,
                writeControls_calls_sfmt, hgf, List.nil_append, List.append_nil]
            · simp only [List.filterMap_append, filterMap_sfmt_map, cropCalls_sfmt, hsp,
                writeControls_calls_sfmt, hgf, List.nil_append, List.append_nil]

theorem clampBuffers_eq (n : Nat) : clampBuffers n = max 5 (min n 8) := by
  unfold clampBuffers
  split
  · omega
  · split <;> omega

/-- What `streamOn` does once its guards are passed and the buffer count is known. -/
theorem streamOn_alloc (p : Platform) (drv : StreamDriver) (s : CameraDevice) (n : Nat)
    (hfo : s.itsFormatOk = true) (hns : s.itsStreaming = false) (hnb : s.itsBuffers = none)
    (hreq : requestedBuffers p s = some n) :
    (streamOn p drv s).calls.head? = some (DevCall.reqbufs (clampBuffers n)) ∧
    (drv.reqbufsOk = false ∨
      ∃ b, (streamOn p drv s).state.itsBuffers = some b ∧ b.size = clampBuffers n) := by
  obtain ⟨nb, bufs, st, fo, ru, mp, fm, fps, oi, ci, di⟩ := s
  simp only at hfo hns hnb
  subst hfo hns hnb
  unfold streamOn
  simp only [hreq]
  cases hr : drv.reqbufsOk <;> cases hs : drv.streamonOk <;>
    simp [VideoBuffers.qbufall, foldl_qbuf_size]

/-- After any `setFormat` that leaves the format-valid flag true, a conversion image exists
only together with a raw Bayer or monochrome device format. -/
theorem setFormat_conversion_consistent (p : Platform) (drv : FormatDriver)
    (s : CameraDevice) (fmt capw caph : Nat) (fps : ℚ) (cropw croph : Nat) (preset : Int)
    (hok : (setFormat p drv s fmt capw caph fps cropw croph preset).state.itsFormatOk = true)
    (hv : (setFormat p drv s fmt capw caph fps cropw croph
      preset).state.itsConvertedOutputImage.valid = true) :
    (setFormat p drv s fmt capw caph fps cropw croph preset).state.itsFormat.pixelformat
        = V4L2_PIX_FMT_SRGGB8 ∨
      (setFormat p drv s fmt capw caph fps cropw croph preset).state.itsFormat.pixelformat
        = V4L2_PIX_FMT_GREY := by
  obtain ⟨hst, _⟩ := setFormat_state p drv s fmt capw caph fps cropw croph preset
  obtain ⟨_, h2⟩ :=
    setFormatLocked_ok p drv (afterStreamOff s) fmt capw caph fps cropw croph preset
  rw [← hst] at h2
  obtain ⟨rb, pf, _, _, _, hstate⟩ := h2 hok
  rw [hstate] at hv ⊢
  simp only at hv ⊢
  unfold conversionImage at hv
  split at hv
  · rename_i hc
    exact hc.2.2
  · simp [invalidate_valid] at hv

theorem firstMapping_some (test : VideoMapping → Bool) (ms : List VideoMapping)
    (start idx : Nat) (h : firstMapping test ms start = some idx) :
    start ≤ idx ∧ idx - start < ms.length ∧
      (∃ m, ms[idx - start]? = some m ∧ test m = true) ∧
      (∀ j m, j < idx - start → ms[j]? = some m → test m = false) := by
  induction ms generalizing start with
  | nil => simp [firstMapping] at h
  | cons m ms ih =>
    unfold firstMapping at h
    by_cases ht : test m = true
    · rw [if_pos ht] at h
      cases h
      refine ⟨le_refl _, by simp, ⟨m, by simp, ht⟩, ?_⟩
      intro j m' hj
      simp at hj
    · rw [if_neg ht] at h
      obtain ⟨h1, h2, ⟨m', h3, h4⟩, h5⟩ := ih (start + 1) h
      have hidx : idx - start = (idx - (start + 1)) + 1 := by omega
      refine ⟨by omega, by simp only [List.length_cons]; omega, ⟨m', ?_, h4⟩, ?_⟩
      · rw [hidx, List.getElem?_cons_succ]; exact h3
      · intro j mj hj hget
        cases j with
        | zero =>
          simp only [List.getElem?_cons_zero, Option.some.injEq] at hget
          subst hget
          simpa using ht
        | succ k =>
          rw [List.getElem?_cons_succ] at hget
          exact h5 k mj (by omega) hget

theorem firstMapping_none (test : VideoMapping → Bool) (ms : List VideoMapping)
    (start : Nat) :
    firstMapping test ms start = none ↔ ∀ m ∈ ms, test m = false := by
  induction ms generalizing start with
  | nil => simp [firstMapping]
  | cons m ms ih =>
    unfold firstMapping
    by_cases ht : test m = true
    · simp [ht]
    · rw [if_neg ht, ih]
      simp only [List.mem_cons, forall_eq_or_imp]
      constructor
      · intro h; exact ⟨by simpa using ht, h⟩
      · intro h; exact h.2

theorem firstMapping_first (test : VideoMapping → Bool) (ms : List VideoMapping)
    (idx : Nat) (m : VideoMapping) (hget : ms[idx]? = some m) (ht : test m = true)
    (hbefore : ∀ j mj, j < idx → ms[j]? = some mj → test mj = false) (start : Nat) :
    firstMapping test ms start = some (start + idx) := by
  induction ms generalizing idx start with
  | nil => simp at hget
  | cons m0 ms ih =>
    unfold firstMapping
    cases idx with
    | zero =>
      simp only [List.getElem?_cons_zero, Option.some.injEq] at hget
      subst hget
      simp [ht]
    | succ k =>
      have h0 : test m0 = false := hbefore 0 m0 (by omega) (by simp)
      rw [if_neg (by simp [h0])]
      rw [List.getElem?_cons_succ] at hget
      have := ih k hget (fun j mj hj hg => hbefore (j + 1) mj (by omega)
        (by rw [List.getElem?_cons_succ]; exact hg)) (start + 1)
      rw [this]
      congr 1
      omega

/-- The single-precision constant `0.01F`. -/
theorem f32_hundredth : f32 (1 / 100) = 5368709 / 536870912 := by decide!

/-- The single-precision constant `0.1F`. -/
theorem f32_tenth : f32 (1 / 10) = 13421773 / 134217728 := by decide!

/-- The value of `uvcToFps` for an interval that is not zero. -/
theorem uvcToFps_encodedRate (interval : Nat) (hi : interval ≠ 0) :
    uvcToFps interval = some (encodedRate interval) := by
  unfold uvcToFps encodedRate
  rw [if_neg hi, f32_hundredth]

theorem matchesWithRate_iff (iformat iframe interval : Nat) (hi : interval ≠ 0)
    (m : VideoMapping) :
    matchesWithRate iformat iframe (encodedRate interval) m = true ↔
      MappingSelected iformat iframe interval m := by
  unfold matchesWithRate MappingSelected
  rw [f32_tenth]
  simp [hi, and_assoc]

theorem matchesIndices_iff (iformat iframe : Nat) (m : VideoMapping) :
    matchesIndices iformat iframe m = true ↔ MappingSelected iformat iframe 0 m := by
  simp [matchesIndices, MappingSelected]

/-- The loop of `Gadget::get` either leaves the gadget alone and returns no image, or pops
the front of the queue of blank images and returns it. -/
theorem getLoop_cases (n : Nat) (g : Gadget) :
    ((Gadget.getLoop n g).state = g ∧ ∃ e, (Gadget.getLoop n g).ret = Outcome.threw e) ∨
    ∃ img rest, g.itsImageQueue = img :: rest ∧
      (Gadget.getLoop n g).state = { g with itsImageQueue := rest } ∧
      (Gadget.getLoop n g).ret = Outcome.ok img := by
  induction n with
  | zero => left; exact ⟨rfl, _, rfl⟩
  | succ k ih =>
    by_cases hs : g.itsStreaming = false
    · left
      simp [Gadget.getLoop, Gadget.tryGet, hs]
    · cases hq : g.itsImageQueue with
      | nil =>
        have : Gadget.getLoop (k + 1) g = Gadget.getLoop k g := by
          simp [Gadget.getLoop, Gadget.tryGet, hs, hq]
        rw [this]
        rcases ih with h | ⟨img, rest, h1, _⟩
        · left; exact h
        · rw [hq] at h1; cases h1
      | cons img rest =>
        right
        refine ⟨img, rest, rfl, ?_, ?_⟩ <;>
          simp [Gadget.getLoop, Gadget.tryGet, hs, hq]

/-- Every allowed action keeps the ownership invariant. -/
theorem step_consistent (p : Platform) (w : GadgetWorld) (a : GadgetAction)
    (hw : w.Consistent) (ha : w.allowed a = true) : (w.step p a).Consistent := by
  obtain ⟨g, held, inDriver⟩ := w
  obtain ⟨hnd, hnone⟩ := hw
  simp only [GadgetWorld.owners] at hnd
  simp only at hnone
  cases a with
  | setFormat sfmtOk m =>
    have hq : ∀ r : Gadget, r = (g.setFormat sfmtOk m).state →
        r.itsImageQueue = g.itsImageQueue ∧ r.itsDoneImgs = g.itsDoneImgs
          ∧ r.itsBuffers = g.itsBuffers := by
      intro r hr
      subst hr
      simp only [Gadget.setFormat]
      split
      · exact ⟨rfl, rfl, rfl⟩
      · split <;> exact ⟨rfl, rfl, rfl⟩
    obtain ⟨h1, h2, h3⟩ := hq _ rfl
    refine ⟨?_, ?_⟩
    · simp only [GadgetWorld.step, GadgetWorld.owners, h1, h2]
      exact hnd
    · simp only [GadgetWorld.step, h1, h2, h3]
      exact hnone
  | streamOn drv =>
    by_cases hb : g.itsBuffers = none
    · obtain ⟨e1, e2, e3, e4⟩ := hnone hb
      subst e2 e4
      simp only [GadgetWorld.step, Gadget.streamOn, hb]
      split
      · exact ⟨hnd, hnone⟩
      · split
        · exact ⟨hnd, hnone⟩
        · split
          · exact ⟨hnd, hnone⟩
          · split
            · exact ⟨hnd, hnone⟩
            · split
              · refine ⟨?_, by simp⟩
                simp [GadgetWorld.owners, e1, e3, Gadget.blankImage, List.map_map,
                  Function.comp_def, List.nodup_range]
              · refine ⟨?_, by simp⟩
                simp [GadgetWorld.owners, e1, e3, Gadget.blankImage, List.map_map,
                  Function.comp_def, List.nodup_range]
    · have : (g.streamOn p drv).state = g := by
        cases hbb : g.itsBuffers with
        | none => exact absurd hbb hb
        | some b => simp [Gadget.streamOn, hbb]
      simp only [GadgetWorld.step, this]
      exact ⟨hnd, hnone⟩
  | abortStream => exact ⟨hnd, hnone⟩
  | streamOff =>
    refine ⟨?_, ?_⟩
    · simp [GadgetWorld.step, GadgetWorld.owners, Gadget.streamOff]
    · intro _
      simp [GadgetWorld.step, Gadget.streamOff]
  | get =>
    rcases getLoop_cases 2000 g with ⟨h1, e, h2⟩ | ⟨img, rest, hq, h1, h2⟩
    · simp only [GadgetWorld.step, Gadget.get, h1, h2]
      exact ⟨hnd, hnone⟩
    · simp only [GadgetWorld.step, Gadget.get, h1, h2]
      refine ⟨?_, ?_⟩
      · simp only [GadgetWorld.owners]
        rw [hq] at hnd
        have : ((List.map RawImage.bufindex rest : List Nat) : Multiset Nat)
              + ((img.bufindex :: held : List Nat) : Multiset Nat)
              + (g.itsDoneImgs : Multiset Nat) + (inDriver : Multiset Nat)
            = ((List.map RawImage.bufindex (img :: rest) : List Nat) : Multiset Nat)
              + (held : Multiset Nat) + (g.itsDoneImgs : Multiset Nat)
              + (inDriver : Multiset Nat) := by
          simp only [List.map_cons, ← Multiset.cons_coe, ← Multiset.singleton_add]
          ac_rfl
        rw [this]
        exact hnd
      · intro hb
        have := (hnone hb).1
        rw [hq] at this
        cases this
  | send img =>
    have hmem : img.bufindex ∈ held := by simpa [GadgetWorld.allowed] using ha
    have hsplit : (held : Multiset Nat)
        = {img.bufindex} + ((held.erase img.bufindex : List Nat) : Multiset Nat) := by
      rw [Multiset.singleton_add, ← Multiset.coe_erase, Multiset.cons_erase]
      exact hmem
    have hle : ((held.erase img.bufindex : List Nat) : Multiset Nat) ≤ (held : Multiset Nat) := by
      rw [← Multiset.coe_erase]
      exact Multiset.erase_le _ _
    have hb : g.itsBuffers ≠ none := by
      intro hb
      have := (hnone hb).2.1
      rw [this] at hmem
      cases hmem
    simp only [GadgetWorld.step, Gadget.send]
    split
    · exact ⟨hnd, hnone⟩
    · split
      · refine ⟨?_, fun h => absurd h hb⟩
        simp only [GadgetWorld.owners]
        refine Multiset.nodup_of_le ?_ hnd
        gcongr
      · refine ⟨?_, fun h => absurd h hb⟩
        simp only [GadgetWorld.owners]
        have : ((g.itsImageQueue.map RawImage.bufindex : List Nat) : Multiset Nat)
              + ((held.erase img.bufindex : List Nat) : Multiset Nat)
              + ((g.itsDoneImgs ++ [img.bufindex] : List Nat) : Multiset Nat)
              + (inDriver : Multiset Nat)
            = ((g.itsImageQueue.map RawImage.bufindex : List Nat) : Multiset Nat)
              + (held : Multiset Nat) + (g.itsDoneImgs : Multiset Nat)
              + (inDriver : Multiset Nat) := by
          rw [hsplit, ← Multiset.coe_add, ← Multiset.coe_singleton]
          ac_rfl
        rw [this]
        exact hnd
  | queueDone qbufOk =>
    simp only [GadgetWorld.step, Gadget.queueDone]
    cases hd : g.itsDoneImgs with
    | nil =>
      simp only [List.length_nil, Nat.zero_sub, List.take_zero, List.nil_append]
      rw [hd] at hnd hnone
      exact ⟨by simpa [GadgetWorld.owners, hd] using hnd, by simpa [hd] using hnone⟩
    | cons idx rest =>
      rw [hd] at hnd hnone
      cases hbb : g.itsBuffers with
      | none =>
        have := (hnone hbb).2.2.1
        cases this
      | some b =>
        simp only
        split
        · refine ⟨?_, by simp [hbb]⟩
          simpa [GadgetWorld.owners, hd] using hnd
        · split
          · refine ⟨?_, by simp [hbb]⟩
            simpa [GadgetWorld.owners, hd] using hnd
          · refine ⟨?_, by simp⟩
            simp only [GadgetWorld.owners, List.length_cons, Nat.add_sub_cancel_left,
              List.take_succ_cons, List.take_zero]
            have : ((g.itsImageQueue.map RawImage.bufindex : List Nat) : Multiset Nat)
                  + (held : Multiset Nat) + (rest : Multiset Nat)
                  + (([idx] ++ inDriver : List Nat) : Multiset Nat)
                = ((g.itsImageQueue.map RawImage.bufindex : List Nat) : Multiset Nat)
                  + (held : Multiset Nat) + ((idx :: rest : List Nat) : Multiset Nat)
                  + (inDriver : Multiset Nat) := by
              simp only [← Multiset.coe_add, Multiset.coe_singleton, ← Multiset.cons_coe,
                ← Multiset.singleton_add, Multiset.coe_nil, add_zero]
              ac_rfl
            rw [this]
            exact hnd
  | processVideo dequeued =>
    cases dequeued with
    | none =>
      have hst : (g.processVideo none).state = g := by
        simp only [Gadget.processVideo]
        split
        · rfl
        · split <;> rfl
      simp only [GadgetWorld.step, hst]
      exact ⟨hnd, hnone⟩
    | some idx =>
      have hmem : idx ∈ inDriver := by simpa [GadgetWorld.allowed] using ha
      have hsplit : (inDriver : Multiset Nat)
          = {idx} + ((inDriver.erase idx : List Nat) : Multiset Nat) := by
        rw [Multiset.singleton_add, ← Multiset.coe_erase, Multiset.cons_erase]
        exact hmem
      have hle : ((inDriver.erase idx : List Nat) : Multiset Nat)
          ≤ (inDriver : Multiset Nat) := by
        rw [← Multiset.coe_erase]
        exact Multiset.erase_le _ _
      have hb : g.itsBuffers ≠ none := by
        intro hb
        have := (hnone hb).2.2.2
        rw [this] at hmem
        cases hmem
      cases hbb : g.itsBuffers with
      | none => exact absurd hbb hb
      | some b =>
        simp only [GadgetWorld.step, Gadget.processVideo, hbb]
        split
        · simp only [List.not_mem_nil, if_false]
          exact ⟨hnd, hnone⟩
        · split
          · refine ⟨?_, by simp⟩
            simp only [GadgetWorld.owners, List.mem_singleton, if_true]
            refine Multiset.nodup_of_le ?_ hnd
            gcongr
          · refine ⟨?_, by simp⟩
            simp only [GadgetWorld.owners, List.mem_singleton, if_true]
            have : ((List.map RawImage.bufindex (g.itsImageQueue ++ [g.blankImage idx])
                      : List Nat) : Multiset Nat)
                  + (held : Multiset Nat) + (g.itsDoneImgs : Multiset Nat)
                  + ((inDriver.erase idx : List Nat) : Multiset Nat)
                = ((g.itsImageQueue.map RawImage.bufindex : List Nat) : Multiset Nat)
                  + (held : Multiset Nat) + (g.itsDoneImgs : Multiset Nat)
                  + (inDriver : Multiset Nat) := by
              rw [hsplit]
              simp only [List.map_append, List.map_cons, List.map_nil, Gadget.blankImage,
                ← Multiset.coe_add, Multiset.coe_singleton]
              ac_rfl
            rw [this]
            exact hnd

/-- A sequence of allowed actions keeps the ownership invariant. -/
theorem run_consistent (p : Platform) (acts : List GadgetAction) (w v : GadgetWorld)
    (hw : w.Consistent) (h : GadgetWorld.run p w acts = some v) : v.Consistent := by
  induction acts generalizing w with
  | nil =>
    simp only [GadgetWorld.run, Option.some.injEq] at h
    exact h ▸ hw
  | cons a rest ih =>
    simp only [GadgetWorld.run] at h
    split at h
    · next ha => exact ih _ (step_consistent p w a hw ha) h
    · cases h

/-- The world right after construction satisfies the ownership invariant. -/
theorem init_consistent (p : Platform) (nbufs : Nat) (multicam : Bool) (m : VideoMapping) :
    (GadgetWorld.init p nbufs multicam m).Consistent := by
  simp [GadgetWorld.init, GadgetWorld.Consistent, GadgetWorld.owners, Gadget.init]

/-- A string that starts with a non-empty string is not empty. -/
theorem append_ne_empty (a b : String) (h : a ≠ "") : a ++ b ≠ "" := by
  intro hab
  apply h
  have := congrArg String.data hab
  rw [String.data_append] at this
  have h1 : ("" : String).data = [] := rfl
  rw [h1, List.append_eq_nil] at this
  exact String.ext this.1

/-- Appending lines to a non-empty text leaves it non-empty. -/
theorem foldl_lines_ne_empty (l : List String) (acc : String) (h : acc ≠ "") :
    l.foldl (fun ret m => ret ++ (m ++ "\n")) acc ≠ "" := by
  induction l generalizing acc with
  | nil => exact h
  | cons x xs ih => exact ih _ (append_ne_empty _ _ h)

/-- The text returned by `warnAndIgnoreException` is never empty. -/
theorem warnAndIgnoreException_ne_empty (env : EngineEnv) (e : Error) :
    warnAndIgnoreException env e ≠ "" := by
  have hdr : ∀ (h : String) (l : List String), h ≠ "" →
      (h :: l).foldl (fun ret m => ret ++ (m ++ "\n")) "" ≠ "" := by
    intro h l hh
    rw [List.foldl_cons]
    apply foldl_lines_ne_empty
    rw [show ("" : String) ++ (h ++ "\n") = h ++ "\n" from by simp]
    exact append_ne_empty _ _ hh
  unfold warnAndIgnoreException
  cases e <;> exact hdr _ _ (by decide)

/-- On the A33 build, `startMassStorageMode` ends in mass-storage mode only without a
module. -/
theorem startMassStorageMode_no_module (env : EngineEnv) (e : Engine)
    (h : e.itsMassStorageMode = true → e.itsModule = none) :
    (startMassStorageMode env e).state.itsMassStorageMode = true →
      (startMassStorageMode env e).state.itsModule = none := by
  unfold startMassStorageMode
  by_cases hm : e.itsMassStorageMode = true
  · simpa [hm] using h hm
  · by_cases hu : env.usbsdOk = false <;> simp [hm, hu, removeComponent]

/-- In mass-storage mode on the A33 build, `setFormatInternal` leaves the module handle and
the mode as they are; otherwise it leaves the mode as it is. -/
theorem setFormatInternal_massStorage (p : Platform) (env : EngineEnv) (m : VideoMapping)
    (reload : Bool) (e : Engine) :
    (setFormatInternal p env m reload e).state.itsMassStorageMode = e.itsMassStorageMode ∧
    (p.a33 = true → e.itsMassStorageMode = true →
      (setFormatInternal p env m reload e).state.itsModule = e.itsModule) := by
  unfold setFormatInternal
  by_cases hms : p.a33 = true ∧ e.itsMassStorageMode = true
  · simp [hms]
  · simp only [hms, if_false]
    refine ⟨?_, fun h1 h2 => absurd ⟨h1, h2⟩ hms⟩
    split
    · rfl
    · split
      · rfl
      · cases env.construction m <;> rfl

/-- With the stream-off calls succeeding, `stopDevices` makes its four calls and clears the
streaming flag. -/
theorem stopDevices_ok (env : EngineEnv) (e : Engine)
    (hoff : env.cameraStreamOffOk = true ∧ env.gadgetStreamOffOk = true) :
    stopDevices env e =
      { state := { e with itsStreaming := false },
        calls := [EngineCall.gadgetAbortStream, EngineCall.cameraAbortStream,
                  EngineCall.gadgetStreamOff, EngineCall.cameraStreamOff],
        ret := Outcome.ok () } := by
  simp [stopDevices, deviceCall, EngineResult.andThen, hoff.1, hoff.2]

/-- With the stream-on calls succeeding, `startDevices` makes its two calls and sets the
streaming flag. -/
theorem startDevices_ok (env : EngineEnv) (e : Engine)
    (hon : env.cameraStreamOnOk = true ∧ env.gadgetStreamOnOk = true) :
    startDevices env e =
      { state := { e with itsStreaming := true },
        calls := [EngineCall.cameraStreamOn, EngineCall.gadgetStreamOn],
        ret := Outcome.ok () } := by
  simp [startDevices, deviceCall, EngineResult.andThen, hon.1, hon.2]

/-- What `setFormatInternal` does when nothing refuses: outside mass-storage mode and with
the camera and the gadget accepting the format (or on a reload), it returns normally, makes
the mapping current, and leaves the streaming flag, the GUI helper and the pending request
alone; its calls are the removal of the old module, the two format calls unless reloading,
and the construction. -/
theorem setFormatInternal_accepted (p : Platform) (env : EngineEnv) (m : VideoMapping)
    (reload : Bool) (e : Engine)
    (hms : ¬ (p.a33 = true ∧ e.itsMassStorageMode = true))
    (hfmt : reload = false → env.cameraSetFormatOk m = true ∧ env.gadgetSetFormatOk m = true) :
    (setFormatInternal p env m reload e).ret = Outcome.ok () ∧
    (setFormatInternal p env m reload e).state.itsCurrentMapping = m ∧
    (setFormatInternal p env m reload e).state.itsStreaming = e.itsStreaming ∧
    (setFormatInternal p env m reload e).state.itsGUIhelper = e.itsGUIhelper ∧
    (setFormatInternal p env m reload e).state.itsRequestedFormat = e.itsRequestedFormat ∧
    (setFormatInternal p env m reload e).calls =
      (match e.itsModule with
       | some i => [EngineCall.removeComponent i]
       | none => [])
      ++ (if reload = false then [EngineCall.cameraSetFormat m, EngineCall.gadgetSetFormat m]
          else [])
      ++ [EngineCall.constructModule m] := by
  unfold setFormatInternal
  simp only [hms, if_false]
  cases reload with
  | true => cases hcon : env.construction m <;> simp
  | false =>
    have h := hfmt rfl
    cases hcon : env.construction m <;> simp [h.1, h.2]

/-- An `andThen` after a result that returned normally. -/
theorem andThen_ok (r : EngineResult Unit) (f : Engine → EngineResult Unit)
    (h : r.ret = Outcome.ok ()) :
    r.andThen f =
      { state := (f r.state).state, calls := r.calls ++ (f r.state).calls,
        ret := (f r.state).ret } := by
  simp [EngineResult.andThen, h]

/-- The `try` block of the format service for a full change, when stopping and starting
the devices succeeds, `setFormat` returns normally and no GUI helper is active. -/
theorem changeFormat_full (p : Platform) (env : EngineEnv) (rf : Int) (e : Engine)
    (R : EngineResult Unit)
    (hrf : rf ≠ -1)
    (hon : env.cameraStreamOnOk = true ∧ env.gadgetStreamOnOk = true)
    (hoff : env.cameraStreamOffOk = true ∧ env.gadgetStreamOffOk = true)
    (hR : Engine.setFormat p env (toSizeT rf) { e with itsStreaming := false } = R)
    (hret : R.ret = Outcome.ok ())
    (hgui : p.pro = false ∨ R.state.itsGUIhelper = false) :
    changeFormat p env rf e =
      { state :=
          if R.state.itsCurrentMapping.ofmt ≠ 0 then { R.state with itsStreaming := true }
          else R.state,
        calls :=
          (if e.itsStreaming then
            [EngineCall.gadgetAbortStream, EngineCall.cameraAbortStream,
             EngineCall.gadgetStreamOff, EngineCall.cameraStreamOff]
           else [])
          ++ R.calls
          ++ (if R.state.itsCurrentMapping.ofmt ≠ 0 then
                [EngineCall.cameraStreamOn, EngineCall.gadgetStreamOn]
              else []),
        ret := Outcome.ok () } := by
  have he : ∀ s, e.itsStreaming = s → s = false → ({ e with itsStreaming := false } : Engine) = e := by
    intro s h1 h2
    subst h2
    obtain ⟨_, _, _, _, _, st, _, _, _, _, _, _, _, _, _, _, _⟩ := e
    simp only at h1
    subst h1
    rfl
  have hno : ¬ (p.pro = true ∧ R.state.itsGUIhelper = true) := by
    rcases hgui with h | h <;> simp [h]
  have hno3 : ∀ b, ¬ (p.pro = true ∧ R.state.itsGUIhelper = true ∧ b) :=
    fun b h => hno ⟨h.1, h.2.1⟩
  have stage1 : (({ state := e, calls := [], ret := Outcome.ok () } : EngineResult Unit).andThen
      (fun e1 => if rf ≠ -1 ∧ e1.itsStreaming = true then stopDevices env e1
        else { state := e1, calls := [], ret := Outcome.ok () }))
      = { state := { e with itsStreaming := false },
          calls := if e.itsStreaming then
            [EngineCall.gadgetAbortStream, EngineCall.cameraAbortStream,
             EngineCall.gadgetStreamOff, EngineCall.cameraStreamOff] else [],
          ret := Outcome.ok () } := by
    rw [andThen_ok _ _ rfl]
    cases hs : e.itsStreaming
    · simp [hs, he false hs rfl]
    · simp [hs, hrf, stopDevices_ok env _ hoff]
  unfold changeFormat
  rw [stage1]
  by_cases ho : R.state.itsCurrentMapping.ofmt = 0
  · simp [EngineResult.andThen, hrf, hR, hret, hno, hno3, ho]
  · simp [EngineResult.andThen, hrf, hR, hret, hno, hno3, ho, startDevices_ok env _ hon]

/-- Serving one line calls `parseCommand` exactly once, with the command and prefix of the
line, and returns normally when writing to the interface succeeds. -/
theorem serviceLine_dispatch (p : Platform) (env : EngineEnv) (port : Nat) (s : UserInterface)
    (received : Nat) (line : String) (e : Engine) :
    (serviceLine p env port s received line e).calls.filterMap EngineCall.dispatched
      = [(commandText env line, commandPrefix env line)] ∧
    (s.writeOk = true → (serviceLine p env port s received line e).ret = Outcome.ok ()) := by
  unfold serviceLine
  by_cases hgg : p.pro = true ∧ e.itsGUIhelper = true <;>
  by_cases hw : received % 10 = 0 <;> cases hwr : s.writeOk <;>
    cases hp : (env.parseCommand e (commandText env line) (commandPrefix env line)).2 with
    | handled =>
      by_cases hq : (env.parseCommand e (commandText env line) (commandPrefix env line)).1.quietcmd
          = false ∧
        (env.parseCommand e (commandText env line) (commandPrefix env line)).1.itsShellMode
          = false <;>
      simp [EngineResult.andThen, reportError, writeString, EngineCall.dispatched, hgg, hw, hwr, hp,
        hq, List.filterMap_append]
    | threw x =>
      simp [EngineResult.andThen, reportError, writeString, EngineCall.dispatched, hgg, hw, hwr, hp,
        List.filterMap_append]
    | notRecognized =>
      cases hm : (env.parseCommand e (commandText env line) (commandPrefix env line)).1.itsModule with
      | none =>
        simp [EngineResult.andThen, reportError, writeString, EngineCall.dispatched, hgg, hw, hwr,
          hp, hm, List.filterMap_append]
      | some i =>
        cases hs : env.parseSerial i (commandText env line) with
        | threw x =>
          simp [EngineResult.andThen, reportError, writeString, EngineCall.dispatched, hgg, hw, hwr,
            hp, hm, hs, List.filterMap_append]
        | ok u =>
          by_cases hq : (env.parseCommand e (commandText env line)
                (commandPrefix env line)).1.quietcmd = false ∧
              (env.parseCommand e (commandText env line) (commandPrefix env line)).1.itsShellMode
                = false <;>
          simp [EngineResult.andThen, reportError, writeString, EngineCall.dispatched, hgg, hw, hwr,
            hp, hm, hs, hq, List.filterMap_append]

/-- The loop over the lines of one interface dispatches a prefix of the waiting lines, in
order, and leaves the rest; the prefix is everything when writing to the interface
succeeds. -/
theorem serviceLines_served (p : Platform) (env : EngineEnv) (port : Nat) (s : UserInterface)
    (lines : List String) :
    ∀ (received : Nat) (e : Engine), ∃ k, k ≤ lines.length ∧
      (serviceLines p env port s received lines e).calls.filterMap EngineCall.dispatched
        = (lines.take k).map (fun l => (commandText env l, commandPrefix env l)) ∧
      (serviceLines p env port s received lines e).remaining = lines.drop k ∧
      (s.writeOk = true → k = lines.length) := by
  induction lines with
  | nil =>
    intro received e
    exact ⟨0, le_refl _, rfl, rfl, fun _ => rfl⟩
  | cons line rest ih =>
    intro received e
    obtain ⟨hd, hok⟩ := serviceLine_dispatch p env port s (received + 1) line e
    cases hr : (serviceLine p env port s (received + 1) line e).ret with
    | threw x =>
      refine ⟨1, by simp, ?_, ?_, ?_⟩
      · simp only [serviceLines, hr, hd, List.take_succ_cons, List.take_zero, List.map_cons,
          List.map_nil]
      · simp [serviceLines, hr, EngineResult.remaining]
      · intro hw
        rw [hok hw] at hr
        cases hr
    | ok u =>
      obtain ⟨k, hk, h1, h2, h3⟩ := ih (received + 1)
        (serviceLine p env port s (received + 1) line e).state
      refine ⟨k + 1, by simpa using hk, ?_, ?_, ?_⟩
      · simp only [serviceLines, hr, List.filterMap_append, hd, h1, List.take_succ_cons,
          List.map_cons, List.singleton_append]
      · simpa [serviceLines, hr, EngineResult.remaining] using h2
      · intro hw
        simp [h3 hw]

/-- A command made of the word `setmapping`, a blank and an argument splits into that word
and the argument. -/
theorem splitCommand_setmapping (rem : String) :
    splitCommand ("setmapping " ++ rem) = ("setmapping", rem) := by
  have h : ("setmapping " ++ rem).toList
      = 's' :: 'e' :: 't' :: 'm' :: 'a' :: 'p' :: 'p' :: 'i' :: 'n' :: 'g' :: ' ' :: rem.toList := by
    rw [String.toList, String.data_append]; rfl
  unfold splitCommand
  rw [h]
  simp [List.takeWhile, List.dropWhile]

/-- Outside shell mode, a command that starts with the word `setmapping` runs the block of
that command. -/
theorem parseCommand_setmapping (p : Platform) (env : EngineEnv) (pfx rem : String)
    (e : Engine) (hshell : e.itsShellMode = false) :
    Engine.parseCommand p env ("setmapping " ++ rem) pfx e
      = setmappingCommand p env ("setmapping " ++ rem) rem e := by
  unfold Engine.parseCommand
  rw [splitCommand_setmapping]
  simp [hshell]

/-- The three lines of `demoDuplicateLines` are all kept by the loop, in their order. -/
theorem demoDuplicateLines_parsed :
    demoDuplicateLines.foldl (parseStep false true true false (fun _ => true))
        ([], VideoMapping.blank)
      = ([demoMapping 0 0 0 0 0 0 "SaveVideo", demoMapping 0 0 0 0 0 0 "Edges",
          demoMapping 0 0 0 0 0 0 "SaveVideo"], VideoMapping.blank) := by
  decide

/-- The three lines of `demoNearLines` are all kept by the loop, in their order. -/
theorem demoNearLines_parsed :
    demoNearLines.foldl (parseStep false true true false (fun _ => true))
        ([], VideoMapping.blank)
      = ([demoMapping 0 0 0 30 0 0 "SaveVideo", demoMapping 0 0 0 (3841 / 128) 0 0 "SaveVideo",
          demoMapping 0 0 0 (7681 / 256) 0 0 "Edges"], VideoMapping.blank) := by
  rfl

/-- The poll leaves the running flag as it is. -/
theorem runPoll_running (la : LockAnswers) (s : CameraDevice) (t : List LockEvent)
    (ev : PollEvent) : (runPoll la s t ev).state.itsRunning = s.itsRunning := by
  cases ev with
  | frame index =>
    unfold runPoll
    cases hb : s.itsBuffers with
    | none => rfl
    | some b =>
      by_cases hi : index < b.size <;> by_cases hp : la.publishLock = true <;>
        simp [hi, hp, publish]
  | _ => rfl

/-- The swap leaves the running flag as it is. -/
theorem runSwap_running (s : CameraDevice) (doneidx : List Nat) :
    (runSwap s doneidx).1.itsRunning = s.itsRunning := by
  unfold runSwap; split_ifs <;> rfl

/-- The re-queue leaves the running flag as it is. -/
theorem runRequeue_running (s : CameraDevice) (doneidx : List Nat) :
    (runRequeue s doneidx).1.itsRunning = s.itsRunning := by
  unfold runRequeue; cases s.itsBuffers <;> rfl

/-- The low-water step leaves the running flag as it is. -/
theorem runLowWater_running (s : CameraDevice) :
    (runLowWater s).1.itsRunning = s.itsRunning := by
  unfold runLowWater
  cases s.itsBuffers with
  | none => rfl
  | some b => dsimp only; split_ifs <;> rfl

/-- An iteration of the camera loop leaves the running flag as it is. -/
theorem runLocked_running (la : LockAnswers) (s : CameraDevice) (doneidx : List Nat)
    (ev : PollEvent) : (runLocked la s doneidx ev).state.itsRunning = s.itsRunning := by
  unfold runLocked
  dsimp only
  split_ifs <;>
    simp [runPoll_running, runLowWater_running, runRequeue_running, runSwap_running]

/-- While the owner does not clear the flag, the camera loop runs every iteration and is not
left. -/
theorem cameraThread_keeps_running (turns : List CameraTurn) (t : CameraThread)
    (hr : t.state.itsRunning = true) (he : t.exited = false)
    (hn : CameraTurn.ownerStops ∉ turns) :
    (t.run turns).exited = false ∧ (t.run turns).state.itsRunning = true ∧
    (t.run turns).iterations = t.iterations + turns.length := by
  induction turns generalizing t with
  | nil => exact ⟨he, hr, rfl⟩
  | cons x turns ih =>
    have hx : x ≠ CameraTurn.ownerStops := fun h => hn (by simp [h])
    have hn2 : CameraTurn.ownerStops ∉ turns := fun h => hn (by simp [h])
    cases x with
    | ownerStops => exact absurd rfl hx
    | iteration la ev =>
      have hstep : t.step (CameraTurn.iteration la ev)
          = { state := (runLocked la t.state t.doneidx ev).state,
              doneidx := (runLocked la t.state t.doneidx ev).doneidx,
              exited := false, iterations := t.iterations + 1 } := by
        simp [CameraThread.step, he, hr]
      have := ih (t.step (CameraTurn.iteration la ev))
        (by rw [hstep]; simp [runLocked_running, hr]) (by rw [hstep]) hn2
      simp only [CameraThread.run, List.foldl_cons] at this ⊢
      refine ⟨this.1, this.2.1, ?_⟩
      rw [this.2.2, hstep]
      simp; omega

/-- A camera loop that was left stays so. -/
theorem cameraThread_exited_stays (turns : List CameraTurn) (t : CameraThread)
    (he : t.exited = true) : (t.run turns).exited = true := by
  induction turns generalizing t with
  | nil => exact he
  | cons x turns ih =>
    simp only [CameraThread.run, List.foldl_cons]
    apply ih
    cases x <;> simp [CameraThread.step, he]

/-- The loop test that follows the clearing of the flag leaves the camera loop. -/
theorem cameraThread_exits_after_stop (turns : List CameraTurn) (t : CameraThread)
    (la : LockAnswers) (ev : PollEvent) :
    (t.run (turns ++ [CameraTurn.ownerStops, CameraTurn.iteration la ev])).exited = true := by
  simp only [CameraThread.run, List.foldl_append, List.foldl_cons, List.foldl_nil]
  generalize List.foldl CameraThread.step t turns = u
  by_cases hu : u.exited = true <;> simp [CameraThread.step, hu]

/-- While the owner does not clear the flag and `select` does not fail with an error other than
`EINTR`, the gadget loop runs every iteration and is not left. -/
theorem gadgetThread_keeps_running (handle : Nat → Gadget → Gadget) (turns : List GadgetTurn)
    (t : GadgetThread) (hr : t.itsRunning = true) (he : t.exited = false)
    (hn : GadgetTurn.ownerStops ∉ turns) (hb : ∀ x ∈ turns, x.selectBreaks = false) :
    (t.run handle turns).exited = false ∧ (t.run handle turns).itsRunning = true ∧
    (t.run handle turns).iterations = t.iterations + turns.length := by
  induction turns generalizing t with
  | nil => exact ⟨he, hr, rfl⟩
  | cons x turns ih =>
    have hx : x ≠ GadgetTurn.ownerStops := fun h => hn (by simp [h])
    have hn2 : GadgetTurn.ownerStops ∉ turns := fun h => hn (by simp [h])
    have hb1 := hb x (by simp)
    have hb2 : ∀ y ∈ turns, y.selectBreaks = false := fun y hy => hb y (by simp [hy])
    cases x with
    | ownerStops => exact absurd rfl hx
    | iteration a =>
      have hnb : (gadgetIteration handle a t.pending t.gadget).2.2 = false := by
        simp only [GadgetTurn.selectBreaks] at hb1
        unfold gadgetIteration
        cases hs : a.select with
        | failed eintr =>
          rw [hs] at hb1
          cases eintr
          · simp at hb1
          · rfl
        | timeout => rfl
        | ready events writable => rfl
      have hstep : GadgetThread.step handle t (GadgetTurn.iteration a)
          = { gadget := (gadgetIteration handle a t.pending t.gadget).1,
              itsRunning := true,
              pending := (gadgetIteration handle a t.pending t.gadget).2.1,
              exited := false, iterations := t.iterations + 1 } := by
        simp [GadgetThread.step, he, hr, hnb]
      have := ih (GadgetThread.step handle t (GadgetTurn.iteration a))
        (by rw [hstep]) (by rw [hstep]) hn2 hb2
      simp only [GadgetThread.run, List.foldl_cons] at this ⊢
      refine ⟨this.1, this.2.1, ?_⟩
      rw [this.2.2, hstep]
      simp; omega

/-- A gadget loop that was left met a cleared flag or a failure of `select` other than `EINTR`.
-/
theorem gadgetThread_exit_cause (handle : Nat → Gadget → Gadget) (turns : List GadgetTurn)
    (t : GadgetThread) (hr : t.itsRunning = true) (he : t.exited = false)
    (hx : (t.run handle turns).exited = true) :
    GadgetTurn.ownerStops ∈ turns ∨ ∃ x ∈ turns, x.selectBreaks = true := by
  by_contra hcon
  push_neg at hcon
  have := gadgetThread_keeps_running handle turns t hr he hcon.1
    (fun x hx => by simpa using hcon.2 x hx)
  rw [this.1] at hx
  cases hx

/-- A failure of `select` other than `EINTR` leaves the gadget loop. -/
theorem gadgetThread_breaks (handle : Nat → Gadget → Gadget) (turns : List GadgetTurn)
    (t : GadgetThread) (a : GadgetAnswers) (hr : t.itsRunning = true) (he : t.exited = false)
    (hn : GadgetTurn.ownerStops ∉ turns) (hb : ∀ x ∈ turns, x.selectBreaks = false)
    (ha : a.select = GadgetSelect.failed false) :
    (t.run handle (turns ++ [GadgetTurn.iteration a])).exited = true ∧
    (t.run handle (turns ++ [GadgetTurn.iteration a])).iterations
      = t.iterations + turns.length := by
  have h := gadgetThread_keeps_running handle turns t hr he hn hb
  simp only [GadgetThread.run, List.foldl_append, List.foldl_cons, List.foldl_nil] at h ⊢
  generalize List.foldl (GadgetThread.step handle) t turns = u at h
  have hbr : (gadgetIteration handle a u.pending u.gadget).2.2 = true := by
    unfold gadgetIteration; rw [ha]; rfl
  simp [GadgetThread.step, h.1, h.2.1, hbr, h.2.2]

/-- The lock state after two traces in a row is the state after the second, followed from the
state after the first. -/
theorem lockState_append (a b : List LockEvent) (held : Bool × Bool) :
    lockState held (a ++ b) = (lockState held a).bind (fun h => lockState h b) := by
  induction a generalizing held with
  | nil => simp [lockState]
  | cons x a ih =>
    cases x <;> simp only [List.cons_append, lockState] <;> split_ifs <;> simp [ih]

/-- Buffers enqueued with the device lock held and the output lock free leave the lock state as
it is. -/
theorem lockState_qbufs (l : List Nat) :
    lockState (true, false) (l.map (fun i => LockEvent.device (DevCall.qbuf i)))
      = some (true, false) := by
  induction l with
  | nil => rfl
  | cons a l ih => simpa [lockState] using ih

/-- The device calls of two traces in a row. -/
theorem deviceCalls_append (a b : List LockEvent) :
    deviceCalls (a ++ b) = deviceCalls a ++ deviceCalls b := by
  induction a with
  | nil => rfl
  | cons x a ih => cases x <;> simp [deviceCalls, ih]

/-- The device calls of a run of enqueued buffers. -/
theorem deviceCalls_qbufs (l : List Nat) :
    deviceCalls (l.map (fun i => LockEvent.device (DevCall.qbuf i))) = l.map DevCall.qbuf := by
  induction l with
  | nil => rfl
  | cons a l ih => simp [deviceCalls, ih]

/-- Entered with the device lock held and the output lock free, the poll respects the discipline
and ends with both locks free. -/
theorem runPoll_lockState (la : LockAnswers) (s : CameraDevice) (t : List LockEvent)
    (ev : PollEvent) (ht : lockState (false, false) t = some (true, false)) :
    lockState (false, false) (runPoll la s t ev).trace = some (false, false) := by
  cases ev with
  | frame index =>
    unfold runPoll
    cases hb : s.itsBuffers with
    | none => simp [lockState_append, ht, lockState]
    | some b =>
      by_cases hi : index < b.size <;> by_cases hp : la.publishLock = true <;>
        simp [hi, hp, lockState_append, ht, lockState]
  | _ => simp [runPoll, lockState_append, ht, lockState]

/-- Every iteration of the camera loop respects the lock discipline and ends with both locks
free. -/
theorem runLocked_lockState (la : LockAnswers) (s : CameraDevice) (doneidx : List Nat)
    (ev : PollEvent) :
    lockState (false, false) (runLocked la s doneidx ev).trace = some (false, false) := by
  unfold runLocked
  by_cases h1 : la.swapLock = false
  · rw [if_pos h1]; rfl
  rw [if_neg h1]
  by_cases h2 : la.deviceLock = false
  · rw [if_pos h2]; rfl
  rw [if_neg h2]
  dsimp only
  have hq : ∀ l : List Nat, lockState (false, false)
      ([LockEvent.lockOutput, LockEvent.unlockOutput, LockEvent.lockDevice]
        ++ l.map (fun i => LockEvent.device (DevCall.qbuf i))) = some (true, false) := by
    intro l
    rw [lockState_append]
    simp [lockState, lockState_qbufs]
  by_cases h3 : (runRequeue (runSwap s doneidx).1 (runSwap s doneidx).2).1.itsStreaming = false
  · rw [if_pos h3]
    dsimp only
    rw [lockState_append, hq]
    simp [lockState]
  rw [if_neg h3]
  by_cases h4 : lowWater (runRequeue (runSwap s doneidx).1 (runSwap s doneidx).2).1 = true
  · rw [if_pos h4]
    by_cases h5 : la.keepLock = true
    · rw [if_pos h5]
      apply runPoll_lockState
      rw [lockState_append, lockState_append, hq]
      simp [lockState, lockState_qbufs]
    · rw [if_neg h5]
      dsimp only
      rw [lockState_append, hq]
      simp [lockState]
  · rw [if_neg h4]
    exact runPoll_lockState _ _ _ _ (hq _)

/-- Without low water, the low-water step does nothing. -/
theorem runLowWater_idle (s : CameraDevice) (h : ¬ lowWater s = true) :
    runLowWater s = (s, []) := by
  unfold lowWater at h
  unfold runLowWater
  cases hb : s.itsBuffers with
  | none => rfl
  | some b =>
    rw [hb] at h
    have : ¬ b.nqueued < 2 := by simpa using h
    simp [this]

/-- In a trace that respects the discipline, each device call is made with the device lock held
and the output lock free. -/
theorem lockState_device_held (pre post : List LockEvent) (c : DevCall) (r : Bool × Bool)
    (h : lockState (false, false) (pre ++ LockEvent.device c :: post) = some r) :
    lockState (false, false) pre = some (true, false) := by
  rw [lockState_append] at h
  cases hp : lockState (false, false) pre with
  | none => rw [hp] at h; simp at h
  | some held =>
    rw [hp] at h
    obtain ⟨d, o⟩ := held
    cases d <;> cases o <;> simp [lockState] at h ⊢

/-- In a trace that respects the discipline, the output lock is taken with both locks free. -/
theorem lockState_output_free (pre post : List LockEvent) (r : Bool × Bool)
    (h : lockState (false, false) (pre ++ LockEvent.lockOutput :: post) = some r) :
    lockState (false, false) pre = some (false, false) := by
  rw [lockState_append] at h
  cases hp : lockState (false, false) pre with
  | none => rw [hp] at h; simp at h
  | some held =>
    rw [hp] at h
    obtain ⟨d, o⟩ := held
    cases d <;> cases o <;> simp [lockState] at h ⊢

/-- The buffer count of the camera is not changed by `setFormat`. -/
theorem cameraSetFormat_nbufs (p : Platform) (platformPro : Bool) (cenv : CameraEnv)
    (m : VideoMapping) (c : Camera) :
    (Camera.setFormat p platformPro cenv m c).1.itsNbufs = c.itsNbufs := by
  unfold Camera.setFormat
  cases (openDevices p cenv (devicePlan platformPro cenv c.itsNbufs m).1 []).2 <;> rfl

/-- A `setFormat` that succeeds gives the same camera from every camera with the same buffer
count: the devices are opened anew. -/
theorem cameraSetFormat_fresh (p : Platform) (platformPro : Bool) (cenv : CameraEnv)
    (m : VideoMapping) (c c2 : Camera) (hn : c2.itsNbufs = c.itsNbufs)
    (hok : (Camera.setFormat p platformPro cenv m c).2 = Outcome.ok ()) :
    Camera.setFormat p platformPro cenv m c2 = Camera.setFormat p platformPro cenv m c := by
  unfold Camera.setFormat at hok ⊢
  rw [hn]
  cases h : (openDevices p cenv (devicePlan platformPro cenv c.itsNbufs m).1 []).2 with
  | ok v => simp [hn]
  | threw x => rw [h] at hok; simp at hok

/-- The format, the frame rate and the outcome of `Gadget::setFormat` depend on the mapping and
the driver only. -/
theorem gadgetSetFormat_format (sfmtOk : Bool) (m : VideoMapping) (g : Gadget) :
    (Gadget.setFormat sfmtOk m g).state.itsFormat
      = { width := m.ow, height := m.oh, pixelformat := m.ofmt } ∧
    (Gadget.setFormat sfmtOk m g).state.itsFps = m.ofps ∧
    (Gadget.setFormat sfmtOk m g).ret
      = (if m.ofmt = 0 ∨ sfmtOk = true then Outcome.ok () else Outcome.threw Error.ioctlFailed) := by
  unfold Gadget.setFormat
  by_cases h0 : m.ofmt = 0
  · simp [h0]
  · cases sfmtOk <;> simp [h0]

/-- The mass storage flag is not changed by `setFormatInternal`. -/
theorem setFormatInternal_massStorageMode (p : Platform) (env : EngineEnv) (m : VideoMapping)
    (reload : Bool) (e : Engine) :
    (setFormatInternal p env m reload e).state.itsMassStorageMode = e.itsMassStorageMode := by
  unfold setFormatInternal
  dsimp only
  split_ifs <;> first | rfl | (cases env.construction m <;> rfl)

/-- A format change that the devices accept and whose module is constructed: the engine
afterwards and its calls. -/
theorem setFormatInternal_ready (p : Platform) (env : EngineEnv) (m : VideoMapping)
    (e : Engine) (i : Nat)
    (hms : ¬ (p.a33 = true ∧ e.itsMassStorageMode = true))
    (hc : env.cameraSetFormatOk m = true) (hg : env.gadgetSetFormatOk m = true)
    (hcon : env.construction m = Construction.ready i) :
    (setFormatInternal p env m false e).ret = Outcome.ok () ∧
    (setFormatInternal p env m false e).state
      = { e with itsModule := some i, itsModuleConstructionError := "",
                 itsCurrentMapping := m, frameNumber := 0 } ∧
    (setFormatInternal p env m false e).calls =
      (match e.itsModule with
       | some j => [EngineCall.removeComponent j]
       | none => [])
      ++ [EngineCall.cameraSetFormat m, EngineCall.gadgetSetFormat m,
          EngineCall.constructModule m] := by
  unfold setFormatInternal
  simp [hms, hc, hg, hcon, removeComponent]

/-- A format change keeps the buffer count of the camera and the mass storage flag. -/
theorem systemFormat_kept (p : Platform) (platformPro : Bool) (cenv : CameraEnv)
    (sfmtOk : VideoMapping → Bool) (env : EngineEnv) (m : VideoMapping) (reload : Bool)
    (sys : System) :
    (System.setFormatInternal p platformPro cenv sfmtOk env m reload sys).state.camera.itsNbufs
      = sys.camera.itsNbufs ∧
    (System.setFormatInternal p platformPro cenv sfmtOk env m reload
        sys).state.engine.itsMassStorageMode = sys.engine.itsMassStorageMode := by
  unfold System.setFormatInternal
  dsimp only
  split_ifs <;>
    simp [cameraSetFormat_nbufs, setFormatInternal_massStorageMode]

/-- A format change that camera and gadget accept and whose module is constructed: the three
objects afterwards and the calls of the engine. -/
theorem systemFormat_accepted (p : Platform) (platformPro : Bool)
    (cenv : CameraEnv) (sfmtOk : VideoMapping → Bool) (env : EngineEnv) (m : VideoMapping)
    (sys : System) (i : Nat)
    (hms : ¬ (p.a33 = true ∧ sys.engine.itsMassStorageMode = true))
    (hcam : (Camera.setFormat p platformPro cenv m sys.camera).2 = Outcome.ok ())
    (hgad : m.ofmt = 0 ∨ sfmtOk m = true)
    (hcon : env.construction m = Construction.ready i) :
    System.setFormatInternal p platformPro cenv sfmtOk env m false sys
      = { state :=
            { engine := { sys.engine with itsModule := some i, itsModuleConstructionError := "",
                                          itsCurrentMapping := m, frameNumber := 0 },
              camera := (Camera.setFormat p platformPro cenv m sys.camera).1,
              gadget := { sys.gadget with
                itsFormat := { width := m.ow, height := m.oh, pixelformat := m.ofmt },
                itsFps := m.ofps } },
          calls :=
            (match sys.engine.itsModule with
             | some j => [EngineCall.removeComponent j]
             | none => [])
            ++ [EngineCall.cameraSetFormat m, EngineCall.gadgetSetFormat m,
                EngineCall.constructModule m],
          ret := Outcome.ok () } := by
  have hg : (Gadget.setFormat (sfmtOk m) m sys.gadget).ret = Outcome.ok () := by
    rw [(gadgetSetFormat_format (sfmtOk m) m sys.gadget).2.2]; simp [hgad]
  have hgs : (Gadget.setFormat (sfmtOk m) m sys.gadget).state
      = { sys.gadget with
          itsFormat := { width := m.ow, height := m.oh, pixelformat := m.ofmt },
          itsFps := m.ofps } := by
    unfold Gadget.setFormat
    dsimp only
    split_ifs <;> rfl
  have he := setFormatInternal_ready p
    { env with cameraSetFormatOk := fun _ => (Camera.setFormat p platformPro cenv m sys.camera).2.isOk,
               gadgetSetFormatOk := fun _ => (Gadget.setFormat (sfmtOk m) m sys.gadget).ret.isOk }
    m sys.engine i hms (by simp [hcam, Outcome.isOk]) (by simp [hg, Outcome.isOk]) hcon
  unfold System.setFormatInternal
  dsimp only
  rw [if_neg (by simpa using hms), if_neg (by simp [hcam, Outcome.isOk])]
  rw [he.1, he.2.1, he.2.2, hgs]

/-- The engine members that `setFormatInternal` does not write are unchanged. -/
theorem setFormatInternal_rest (p : Platform) (env : EngineEnv) (m : VideoMapping)
    (reload : Bool) (e : Engine) :
    (setFormatInternal p env m reload e).state.rest = e.rest := by
  unfold setFormatInternal
  dsimp only
  split_ifs <;> first | rfl | (cases env.construction m <;> rfl)

/-- The gadget members that `Gadget::setFormat` does not write are unchanged. -/
theorem gadgetSetFormat_rest (sfmtOk : Bool) (m : VideoMapping) (g : Gadget) :
    (Gadget.setFormat sfmtOk m g).state.rest = g.rest := by
  unfold Gadget.setFormat
  dsimp only
  split_ifs <;> rfl

/-- A format change, accepted or not, leaves everything but the written members as it was. -/
theorem afterFormat_rest (p : Platform) (platformPro : Bool) (cenv : CameraEnv)
    (sfmtOk : VideoMapping → Bool) (env : EngineEnv) (m : VideoMapping) (sys : System) :
    (System.afterFormat p platformPro cenv sfmtOk env m sys).engine.rest = sys.engine.rest ∧
    (System.afterFormat p platformPro cenv sfmtOk env m sys).gadget.rest = sys.gadget.rest ∧
    (System.afterFormat p platformPro cenv sfmtOk env m sys).camera.itsNbufs
      = sys.camera.itsNbufs := by
  unfold System.afterFormat System.setFormatInternal
  dsimp only
  split_ifs <;>
    simp [cameraSetFormat_nbufs, setFormatInternal_rest, gadgetSetFormat_rest]

/-- Two engines that agree outside the written members are equal once these are written. -/
theorem engineRest_written (e e2 : Engine) (h : e2.rest = e.rest) (i : Option Nat)
    (err : String) (m : VideoMapping) (n : Nat) :
    { e2 with itsModule := i, itsModuleConstructionError := err, itsCurrentMapping := m,
              frameNumber := n }
      = { e with itsModule := i, itsModuleConstructionError := err, itsCurrentMapping := m,
                 frameNumber := n } := by
  cases e; cases e2
  simp only [Engine.rest, Engine.mk.injEq] at h ⊢
  tauto

/-- Two gadgets that agree outside the written members are equal once these are written. -/
theorem gadgetRest_written (g g2 : Gadget) (h : g2.rest = g.rest) (f : V4L2Format) (r : ℚ) :
    { g2 with itsFormat := f, itsFps := r } = { g with itsFormat := f, itsFps := r } := by
  cases g; cases g2
  simp only [Gadget.rest, Gadget.mk.injEq] at h ⊢
  tauto

/-- Engines that agree outside the written members have the same mass storage flag. -/
theorem engineRest_massStorage (e e2 : Engine) (h : e2.rest = e.rest) :
    e2.itsMassStorageMode = e.itsMassStorageMode := by
  have := congrArg Engine.itsMassStorageMode h
  simpa [Engine.rest] using this

/-- An accepted format change gives the same system from every system that differs only in what
the change overwrites. -/
theorem afterFormat_fresh (p : Platform) (platformPro : Bool) (cenv : CameraEnv)
    (sfmtOk : VideoMapping → Bool) (env : EngineEnv) (m : VideoMapping) (sys sys2 : System)
    (i : Nat)
    (he : sys2.engine.rest = sys.engine.rest) (hg : sys2.gadget.rest = sys.gadget.rest)
    (hn : sys2.camera.itsNbufs = sys.camera.itsNbufs)
    (hms : ¬ (p.a33 = true ∧ sys.engine.itsMassStorageMode = true))
    (hcam : (Camera.setFormat p platformPro cenv m sys.camera).2 = Outcome.ok ())
    (hgad : m.ofmt = 0 ∨ sfmtOk m = true)
    (hcon : env.construction m = Construction.ready i) :
    System.afterFormat p platformPro cenv sfmtOk env m sys2
      = System.afterFormat p platformPro cenv sfmtOk env m sys := by
  have hfresh := cameraSetFormat_fresh p platformPro cenv m sys.camera sys2.camera hn hcam
  have hms2 : ¬ (p.a33 = true ∧ sys2.engine.itsMassStorageMode = true) := by
    rw [engineRest_massStorage _ _ he]; exact hms
  unfold System.afterFormat
  rw [systemFormat_accepted p platformPro cenv sfmtOk env m sys i hms hcam hgad hcon,
    systemFormat_accepted p platformPro cenv sfmtOk env m sys2 i hms2
      (by rw [hfresh]; exact hcam) hgad hcon]
  simp only [hfresh, engineRest_written _ _ he, gadgetRest_written _ _ hg]

/-- Rounding does not go below the floor. -/
theorem roundHalfEven_floor_le (y : ℚ) : ⌊y⌋ ≤ roundHalfEven y := by
  unfold roundHalfEven
  split_ifs <;> omega

/-- Rounding does not go above the floor plus one. -/
theorem roundHalfEven_le_floor_succ (y : ℚ) : roundHalfEven y ≤ ⌊y⌋ + 1 := by
  unfold roundHalfEven
  split_ifs <;> omega

/-- Rounding does not go below an integer that is at most the argument. -/
theorem roundHalfEven_ge (n : Int) (y : ℚ) (h : (n : ℚ) ≤ y) : n ≤ roundHalfEven y :=
  le_trans (Int.le_floor.mpr h) (roundHalfEven_floor_le y)

/-- Rounding does not go above an integer that is at least the argument. -/
theorem roundHalfEven_le (n : Int) (y : ℚ) (h : y ≤ (n : ℚ)) : roundHalfEven y ≤ n := by
  have hf : ⌊y⌋ ≤ n := Int.floor_le_floor h |>.trans (by simp)
  rcases lt_or_eq_of_le hf with hlt | heq
  · have := roundHalfEven_le_floor_succ y; omega
  · have hy : y = (n : ℚ) := le_antisymm h (by rw [← heq]; exact Int.floor_le y)
    subst hy
    simp [roundHalfEven]

/-- An argument beyond the midpoint is rounded up. -/
theorem roundHalfEven_ge_succ (n : Int) (y : ℚ) (h : (n : ℚ) + 1 / 2 < y) :
    n + 1 ≤ roundHalfEven y := by
  have hf : n ≤ ⌊y⌋ := Int.le_floor.mpr (by linarith)
  rcases lt_or_eq_of_le hf with hlt | heq
  · have := roundHalfEven_floor_le y; omega
  · unfold roundHalfEven
    have h1 : ¬ (y - ⌊y⌋ < 1 / 2) := by rw [← heq]; linarith
    have h2 : 1 / 2 < y - ⌊y⌋ := by rw [← heq]; linarith
    rw [if_neg h1, if_pos h2]; omega

/-- An argument up to the midpoint above an even integer is rounded to it or below. -/
theorem roundHalfEven_le_tie (n : Int) (y : ℚ) (hn : n % 2 = 0) (h : y ≤ (n : ℚ) + 1 / 2) :
    roundHalfEven y ≤ n := by
  have hf : ⌊y⌋ ≤ n := by
    have : y < (n : ℚ) + 1 := by linarith
    have := Int.floor_lt.mpr (by exact_mod_cast this : y < ((n + 1 : Int) : ℚ))
    omega
  rcases lt_or_eq_of_le hf with hlt | heq
  · have := roundHalfEven_le_floor_succ y; omega
  · unfold roundHalfEven
    have h2 : ¬ (1 / 2 < y - ⌊y⌋) := by rw [heq]; linarith
    split_ifs <;> omega

/-- The exponent is at least -126. -/
theorem exponentUpTo_ge (n : Nat) (x : ℚ) : -126 ≤ exponentUpTo n x := by
  induction n with
  | zero => simp [exponentUpTo]
  | succ n ih => unfold exponentUpTo; split_ifs <;> omega

/-- The exponent is at most the bound of the search. -/
theorem exponentUpTo_le (n : Nat) (x : ℚ) : exponentUpTo n x ≤ (n : Int) - 126 := by
  induction n with
  | zero => simp [exponentUpTo]
  | succ n ih => unfold exponentUpTo; split_ifs <;> push_cast <;> omega

/-- The exponent is at least every searched exponent whose power of two is at most the argument. -/
theorem exponentUpTo_ge_of (n : Nat) (x : ℚ) (k : Nat) (hk : k ≤ n)
    (h : (2 : ℚ) ^ ((k : Int) - 126) ≤ x) : (k : Int) - 126 ≤ exponentUpTo n x := by
  induction n with
  | zero =>
    have : k = 0 := by omega
    subst this; simp [exponentUpTo]
  | succ n ih =>
    unfold exponentUpTo
    split_ifs with hc
    · push_cast at *; omega
    · have hne : k ≠ n + 1 := by
        intro he; subst he; push_cast at h; exact hc h
      exact ih (by omega)

/-- Above -126, the power of two of the exponent is at most the argument. -/
theorem exponentUpTo_pow_le (n : Nat) (x : ℚ) (h : -126 < exponentUpTo n x) :
    (2 : ℚ) ^ (exponentUpTo n x) ≤ x := by
  induction n with
  | zero => simp [exponentUpTo] at h
  | succ n ih =>
    unfold exponentUpTo at h ⊢
    split_ifs with hc
    · exact hc
    · rw [if_neg hc] at h; exact ih h

/-- Below the bound of the search, the argument is below the next power of two. -/
theorem exponentUpTo_lt_pow (n : Nat) (x : ℚ) (h : exponentUpTo n x < (n : Int) - 126) :
    x < (2 : ℚ) ^ (exponentUpTo n x + 1) := by
  induction n with
  | zero => simp [exponentUpTo] at h
  | succ n ih =>
    unfold exponentUpTo at h ⊢
    split_ifs with hc
    · rw [if_pos hc] at h; push_cast at h; omega
    · rw [if_neg hc] at h
      have hle := exponentUpTo_le n x
      rcases lt_or_eq_of_le hle with hlt | heq
      · exact ih hlt
      · rw [heq]
        have : (n : Int) - 126 + 1 = (n : Int) + 1 - 126 := by ring
        rw [this]
        exact lt_of_not_le hc

/-- The rounding of a number that is not negative is not negative. -/
theorem f32Abs_nonneg (y : ℚ) (hy : 0 ≤ y) : 0 ≤ f32Abs y := by
  unfold f32Abs
  have h0 : (0 : Int) ≤ roundHalfEven (y / (2 : ℚ) ^ (f32Exponent y - 23)) :=
    roundHalfEven_ge 0 _ (by
      have : (0 : ℚ) < (2 : ℚ) ^ (f32Exponent y - 23) := zpow_pos (by norm_num) _
      simpa using div_nonneg hy this.le)
  have : (0 : ℚ) ≤ (roundHalfEven (y / (2 : ℚ) ^ (f32Exponent y - 23)) : ℚ) := by
    exact_mod_cast h0
  exact mul_nonneg this (zpow_pos (by norm_num) _).le

/-- Rounding commutes with the absolute value. -/
theorem abs_f32 (x : ℚ) : |f32 x| = f32Abs |x| := by
  unfold f32
  by_cases h : x < 0
  · rw [if_pos h, abs_neg, abs_of_neg h, abs_of_nonneg (f32Abs_nonneg _ (by linarith))]
  · rw [if_neg h, abs_of_nonneg (le_of_not_lt h),
      abs_of_nonneg (f32Abs_nonneg _ (le_of_not_lt h))]

/-- A power of two as 2 ^ 23 times the spacing of its binade. -/
theorem two_zpow_split (E : Int) : (2 : ℚ) ^ E = 8388608 * (2 : ℚ) ^ (E - 23) := by
  have : (2 : ℚ) ^ E = (2 : ℚ) ^ (23 : Int) * (2 : ℚ) ^ (E - 23) := by
    rw [← zpow_add₀ (by norm_num : (2 : ℚ) ≠ 0)]; congr 1; ring
  rw [this]; norm_num

/-- A number of at least 0.1 is rounded to at least the constant `0.1F`. -/
theorem f32Abs_ge_tenth (y : ℚ) (hy : 1 / 10 ≤ y) : 13421773 / 134217728 ≤ f32Abs y := by
  unfold f32Abs f32Exponent
  have hE : (-4 : Int) ≤ exponentUpTo 253 y := by
    have := exponentUpTo_ge_of 253 y 122 (by norm_num) (by
      have : (2 : ℚ) ^ (((122 : Nat) : Int) - 126) = 1 / 16 := by norm_num [zpow_neg]
      rw [this]; linarith)
    simpa using this
  have hpow : (2 : ℚ) ^ (exponentUpTo 253 y) ≤ y := exponentUpTo_pow_le 253 y (by omega)
  generalize exponentUpTo 253 y = E at hE hpow ⊢
  have hq : (0 : ℚ) < (2 : ℚ) ^ (E - 23) := zpow_pos (by norm_num) _
  rcases eq_or_lt_of_le hE with heq | hlt
  · subst heq
    have hq' : (2 : ℚ) ^ ((-4 : Int) - 23) = 1 / 134217728 := by norm_num [zpow_neg]
    rw [hq']
    have hr : (13421772 : Int) + 1 ≤ roundHalfEven (y / (1 / 134217728)) :=
      roundHalfEven_ge_succ 13421772 _ (by
        rw [div_div_eq_mul_div, div_one]; push_cast; linarith)
    have hr' : (13421773 : ℚ) ≤ (roundHalfEven (y / (1 / 134217728)) : ℚ) := by
      exact_mod_cast hr
    linarith
  · have hr : (8388608 : Int) ≤ roundHalfEven (y / (2 : ℚ) ^ (E - 23)) :=
      roundHalfEven_ge 8388608 _ (by
        rw [le_div_iff₀ hq]; push_cast; rw [← two_zpow_split]; exact hpow)
    have hr' : (8388608 : ℚ) ≤ (roundHalfEven (y / (2 : ℚ) ^ (E - 23)) : ℚ) := by
      exact_mod_cast hr
    have h8 : (1 / 8 : ℚ) ≤ (2 : ℚ) ^ E := by
      have : (2 : ℚ) ^ (-3 : Int) ≤ (2 : ℚ) ^ E :=
        zpow_le_zpow_right₀ (by norm_num) (by omega)
      have h3 : (2 : ℚ) ^ (-3 : Int) = 1 / 8 := by norm_num [zpow_neg]
      rw [h3] at this; exact this
    have : (2 : ℚ) ^ E ≤ (roundHalfEven (y / (2 : ℚ) ^ (E - 23)) : ℚ) * (2 : ℚ) ^ (E - 23) := by
      rw [two_zpow_split E]
      exact mul_le_mul_of_nonneg_right hr' hq.le
    linarith

/-- A number up to the midpoint below the constant `0.1F` is rounded below it. -/
theorem f32Abs_lt_tenth (y : ℚ) (h0 : 0 ≤ y) (hy : y ≤ 26843545 / 268435456) :
    f32Abs y < 13421773 / 134217728 := by
  unfold f32Abs f32Exponent
  have hge := exponentUpTo_ge 253 y
  have hE : exponentUpTo 253 y ≤ -4 := by
    by_contra hcon
    have hgt : (-3 : Int) ≤ exponentUpTo 253 y := by omega
    have hpow := exponentUpTo_pow_le 253 y (by omega)
    have : (2 : ℚ) ^ (-3 : Int) ≤ (2 : ℚ) ^ (exponentUpTo 253 y) :=
      zpow_le_zpow_right₀ (by norm_num) hgt
    have h3 : (2 : ℚ) ^ (-3 : Int) = 1 / 8 := by norm_num [zpow_neg]
    rw [h3] at this
    linarith
  have hup : exponentUpTo 253 y < -4 → y < (2 : ℚ) ^ (exponentUpTo 253 y + 1) := by
    intro h
    exact exponentUpTo_lt_pow 253 y (by push_cast; omega)
  generalize exponentUpTo 253 y = E at hE hup hge ⊢
  have hq : (0 : ℚ) < (2 : ℚ) ^ (E - 23) := zpow_pos (by norm_num) _
  rcases eq_or_lt_of_le hE with heq | hlt
  · subst heq
    have hq' : (2 : ℚ) ^ ((-4 : Int) - 23) = 1 / 134217728 := by norm_num [zpow_neg]
    rw [hq']
    have hr : roundHalfEven (y / (1 / 134217728)) ≤ 13421772 :=
      roundHalfEven_le_tie 13421772 _ (by norm_num) (by
        rw [div_div_eq_mul_div, div_one]; push_cast; linarith)
    have hr' : (roundHalfEven (y / (1 / 134217728)) : ℚ) ≤ 13421772 := by
      exact_mod_cast hr
    linarith
  · have hy2 := hup hlt
    have hr : roundHalfEven (y / (2 : ℚ) ^ (E - 23)) ≤ 16777216 :=
      roundHalfEven_le 16777216 _ (by
        rw [div_le_iff₀ hq]; push_cast
        have : (16777216 : ℚ) * (2 : ℚ) ^ (E - 23) = (2 : ℚ) ^ (E + 1) := by
          rw [two_zpow_split (E + 1)]
          have : E + 1 - 23 = (E - 23) + 1 := by ring
          rw [this, zpow_add₀ (by norm_num : (2 : ℚ) ≠ 0)]
          norm_num; ring
        rw [this]; exact hy2.le)
    have hr' : (roundHalfEven (y / (2 : ℚ) ^ (E - 23)) : ℚ) ≤ 16777216 := by
      exact_mod_cast hr
    have h16 : (2 : ℚ) ^ (E + 1) ≤ 1 / 16 := by
      have : (2 : ℚ) ^ (E + 1) ≤ (2 : ℚ) ^ (-4 : Int) :=
        zpow_le_zpow_right₀ (by norm_num) (by omega)
      have h4 : (2 : ℚ) ^ (-4 : Int) = 1 / 16 := by norm_num [zpow_neg]
      rw [h4] at this; exact this
    have hmul : (roundHalfEven (y / (2 : ℚ) ^ (E - 23)) : ℚ) * (2 : ℚ) ^ (E - 23)
        ≤ (2 : ℚ) ^ (E + 1) := by
      have h1 : (16777216 : ℚ) * (2 : ℚ) ^ (E - 23) = (2 : ℚ) ^ (E + 1) := by
        rw [two_zpow_split (E + 1)]
        have : E + 1 - 23 = (E - 23) + 1 := by ring
        rw [this, zpow_add₀ (by norm_num : (2 : ℚ) ≠ 0)]
        norm_num; ring
      rw [← h1]
      exact mul_le_mul_of_nonneg_right hr' hq.le
    linarith

/-- A difference that passes the single-precision test is below 0.1 exactly. -/
theorem rate_test_within (d : ℚ) (h : |f32 d| < 13421773 / 134217728) : |d| < 1 / 10 := by
  by_contra hcon
  have := f32Abs_ge_tenth |d| (le_of_not_lt hcon)
  rw [abs_f32] at h
  linarith

/-- A difference of at most 26843545 / 2 ^ 28, about 0.0999999978, passes the single-precision test. -/
theorem rate_test_passes (d : ℚ) (h : |d| ≤ 26843545 / 268435456) :
    |f32 d| < 13421773 / 134217728 := by
  rw [abs_f32]
  exact f32Abs_lt_tenth |d| (abs_nonneg d) h

/-- The call `itsEngine->setFormat(idx)` made by a gadget `g` when the table has a mapping at
`idx`, camera and gadget driver accept it and its module is constructed: the gadget carries
the output format and rate of the mapping afterwards and the engine does not throw. -/
theorem engineSetFormat_accepted (p : Platform) (platformPro : Bool)
    (cenv : CameraEnv) (sfmtOk : VideoMapping → Bool) (env : EngineEnv) (sys : System)
    (idx : Nat) (m : VideoMapping) (i : Nat) (g : Gadget)
    (hm : sys.engine.itsMappings[idx]? = some m)
    (hms : ¬ (p.a33 = true ∧ sys.engine.itsMassStorageMode = true))
    (hcam : (Camera.setFormat p platformPro cenv m sys.camera).2 = Outcome.ok ())
    (hgad : m.ofmt = 0 ∨ sfmtOk m = true)
    (hcon : env.construction m = Construction.ready i) :
    System.engineSetFormat p platformPro cenv sfmtOk env sys idx g
      = { state := { g with
            itsFormat := { width := m.ow, height := m.oh, pixelformat := m.ofmt },
            itsFps := m.ofps },
          calls := if m.ofmt = 0 then []
                   else [GadgetCall.sfmt m.ofmt m.ow m.oh, GadgetCall.sparm],
          ret := Outcome.ok () } := by
  have h := systemFormat_accepted p platformPro cenv sfmtOk env m { sys with gadget := g } i
    hms hcam hgad hcon
  unfold System.engineSetFormat System.setFormat
  simp only [hm]
  rw [h]
  have hc : ¬ ((p.a33 = true ∧ sys.engine.itsMassStorageMode = true)
      ∨ (Camera.setFormat p platformPro cenv m sys.camera).2.isOk = false) := by
    rw [hcam]; simp [Outcome.isOk]; simpa using hms
  rw [if_neg hc]
  have hcalls : (Gadget.setFormat (sfmtOk m) m g).calls
      = if m.ofmt = 0 then [] else [GadgetCall.sfmt m.ofmt m.ow m.oh, GadgetCall.sparm] := by
    unfold Gadget.setFormat
    dsimp only
    rcases hgad with h0 | h1
    · simp [h0]
    · by_cases h0 : m.ofmt = 0
      · simp [h0]
      · simp [h0, h1]
  rw [hcalls]

/-- The format part of `setFormat` leaves the buffer pool alone. -/
theorem setFormatLocked_buffers (p : Platform) (drv : FormatDriver) (s : CameraDevice)
    (fmt capw caph : Nat) (fps : ℚ) (cropw croph : Nat) (preset : Int) :
    (setFormatLocked p drv s fmt capw caph fps cropw croph preset).state.itsBuffers
      = s.itsBuffers := by
  unfold setFormatLocked
  dsimp only
  split_ifs <;> try rfl
  all_goals (split <;> try rfl)
  all_goals (split <;> try rfl)
  all_goals (split_ifs <;> rfl)

/-- A `setFormat` issued on a device without a pool, or on a streaming device, leaves no
pool behind. -/
theorem setFormat_guarded_buffers (p : Platform) (drv : FormatDriver) (s : CameraDevice)
    (fmt capw caph : Nat) (fps : ℚ) (cropw croph : Nat) (preset : Int)
    (h : s.itsBuffers = none ∨ s.itsStreaming = true) :
    (setFormat p drv s fmt capw caph fps cropw croph preset).state.itsBuffers = none := by
  unfold setFormat
  dsimp only
  rw [setFormatLocked_buffers]
  by_cases hs : s.itsStreaming = true
  · simp [hs, streamOff]
  · rcases h with h | h
    · simp [hs, h]
    · exact absurd h hs

/-- The call `streamOn` never changes the format-valid flag. -/
theorem streamOn_formatOk (p : Platform) (drv : StreamDriver) (s : CameraDevice) :
    (streamOn p drv s).state.itsFormatOk = s.itsFormatOk := by
  unfold streamOn
  dsimp only
  repeat' split
  all_goals rfl

/-- After `streamOn` a pool implies a valid format, when this held before. -/
theorem streamOn_pool_format (p : Platform) (drv : StreamDriver) (s : CameraDevice)
    (h : s.itsBuffers ≠ none → s.itsFormatOk = true) :
    (streamOn p drv s).state.itsBuffers ≠ none → (streamOn p drv s).state.itsFormatOk = true := by
  rw [streamOn_formatOk]
  by_cases hf : s.itsFormatOk = false
  · have hst : (streamOn p drv s).state = s := by simp [streamOn, hf]
    rw [hst]
    exact h
  · intro _
    simpa using hf

/-- One guarded action keeps the invariant: a pool implies a valid format. -/
theorem action_pool_format (p : Platform) (s : CameraDevice) (a : DeviceAction)
    (hg : a.isSetFormat = true → s.itsBuffers = none ∨ s.itsStreaming = true)
    (h : s.itsBuffers ≠ none → s.itsFormatOk = true) :
    (a.run p s).itsBuffers ≠ none → (a.run p s).itsFormatOk = true := by
  cases a with
  | setFormat drv fmt capw caph fps cropw croph preset =>
    intro hb
    exact absurd (setFormat_guarded_buffers p drv s fmt capw caph fps cropw croph preset
      (hg rfl)) hb
  | streamOn drv => exact streamOn_pool_format p drv s h
  | abortStream => exact h
  | streamOff => intro hb; exact absurd rfl hb

/-- A guarded sequence keeps the invariant at its end. -/
theorem runActions_pool_format (p : Platform) (actions : List DeviceAction) :
    ∀ s : CameraDevice, formatCallsGuarded p s actions = true →
      (s.itsBuffers ≠ none → s.itsFormatOk = true) →
      (runActions p s actions).itsBuffers ≠ none → (runActions p s actions).itsFormatOk = true := by
  induction actions with
  | nil => intro s _ h; exact h
  | cons a rest ih =>
    intro s hg h
    simp only [formatCallsGuarded, Bool.and_eq_true, Bool.or_eq_true, Bool.not_eq_true',
      Option.isNone_iff_eq_none] at hg
    refine ih (a.run p s) hg.2 (action_pool_format p s a ?_ h)
    intro ha
    rcases hg.1 with (h1 | h1) | h1
    · rw [ha] at h1; cases h1
    · exact Or.inl h1
    · exact Or.inr h1

/-- Every prefix of a guarded sequence is guarded. -/
theorem formatCallsGuarded_take (p : Platform) (actions : List DeviceAction) :
    ∀ (s : CameraDevice) (k : Nat), formatCallsGuarded p s actions = true →
      formatCallsGuarded p s (actions.take k) = true := by
  induction actions with
  | nil => intro s k _; simp [formatCallsGuarded]
  | cons a rest ih =>
    intro s k hg
    cases k with
    | zero => simp [formatCallsGuarded]
    | succ k =>
      simp only [formatCallsGuarded, Bool.and_eq_true, List.take_succ_cons] at hg ⊢
      exact ⟨hg.1, ih _ k hg.2⟩

/-- A sequence without `setFormat` is guarded from any state. -/
theorem formatCallsGuarded_of_none (p : Platform) (actions : List DeviceAction) :
    ∀ s : CameraDevice, (∀ b ∈ actions, b.isSetFormat = false) →
      formatCallsGuarded p s actions = true := by
  induction actions with
  | nil => intro s _; rfl
  | cons a rest ih =>
    intro s h
    simp only [formatCallsGuarded, Bool.and_eq_true, Bool.or_eq_true, Bool.not_eq_true']
    exact ⟨Or.inl (Or.inl (h a (List.mem_cons_self _ _))),
      ih _ (fun b hb => h b (List.mem_cons_of_mem _ hb))⟩

/-! ## The claims -/

/-- C1: let the poll thread run any number of iterations while streaming, starting with an
empty slot, with no `get` in between, and let the frames it dequeues be `frames` followed by
`last` (N >= 1 frames, in capture order; iterations that time out may lie in between).  Then
the slot holds the last frame, the next `get` returns it (its YUYV conversion with the same
buffer index when a conversion image is allocated) and leaves the slot empty, and the
indices of the first N-1 frames have gone through the pending-done list exactly once and in
capture order: what the re-queue steps took out of the list, followed by what is still in
it, is the old list followed by those indices. -/
theorem get_returns_latest_frame (s wake : CameraDevice) (b : VideoBuffers)
    (evs : List PollEvent) (frames : List Nat) (last : Nat)
    (hs : s.itsStreaming = true) (hb : s.itsBuffers = some b)
    (hempty : s.itsOutputImage.valid = false)
    (hpub : publishedFrames evs = frames ++ [last])
    (hlt : ∀ i ∈ frames ++ [last], i < b.size)
    (hconv : s.itsConvertedOutputImage.valid = true →
      s.itsFormat.pixelformat = V4L2_PIX_FMT_SRGGB8 ∨
        s.itsFormat.pixelformat = V4L2_PIX_FMT_GREY) :
    (runEvents s [] evs).state.itsOutputImage = capturedImage s last ∧
    (get (runEvents s [] evs).state wake).ret =
      Outcome.ok (if s.itsConvertedOutputImage.valid
        then { s.itsConvertedOutputImage with bufindex := last }
        else capturedImage s last) ∧
    (get (runEvents s [] evs).state wake).state.itsOutputImage.valid = false ∧
    (get (runEvents s [] evs).state wake).state.itsDoneIdx =
      (runEvents s [] evs).state.itsDoneIdx ∧
    (runEvents s [] evs).requeued ++ (runEvents s [] evs).state.itsDoneIdx =
      s.itsDoneIdx ++ frames := by
  have hlt' : ∀ i, PollEvent.frame i ∈ evs → i < b.size := by
    intro i hi
    apply hlt
    rw [← hpub]
    exact List.mem_filterMap.2 ⟨PollEvent.frame i, hi, rfl⟩
  obtain ⟨hstr, _, _, hfm, _, hcv, hpend, _, hlast⟩ := runEvents_inv evs s b hs hb hlt'
  have hslot := hlast frames last hpub
  have hdone : (runEvents s [] evs).requeued ++ (runEvents s [] evs).state.itsDoneIdx =
      s.itsDoneIdx ++ frames := by
    have h7 := hpend
    simp only [pendingWithSlot, hempty, hslot, hpub] at h7
    have hv' : (capturedImage s last).valid = true := rfl
    simp only [hv', if_true, Bool.false_eq_true, if_false, List.append_nil] at h7
    have h8 : ((runEvents s [] evs).requeued ++ (runEvents s [] evs).state.itsDoneIdx) ++
        [(capturedImage s last).bufindex] = (s.itsDoneIdx ++ frames) ++ [last] := by
      simpa [List.append_assoc] using h7
    exact (List.append_inj' h8 rfl).1
  have hv : (runEvents s [] evs).state.itsOutputImage.valid = true := by
    rw [hslot]; rfl
  have hconv' : (runEvents s [] evs).state.itsConvertedOutputImage.valid = true →
      (runEvents s [] evs).state.itsFormat.pixelformat = V4L2_PIX_FMT_SRGGB8 ∨
        (runEvents s [] evs).state.itsFormat.pixelformat = V4L2_PIX_FMT_GREY := by
    rw [hcv, hfm]; exact hconv
  rw [get_of_frame _ wake hstr hv hconv']
  refine ⟨hslot, ?_, rfl, rfl, hdone⟩
  simp only [delivered, hcv, hslot]
  rfl

/-- C1, evaluated: frames 0, 1 and 2 are captured into the empty slot of a streaming device
with five buffers, with one timeout in between. -/
theorem get_returns_latest_frame_witness :
    demoStreaming.itsStreaming = true ∧
    demoStreaming.itsBuffers = some { size := 5, nqueued := 5 } ∧
    demoStreaming.itsOutputImage.valid = false ∧
    publishedFrames [PollEvent.frame 0, PollEvent.frame 1, PollEvent.timeout,
      PollEvent.frame 2] = [0, 1] ++ [2] ∧
    (∀ i ∈ [0, 1] ++ [2], i < 5) ∧
    (get (runEvents demoStreaming [] [PollEvent.frame 0, PollEvent.frame 1,
      PollEvent.timeout, PollEvent.frame 2]).state demoStreaming).ret =
      Outcome.ok (capturedImage demoStreaming 2) ∧
    (get (runEvents demoStreaming [] [PollEvent.frame 0, PollEvent.frame 1,
      PollEvent.timeout, PollEvent.frame 2]).state
        demoStreaming).state.itsOutputImage.valid = false ∧
    (runEvents demoStreaming [] [PollEvent.frame 0, PollEvent.frame 1,
      PollEvent.timeout, PollEvent.frame 2]).requeued ++
      (runEvents demoStreaming [] [PollEvent.frame 0, PollEvent.frame 1,
        PollEvent.timeout, PollEvent.frame 2]).state.itsDoneIdx = [0, 1] :=
  have h := get_returns_latest_frame demoStreaming demoStreaming { size := 5, nqueued := 5 }
    [PollEvent.frame 0, PollEvent.frame 1, PollEvent.timeout, PollEvent.frame 2]
    [0, 1] 2 rfl rfl rfl rfl (by decide) (by decide)
  ⟨rfl, rfl, rfl, rfl, by decide, h.2.1, h.2.2.1, h.2.2.2.2⟩

/-- C2 fails as stated: starting from a freshly started stream of five buffers, the consumer
takes buffers 0 to 3 with `get` and passes buffer 3 to `done` once.  The next iteration
re-queues buffer 3 and empties the pending-done list; the iteration after it finds fewer
than two buffers queued and its low-water step enqueues buffer 3 again.  The device sees
two enqueues of buffer 3 for a single `done`. -/
theorem requeue_exactly_once_counterexample :
    (captureThenGet (captureThenGet (captureThenGet
      (captureThenGet demoStreaming 0).state 1).state 2).state 3).ret
        = Outcome.ok (capturedImage demoStreaming 3) ∧
    (done demoHolding (capturedImage demoStreaming 3)).ret = Outcome.ok () ∧
    (runIteration (done demoHolding (capturedImage demoStreaming 3)).state []
      (PollEvent.frame 4)).requeued = [3] ∧
    (runIteration (done demoHolding (capturedImage demoStreaming 3)).state []
      (PollEvent.frame 4)).state.itsDoneIdx = [] ∧
    (runIteration
      (runIteration (done demoHolding (capturedImage demoStreaming 3)).state []
        (PollEvent.frame 4)).state [] PollEvent.timeout).forced = [0, 1, 2, 3] ∧
    ((runIteration (done demoHolding (capturedImage demoStreaming 3)).state []
        (PollEvent.frame 4)).calls ++
      (runIteration
        (runIteration (done demoHolding (capturedImage demoStreaming 3)).state []
          (PollEvent.frame 4)).state [] PollEvent.timeout).calls).count (DevCall.qbuf 3)
      = 2 := by
  decide

/-- C2 as amended: after any sequence of `done` calls accepted while streaming, the pending
list holds the done indices in call order; the swap of the next poll iteration empties it,
and the re-queue step of that iteration enqueues exactly those indices, each once and in
order.  The only other enqueues of the iteration are those of the low-water step, made when
fewer than two buffers are queued after the re-queue: every pool buffer except the one in
the slot. -/
theorem requeue_step_exactly_once (s : CameraDevice) (b : VideoBuffers)
    (imgs : List RawImage) (ev : PollEvent)
    (hs : s.itsStreaming = true) (hb : s.itsBuffers = some b) :
    (doneAll s imgs).itsDoneIdx = s.itsDoneIdx ++ imgs.map (fun i => i.bufindex) ∧
    (runSwap (doneAll s imgs) []).1.itsDoneIdx = [] ∧
    (runIteration (doneAll s imgs) [] ev).requeued =
      s.itsDoneIdx ++ imgs.map (fun i => i.bufindex) ∧
    (runIteration (doneAll s imgs) [] ev).doneidx = [] ∧
    (runIteration (doneAll s imgs) [] ev).forced =
      (if b.nqueued + (s.itsDoneIdx ++ imgs.map (fun i => i.bufindex)).length < 2
        then b.allButOne (lowWaterKeep s) else []) ∧
    (runIteration (doneAll s imgs) [] ev).calls.filter DevCall.isQbuf =
      ((runIteration (doneAll s imgs) [] ev).requeued ++
        (runIteration (doneAll s imgs) [] ev).forced).map DevCall.qbuf := by
  have hd := doneAll_streaming imgs s hs
  have hs' : (doneAll s imgs).itsStreaming = true := by rw [hd]; exact hs
  have hb' : (doneAll s imgs).itsBuffers = some b := by rw [hd]; exact hb
  have hk : lowWaterKeep (doneAll s imgs) = lowWaterKeep s := by rw [hd]; rfl
  obtain ⟨r1, r2, r3, r4⟩ := runIteration_requeue (doneAll s imgs) b ev hs' hb'
  have hlist : (doneAll s imgs).itsDoneIdx = s.itsDoneIdx ++ imgs.map (fun i => i.bufindex) := by
    rw [hd]
  refine ⟨hlist, ?_, ?_, r2, ?_, r4⟩
  · rw [runSwap_nil]
  · rw [r1, hlist]
  · rw [r3, hlist, hk]

/-- C2 as amended, evaluated: two `done` calls on a stream with all five buffers queued. -/
theorem requeue_step_exactly_once_witness :
    demoStreaming.itsStreaming = true ∧
    demoStreaming.itsBuffers = some { size := 5, nqueued := 5 } ∧
    (runIteration (doneAll demoStreaming
      [capturedImage demoStreaming 1, capturedImage demoStreaming 0]) []
        PollEvent.timeout).requeued = [1, 0] ∧
    (runIteration (doneAll demoStreaming
      [capturedImage demoStreaming 1, capturedImage demoStreaming 0]) []
        PollEvent.timeout).forced = [] :=
  have h := requeue_step_exactly_once demoStreaming { size := 5, nqueued := 5 }
    [capturedImage demoStreaming 1, capturedImage demoStreaming 0] PollEvent.timeout rfl rfl
  ⟨rfl, rfl, h.2.2.1, h.2.2.2.2.1⟩

/-- C3: `get` succeeds exactly when, at the end of its wait, the device is streaming and the
slot holds a valid frame; it then returns that frame, or the conversion image carrying the
buffer index of that frame, and leaves the slot empty.  Otherwise it throws (a timeout when
the slot is still empty while streaming, "not streaming" when streaming was turned off, even
with a frame in the slot) and the state, hence the slot and the pending-done list, is left as
it was at the end of the wait.  The hypothesis is the consistency that `setFormat`
establishes: a conversion image exists only for a raw Bayer or monochrome device format. -/
theorem get_succeeds_iff (s wake : CameraDevice)
    (hconv : s.itsConvertedOutputImage.valid = true →
      (endOfWait s wake).1.itsFormat.pixelformat = V4L2_PIX_FMT_SRGGB8 ∨
        (endOfWait s wake).1.itsFormat.pixelformat = V4L2_PIX_FMT_GREY) :
    ((get s wake).ret.isOk = true ↔
      ((endOfWait s wake).1.itsStreaming = true ∧
        (endOfWait s wake).1.itsOutputImage.valid = true)) ∧
    (((endOfWait s wake).1.itsStreaming = true ∧
        (endOfWait s wake).1.itsOutputImage.valid = true) →
      ((get s wake).ret = Outcome.ok (endOfWait s wake).1.itsOutputImage ∨
        (get s wake).ret = Outcome.ok
          { (endOfWait s wake).1.itsConvertedOutputImage with
            bufindex := (endOfWait s wake).1.itsOutputImage.bufindex }) ∧
      (get s wake).state = { (endOfWait s wake).1 with
        itsOutputImage := (endOfWait s wake).1.itsOutputImage.invalidate } ∧
      (get s wake).state.itsOutputImage.valid = false) ∧
    (((endOfWait s wake).1.itsStreaming = true ∧
        (endOfWait s wake).1.itsOutputImage.valid = false) →
      (get s wake).ret = Outcome.threw Error.timeoutWaitingForFrame ∧
      (get s wake).state = (endOfWait s wake).1) ∧
    ((endOfWait s wake).1.itsStreaming = false →
      (get s wake).ret = Outcome.threw Error.notStreaming ∧
      (get s wake).state = (endOfWait s wake).1) := by
  have hflag := endOfWait_flag s wake
  unfold get
  generalize endOfWait s wake = ew at *
  obtain ⟨e, ok⟩ := ew
  simp only at hflag hconv
  subst hflag
  cases h1 : e.itsStreaming <;> cases h2 : e.itsOutputImage.valid <;>
    cases h3 : s.itsConvertedOutputImage.valid <;>
    simp [waitPredicate, h1, h2, h3, Outcome.isOk, invalidate_valid]
  have hp := hconv h3
  simp only [if_pos hp]
  simp [Outcome.isOk, invalidate_valid]

/-- C3, evaluated: a streaming Bayer device with frame 3 in the slot hands out the
conversion image with buffer index 3. -/
theorem get_succeeds_iff_witness :
    (demoBayer.itsConvertedOutputImage.valid = true →
      (endOfWait demoBayer demoBayer).1.itsFormat.pixelformat = V4L2_PIX_FMT_SRGGB8 ∨
        (endOfWait demoBayer demoBayer).1.itsFormat.pixelformat = V4L2_PIX_FMT_GREY) ∧
    ((get demoBayer demoBayer).ret.isOk = true ↔
      ((endOfWait demoBayer demoBayer).1.itsStreaming = true ∧
        (endOfWait demoBayer demoBayer).1.itsOutputImage.valid = true)) ∧
    (get demoBayer demoBayer).ret =
      Outcome.ok { demoBayer.itsConvertedOutputImage with bufindex := 3 } :=
  ⟨fun _ => Or.inl rfl, (get_succeeds_iff demoBayer demoBayer (fun _ => Or.inl rfl)).1,
    by decide⟩

/-- C4: `abortStream` never fails, clears the streaming flag and changes nothing else; doing
it twice gives the same state as doing it once, and on a device that is not streaming
(for instance one freshly constructed) it changes nothing at all. -/
theorem abortStream_total_idempotent (s : CameraDevice) :
    (abortStream s).ret = Outcome.ok () ∧
    (abortStream s).calls = [] ∧
    (abortStream s).state = { s with itsStreaming := false } ∧
    (abortStream s).state.itsStreaming = false ∧
    (abortStream s).state.itsBuffers = s.itsBuffers ∧
    (abortStream s).state.itsOutputImage = s.itsOutputImage ∧
    (abortStream s).state.itsDoneIdx = s.itsDoneIdx ∧
    (abortStream s).state.itsFormat = s.itsFormat ∧
    (abortStream s).state.itsFormatOk = s.itsFormatOk ∧
    (abortStream s).state.itsConvertedOutputImage = s.itsConvertedOutputImage ∧
    (abortStream (abortStream s).state).state = (abortStream s).state ∧
    (s.itsStreaming = true ∨ (abortStream s).state = s) ∧
    (∀ n m, (abortStream (CameraDevice.init n m)).state = CameraDevice.init n m) := by
  refine ⟨rfl, rfl, rfl, rfl, rfl, rfl, rfl, rfl, rfl, rfl, rfl, ?_, fun _ _ => rfl⟩
  cases h : s.itsStreaming
  · right
    cases s
    simp_all [abortStream]
  · left; rfl

/-- C5 fails as stated: from a freshly started stream of five buffers the consumer takes
buffers 0 to 3 with `get` and never calls `done`, so buffer 3 is the one it currently holds
and the slot is empty.  One buffer is left queued, and the low-water step of the next
iteration enqueues all five buffers, the consumer-held buffer 3 included. -/
theorem lowWater_spares_consumer_counterexample :
    (captureThenGet (captureThenGet (captureThenGet
      (captureThenGet demoStreaming 0).state 1).state 2).state 3).ret
        = Outcome.ok (capturedImage demoStreaming 3) ∧
    demoHolding.itsStreaming = true ∧
    demoHolding.itsBuffers = some { size := 5, nqueued := 1 } ∧
    demoHolding.itsOutputImage.valid = false ∧
    demoHolding.itsDoneIdx = [] ∧
    (runIteration demoHolding [] PollEvent.timeout).forced = [0, 1, 2, 3, 4] ∧
    3 ∈ (runIteration demoHolding [] PollEvent.timeout).forced := by
  decide

/-- C5 as amended: in a poll iteration while streaming, when fewer than two buffers are
queued after the re-queue step, the low-water step enqueues, once each, exactly the buffers
of the pool other than `lowWaterKeep`, which is the buffer of the frame in the latest-frame
slot, or the sentinel 12345678 (so no buffer of a pool of at most that size) when the slot
is empty.  The slot buffer is never enqueued by this step. -/
theorem lowWater_spares_slot_only (s : CameraDevice) (b : VideoBuffers) (ev : PollEvent)
    (hs : s.itsStreaming = true) (hb : s.itsBuffers = some b)
    (hlow : b.nqueued + s.itsDoneIdx.length < 2) :
    (∀ i, i ∈ (runIteration s [] ev).forced ↔ (i < b.size ∧ i ≠ lowWaterKeep s)) ∧
    (runIteration s [] ev).forced.Nodup ∧
    lowWaterKeep s =
      (if s.itsOutputImage.valid then s.itsOutputImage.bufindex else 12345678) ∧
    (s.itsOutputImage.valid = false ∨
      s.itsOutputImage.bufindex ∉ (runIteration s [] ev).forced) ∧
    (s.itsOutputImage.valid = true ∨ 12345678 < b.size ∨
      (runIteration s [] ev).forced = List.range b.size) := by
  obtain ⟨_, _, r3, _⟩ := runIteration_requeue s b ev hs hb
  rw [r3, if_pos hlow]
  have hmem : ∀ i, i ∈ b.allButOne (lowWaterKeep s) ↔ (i < b.size ∧ i ≠ lowWaterKeep s) := by
    intro i
    simp [VideoBuffers.allButOne, List.mem_filter, List.mem_range]
  refine ⟨hmem, ?_, rfl, ?_, ?_⟩
  · exact List.Nodup.filter _ (List.nodup_range b.size)
  · cases hv : s.itsOutputImage.valid
    · left; rfl
    · right
      intro hin
      have := (hmem _).1 hin
      simp [lowWaterKeep, hv] at this
  · cases hv : s.itsOutputImage.valid
    · by_cases hsz : 12345678 < b.size
      · right; left; exact hsz
      · right; right
        simp only [VideoBuffers.allButOne, lowWaterKeep, hv]
        rw [List.filter_eq_self]
        intro i hi
        have := List.mem_range.1 hi
        simp
        omega
    · left; rfl

/-- C5 as amended, evaluated: frame 3 sits in the slot of a stream whose consumer holds
buffers 0 to 2, and one buffer is queued; buffers 0, 1, 2 and 4 are enqueued. -/
theorem lowWater_spares_slot_only_witness :
    demoSlotFull.itsStreaming = true ∧
    demoSlotFull.itsBuffers = some { size := 5, nqueued := 1 } ∧
    1 + demoSlotFull.itsDoneIdx.length < 2 ∧
    (runIteration demoSlotFull [] PollEvent.timeout).forced = [0, 1, 2, 4] ∧
    (∀ i, i ∈ (runIteration demoSlotFull [] PollEvent.timeout).forced ↔
      (i < 5 ∧ i ≠ lowWaterKeep demoSlotFull)) :=
  ⟨by decide, by decide, by decide, by decide,
    (lowWater_spares_slot_only demoSlotFull { size := 5, nqueued := 1 } PollEvent.timeout
      (by decide) (by decide) (by decide)).1⟩

/-- C6: `setFormat` returns normally exactly when it leaves the format-valid flag true, so
every failure leaves the flag false.  When the flag is true afterwards, the format read back
from the device has the requested capture width and height, and its pixel format (as kept by
the code: passed through the sunxi fix on the A33 build, unchanged elsewhere) is the
requested one, or, on a device that is not multiplane and for a YUYV request, raw Bayer or
monochrome.  Whenever the read-back does not satisfy this, `setFormat` throws and the flag
is false. -/
theorem setFormat_formatOk_only_if_exact (p : Platform) (drv : FormatDriver)
    (s : CameraDevice) (fmt capw caph : Nat) (fps : ℚ) (cropw croph : Nat) (preset : Int) :
    ((setFormat p drv s fmt capw caph fps cropw croph preset).ret.isOk =
      (setFormat p drv s fmt capw caph fps cropw croph preset).state.itsFormatOk) ∧
    ((setFormat p drv s fmt capw caph fps cropw croph preset).state.itsFormatOk = true →
      ∃ rb pf, drv.readback = some rb ∧ readbackPixelformat p rb = some pf ∧
        (p.a33 = true ∨ pf = rb.pixelformat) ∧
        rb.width = capw ∧ rb.height = caph ∧
        (pf = fmt ∨ (s.itsMplane = false ∧ fmt = V4L2_PIX_FMT_YUYV ∧
          (pf = V4L2_PIX_FMT_SRGGB8 ∨ pf = V4L2_PIX_FMT_GREY)))) ∧
    (∀ rb pf, drv.readback = some rb → readbackPixelformat p rb = some pf →
      ¬ (rb.width = capw ∧ rb.height = caph ∧
        (pf = fmt ∨ (s.itsMplane = false ∧ fmt = V4L2_PIX_FMT_YUYV ∧
          (pf = V4L2_PIX_FMT_SRGGB8 ∨ pf = V4L2_PIX_FMT_GREY)))) →
      (∃ e, (setFormat p drv s fmt capw caph fps cropw croph preset).ret = Outcome.threw e) ∧
      (setFormat p drv s fmt capw caph fps cropw croph preset).state.itsFormatOk = false) := by
  obtain ⟨hst, hret⟩ := setFormat_state p drv s fmt capw caph fps cropw croph preset
  obtain ⟨h1, h2⟩ :=
    setFormatLocked_ok p drv (afterStreamOff s) fmt capw caph fps cropw croph preset
  rw [← hst, ← hret] at h1
  rw [← hst] at h2
  have key : (setFormat p drv s fmt capw caph fps cropw croph preset).state.itsFormatOk = true →
      ∃ rb pf, drv.readback = some rb ∧ readbackPixelformat p rb = some pf ∧
        (p.a33 = true ∨ pf = rb.pixelformat) ∧
        rb.width = capw ∧ rb.height = caph ∧
        (pf = fmt ∨ (s.itsMplane = false ∧ fmt = V4L2_PIX_FMT_YUYV ∧
          (pf = V4L2_PIX_FMT_SRGGB8 ∨ pf = V4L2_PIX_FMT_GREY))) := by
    intro hok
    obtain ⟨rb, pf, hrb, hpf, hnr, _⟩ := h2 hok
    rw [afterStreamOff_mplane, formatRefused_eq_false_iff] at hnr
    refine ⟨rb, pf, hrb, hpf, ?_, hnr.1, hnr.2.1, hnr.2.2⟩
    cases ha : p.a33
    · right
      simp [readbackPixelformat, ha] at hpf
      exact hpf.symm
    · left; rfl
  refine ⟨h1, key, ?_⟩
  intro rb pf hrb hpf hnot
  have hflag : (setFormat p drv s fmt capw caph fps cropw croph preset).state.itsFormatOk
      = false := by
    cases hf : (setFormat p drv s fmt capw caph fps cropw croph preset).state.itsFormatOk
    · rfl
    · exfalso
      obtain ⟨rb', pf', hrb', hpf', _, hw, hh, hp⟩ := key hf
      rw [hrb] at hrb'
      cases hrb'
      rw [hpf] at hpf'
      cases hpf'
      exact hnot ⟨hw, hh, hp⟩
  refine ⟨?_, hflag⟩
  rw [hflag] at h1
  cases hr : (setFormat p drv s fmt capw caph fps cropw croph preset).ret with
  | ok v => rw [hr] at h1; simp [Outcome.isOk] at h1
  | threw e => exact ⟨e, rfl⟩

/-- C6, evaluated: a YUYV request at 640 by 480 on a sensor that only delivers raw Bayer
succeeds with the flag set, and the read-back is SRGGB8 at the requested size. -/
theorem setFormat_formatOk_only_if_exact_witness :
    (setFormat demoPlatform demoBayerDriver (CameraDevice.init 0 false)
      V4L2_PIX_FMT_YUYV 640 480 30 640 480 (-1)).state.itsFormatOk = true ∧
    (∃ rb pf, demoBayerDriver.readback = some rb ∧
      readbackPixelformat demoPlatform rb = some pf ∧
      (demoPlatform.a33 = true ∨ pf = rb.pixelformat) ∧
      rb.width = 640 ∧ rb.height = 480 ∧
      (pf = V4L2_PIX_FMT_YUYV ∨ ((CameraDevice.init 0 false).itsMplane = false ∧
        V4L2_PIX_FMT_YUYV = V4L2_PIX_FMT_YUYV ∧
        (pf = V4L2_PIX_FMT_SRGGB8 ∨ pf = V4L2_PIX_FMT_GREY)))) :=
  ⟨by decide,
    (setFormat_formatOk_only_if_exact demoPlatform demoBayerDriver (CameraDevice.init 0 false)
      V4L2_PIX_FMT_YUYV 640 480 30 640 480 (-1)).2.1 (by decide)⟩

/-- C7: (a) when a device that is not multiplane refuses the requested pixel format,
`setFormat` next asks for raw Bayer and, only when that is refused too, for monochrome, and
it throws with the format-valid flag false when all three are refused.  (b) After a
successful `setFormat` the conversion image is allocated exactly when the device is not
multiplane, YUYV was requested and the device format is raw Bayer or monochrome; it is then
a YUYV image of the cropped size.  (c) In any later streaming state with that format and a
captured frame in the slot, `get` returns the conversion image carrying the buffer index of
the frame exactly in that case, and the captured frame itself otherwise. -/
theorem setFormat_fallback_and_conversion (p : Platform) (drv : FormatDriver)
    (s : CameraDevice) (fmt capw caph : Nat) (fps : ℚ) (cropw croph : Nat) (preset : Int) :
    (drv.gfmtOk = true → s.itsMplane = false →
      drv.sfmtAccepts { width := capw, height := caph, pixelformat := fmt } = false →
      (setFormat p drv s fmt capw caph fps cropw croph preset).calls.filterMap
          DevCall.sfmtPixelformat =
        (if drv.sfmtAccepts
            { width := capw, height := caph, pixelformat := V4L2_PIX_FMT_SRGGB8 }
          then [fmt, V4L2_PIX_FMT_SRGGB8]
          else [fmt, V4L2_PIX_FMT_SRGGB8, V4L2_PIX_FMT_GREY]) ∧
      (drv.sfmtAccepts
          { width := capw, height := caph, pixelformat := V4L2_PIX_FMT_SRGGB8 } = false →
        drv.sfmtAccepts
          { width := capw, height := caph, pixelformat := V4L2_PIX_FMT_GREY } = false →
        (setFormat p drv s fmt capw caph fps cropw croph preset).ret =
          Outcome.threw Error.couldNotSetFormat ∧
        (setFormat p drv s fmt capw caph fps cropw croph preset).state.itsFormatOk = false)) ∧
    (∀ t, t = (setFormat p drv s fmt capw caph fps cropw croph preset).state →
      (setFormat p drv s fmt capw caph fps cropw croph preset).ret = Outcome.ok () →
      (t.itsConvertedOutputImage.valid = true ↔
        (s.itsMplane = false ∧ fmt = V4L2_PIX_FMT_YUYV ∧
          (t.itsFormat.pixelformat = V4L2_PIX_FMT_SRGGB8 ∨
            t.itsFormat.pixelformat = V4L2_PIX_FMT_GREY))) ∧
      (t.itsConvertedOutputImage.valid = true →
        t.itsConvertedOutputImage.fmt = V4L2_PIX_FMT_YUYV ∧
        t.itsConvertedOutputImage.width = cropw ∧
        t.itsConvertedOutputImage.height = croph ∧
        t.itsConvertedOutputImage.buf = some VideoBufRef.heap) ∧
      (∀ e wake idx, e.itsConvertedOutputImage = t.itsConvertedOutputImage →
        e.itsFormat = t.itsFormat → e.itsStreaming = true →
        e.itsOutputImage = capturedImage e idx →
        (t.itsConvertedOutputImage.valid = true →
          (get e wake).ret =
            Outcome.ok { t.itsConvertedOutputImage with bufindex := idx }) ∧
        (t.itsConvertedOutputImage.valid = false →
          (get e wake).ret = Outcome.ok (capturedImage e idx)))) := by
  obtain ⟨hst, hret⟩ := setFormat_state p drv s fmt capw caph fps cropw croph preset
  constructor
  · intro hg hm hrej
    constructor
    · have hc : (setFormat p drv s fmt capw caph fps cropw croph preset).calls.filterMap
          DevCall.sfmtPixelformat =
          (negotiate (afterStreamOff s).itsMplane drv.sfmtAccepts fmt capw caph).tried := by
        rw [← setFormatLocked_sfmt_calls p drv (afterStreamOff s) fmt capw caph fps cropw croph
          preset hg]
        unfold setFormat afterStreamOff
        split
        · simp only [List.filterMap_append, streamOff_calls_sfmt, List.nil_append]
        · simp
      rw [hc, afterStreamOff_mplane, hm]
      cases h1 : drv.sfmtAccepts
          { width := capw, height := caph, pixelformat := V4L2_PIX_FMT_SRGGB8 } <;>
        cases h2 : drv.sfmtAccepts
          { width := capw, height := caph, pixelformat := V4L2_PIX_FMT_GREY } <;>
        simp [negotiate, hrej, h1, h2]
    · intro h1 h2
      rw [hst, hret]
      unfold setFormatLocked
      simp [hg, negotiate, afterStreamOff_mplane, hm, hrej, h1, h2]
  · intro t ht hok
    obtain ⟨h1, h2⟩ :=
      setFormatLocked_ok p drv (afterStreamOff s) fmt capw caph fps cropw croph preset
    rw [← hst, ← hret, hok] at h1
    rw [← hst] at h2
    obtain ⟨rb, pf, _, _, _, hstate⟩ := h2 h1.symm
    rw [← ht] at hstate
    have hconv : t.itsConvertedOutputImage =
        conversionImage
          { afterStreamOff s with
            itsFormatOk := false,
            itsFormat := { width := cropw, height := croph, pixelformat := pf },
            itsFps := fps } fmt := by rw [hstate]
    have hfmt : t.itsFormat = { width := cropw, height := croph, pixelformat := pf } := by
      rw [hstate]
    have hiff : t.itsConvertedOutputImage.valid = true ↔
        (s.itsMplane = false ∧ fmt = V4L2_PIX_FMT_YUYV ∧
          (t.itsFormat.pixelformat = V4L2_PIX_FMT_SRGGB8 ∨
            t.itsFormat.pixelformat = V4L2_PIX_FMT_GREY)) := by
      rw [hconv, hfmt]
      unfold conversionImage
      simp only [afterStreamOff_mplane]
      split
      · rename_i hc
        simp only [RawImage.valid, Option.isSome_some, true_iff]
        exact hc
      · rename_i hc
        simp only [invalidate_valid, Bool.false_eq_true, false_iff]
        exact hc
    have hfields : t.itsConvertedOutputImage.valid = true →
        t.itsConvertedOutputImage.fmt = V4L2_PIX_FMT_YUYV ∧
        t.itsConvertedOutputImage.width = cropw ∧
        t.itsConvertedOutputImage.height = croph ∧
        t.itsConvertedOutputImage.buf = some VideoBufRef.heap := by
      rw [hconv]
      unfold conversionImage
      split
      · intro _; exact ⟨rfl, rfl, rfl, rfl⟩
      · intro h; simp [invalidate_valid] at h
    refine ⟨hiff, hfields, ?_⟩
    intro e wake idx hec hef hes heo
    have hv : e.itsOutputImage.valid = true := by rw [heo]; rfl
    have hcons : e.itsConvertedOutputImage.valid = true →
        e.itsFormat.pixelformat = V4L2_PIX_FMT_SRGGB8 ∨
          e.itsFormat.pixelformat = V4L2_PIX_FMT_GREY := by
      rw [hec, hef]
      intro h
      exact (hiff.1 h).2.2
    rw [get_of_frame e wake hes hv hcons]
    simp only [delivered, hec, heo]
    constructor
    · intro h
      rw [if_pos h]
      rfl
    · intro h
      rw [if_neg (by simp [h])]

/-- C7, evaluated: a YUYV request on a sensor that only delivers raw Bayer tries YUYV, then
SRGGB8, and ends with the conversion image allocated. -/
theorem setFormat_fallback_and_conversion_witness :
    demoBayerDriver.gfmtOk = true ∧
    (CameraDevice.init 0 false).itsMplane = false ∧
    demoBayerDriver.sfmtAccepts
      { width := 640, height := 480, pixelformat := V4L2_PIX_FMT_YUYV } = false ∧
    (setFormat demoPlatform demoBayerDriver (CameraDevice.init 0 false)
      V4L2_PIX_FMT_YUYV 640 480 30 640 480 (-1)).calls.filterMap DevCall.sfmtPixelformat =
        [V4L2_PIX_FMT_YUYV, V4L2_PIX_FMT_SRGGB8] ∧
    (setFormat demoPlatform demoBayerDriver (CameraDevice.init 0 false)
      V4L2_PIX_FMT_YUYV 640 480 30 640 480 (-1)).state.itsConvertedOutputImage.valid = true :=
  ⟨rfl, rfl, rfl,
    ((setFormat_fallback_and_conversion demoPlatform demoBayerDriver (CameraDevice.init 0 false)
      V4L2_PIX_FMT_YUYV 640 480 30 640 480 (-1)).1 rfl rfl rfl).1,
    by decide⟩

/-- C8: with a configured buffer count of 0 and a frame size above zero, a `streamOn` that
gets to allocate (valid format, stream not already on) requests exactly the budget divided
by the frame size, clamped to 5..8, where the budget is 4 MiB, or 256 MiB on JeVois-Pro;
that is the size of the pool it leaves unless the allocation itself fails, and the number
lies between 5 and 8. -/
theorem streamOn_default_buffer_count (p : Platform) (drv : StreamDriver) (s : CameraDevice)
    (hfo : s.itsFormatOk = true) (hns : s.itsStreaming = false) (hnb : s.itsBuffers = none)
    (h0 : s.itsNbufs = 0) (hfs : 0 < frameSize p s) :
    bufferBudget p = (if p.pro then 256 * 2 ^ 20 else 4 * 2 ^ 20) ∧
    (streamOn p drv s).calls.head? =
      some (DevCall.reqbufs (max 5 (min (bufferBudget p / frameSize p s) 8))) ∧
    (drv.reqbufsOk = false ∨
      ∃ b, (streamOn p drv s).state.itsBuffers = some b ∧
        b.size = max 5 (min (bufferBudget p / frameSize p s) 8)) ∧
    5 ≤ max 5 (min (bufferBudget p / frameSize p s) 8) ∧
    max 5 (min (bufferBudget p / frameSize p s) 8) ≤ 8 := by
  have hreq : requestedBuffers p s = some (bufferBudget p / frameSize p s) := by
    unfold requestedBuffers
    rw [if_pos h0, if_neg (by omega)]
  obtain ⟨h1, h2⟩ := streamOn_alloc p drv s _ hfo hns hnb hreq
  rw [clampBuffers_eq] at h1 h2
  refine ⟨?_, h1, h2, by omega, by omega⟩
  unfold bufferBudget
  split <;> norm_num

/-- C8, evaluated: 640 by 480 at two bytes per pixel on a 4 MiB budget gives 6 buffers. -/
theorem streamOn_default_buffer_count_witness :
    demoFormatSet.itsFormatOk = true ∧ demoFormatSet.itsStreaming = false ∧
    demoFormatSet.itsBuffers = none ∧ demoFormatSet.itsNbufs = 0 ∧
    0 < frameSize demoPlatform demoFormatSet ∧
    (streamOn demoPlatform demoStreamDriver demoFormatSet).calls.head? =
      some (DevCall.reqbufs 6) :=
  ⟨by decide, by decide, by decide, by decide, by decide,
    (streamOn_default_buffer_count demoPlatform demoStreamDriver demoFormatSet
      (by decide) (by decide) (by decide) (by decide) (by decide)).2.1⟩

/-- C9 fails as stated: a device constructed with a buffer count of 2, the value that
`Camera::setFormat` passes for its raw frame and metadata streams, gets 5 buffers from
`streamOn`, not 2. -/
theorem streamOn_caller_count_counterexample :
    demoTwoBuffers.itsNbufs = 2 ∧
    demoTwoBuffers.itsFormatOk = true ∧
    (streamOn demoPlatform demoStreamDriver demoTwoBuffers).ret = Outcome.ok () ∧
    (streamOn demoPlatform demoStreamDriver demoTwoBuffers).calls.head? =
      some (DevCall.reqbufs 5) ∧
    (streamOn demoPlatform demoStreamDriver demoTwoBuffers).state.itsBuffers =
      some { size := 5, nqueued := 5 } := by
  decide

/-- C9 as amended: with a non-zero configured buffer count n, a `streamOn` that gets to
allocate requests n clamped to 5..8, and that is the size of the pool it leaves unless the
allocation itself fails; the caller's value is used as given exactly when it lies between 5
and 8. -/
theorem streamOn_caller_buffer_count (p : Platform) (drv : StreamDriver) (s : CameraDevice)
    (hfo : s.itsFormatOk = true) (hns : s.itsStreaming = false) (hnb : s.itsBuffers = none)
    (hn : s.itsNbufs ≠ 0) :
    (streamOn p drv s).calls.head? =
      some (DevCall.reqbufs (max 5 (min s.itsNbufs 8))) ∧
    (drv.reqbufsOk = false ∨
      ∃ b, (streamOn p drv s).state.itsBuffers = some b ∧
        b.size = max 5 (min s.itsNbufs 8)) ∧
    (max 5 (min s.itsNbufs 8) = s.itsNbufs ↔ (5 ≤ s.itsNbufs ∧ s.itsNbufs ≤ 8)) := by
  have hreq : requestedBuffers p s = some s.itsNbufs := by
    unfold requestedBuffers
    rw [if_neg hn]
  obtain ⟨h1, h2⟩ := streamOn_alloc p drv s _ hfo hns hnb hreq
  rw [clampBuffers_eq] at h1 h2
  exact ⟨h1, h2, by omega⟩

/-- C9 as amended, evaluated: a configured count of 2 gives a pool of 5 buffers. -/
theorem streamOn_caller_buffer_count_witness :
    demoTwoBuffers.itsFormatOk = true ∧ demoTwoBuffers.itsStreaming = false ∧
    demoTwoBuffers.itsBuffers = none ∧ demoTwoBuffers.itsNbufs ≠ 0 ∧
    (streamOn demoPlatform demoStreamDriver demoTwoBuffers).calls.head? =
      some (DevCall.reqbufs (max 5 (min demoTwoBuffers.itsNbufs 8))) :=
  ⟨by decide, by decide, by decide, by decide,
    (streamOn_caller_buffer_count demoPlatform demoStreamDriver demoTwoBuffers
      (by decide) (by decide) (by decide) (by decide)).1⟩

/-- C10: `streamOff` never fails and leaves the device stopped (not streaming, slot empty,
pending-done list empty, pool released) whatever the state it starts from; a second
`streamOff` leaves that stopped state as it is, and so does `streamOff` on a device that
was never streaming. -/
theorem streamOff_stopped_idempotent (s : CameraDevice) :
    (streamOff s).ret = Outcome.ok () ∧
    (streamOff s).state.itsStreaming = false ∧
    (streamOff s).state.itsOutputImage.valid = false ∧
    (streamOff s).state.itsDoneIdx = [] ∧
    (streamOff s).state.itsBuffers = none ∧
    (streamOff (streamOff s).state).state = (streamOff s).state ∧
    (streamOff (streamOff s).state).ret = Outcome.ok () ∧
    (∀ n m, (streamOff (CameraDevice.init n m)).state = CameraDevice.init n m) := by
  refine ⟨rfl, rfl, rfl, rfl, rfl, ?_, rfl, fun _ _ => rfl⟩
  simp [streamOff, abortStream, RawImage.invalidate]

/-! ## C11: a buffer pool implies a valid format -/

/-- C11 (amended): take a device right after construction and any sequence of `setFormat`,
`streamOn`, `abortStream` and `streamOff` calls, each of which may succeed or fail, in which
every `setFormat` is issued while the device holds no buffer pool or is streaming.  In every
state reached along the sequence an allocated pool implies that the format-valid flag is
true.  The sequences that `Camera` produces are of this kind: one `setFormat` on the device
just constructed, then any calls other than `setFormat`. -/
theorem pool_implies_valid_format (p : Platform) (nbufs : Nat) (mplane : Bool)
    (actions : List DeviceAction)
    (hg : formatCallsGuarded p (CameraDevice.init nbufs mplane) actions = true) :
    (∀ k : Nat,
      (runActions p (CameraDevice.init nbufs mplane) (actions.take k)).itsBuffers ≠ none →
      (runActions p (CameraDevice.init nbufs mplane) (actions.take k)).itsFormatOk = true) ∧
    (∀ (first : DeviceAction) (rest : List DeviceAction),
      (∀ b ∈ rest, b.isSetFormat = false) →
      formatCallsGuarded p (CameraDevice.init nbufs mplane) (first :: rest) = true) := by
  constructor
  · intro k
    exact runActions_pool_format p (actions.take k) (CameraDevice.init nbufs mplane)
      (formatCallsGuarded_take p actions _ k hg) (fun hb => absurd rfl hb)
  · intro first rest h
    simp only [formatCallsGuarded, Bool.and_eq_true, Bool.or_eq_true, Bool.not_eq_true']
    exact ⟨Or.inl (Or.inr rfl), formatCallsGuarded_of_none p rest _ h⟩

/-- C11 (counterexample): a device is constructed, given a format and started, then
`abortStream` is called and `setFormat` is called again with a format the driver refuses.
Because the streaming flag is already false, `setFormat` does not call `streamOff` (line
493); it ends with the buffer pool still allocated and the format-valid flag false.  The
same happens when `streamOn` fails at the stream-on ioctl, which leaves the pool allocated.
The second `setFormat` of this sequence comes on a device that holds a pool and does not
stream, which `Camera::setFormat` never does. -/
theorem buffers_without_valid_format :
    (streamOn demoPlatform demoStreamDriver demoFormatSet).ret = Outcome.ok () ∧
    (abortStream (streamOn demoPlatform demoStreamDriver demoFormatSet).state).ret
      = Outcome.ok () ∧
    (setFormat demoPlatform demoRejectDriver
      (abortStream (streamOn demoPlatform demoStreamDriver demoFormatSet).state).state
      V4L2_PIX_FMT_YUYV 320 240 30 320 240 (-1)).ret
        = Outcome.threw Error.couldNotSetFormat ∧
    (setFormat demoPlatform demoRejectDriver
      (abortStream (streamOn demoPlatform demoStreamDriver demoFormatSet).state).state
      V4L2_PIX_FMT_YUYV 320 240 30 320 240 (-1)).state.itsBuffers
        = some { size := 6, nqueued := 6 } ∧
    (setFormat demoPlatform demoRejectDriver
      (abortStream (streamOn demoPlatform demoStreamDriver demoFormatSet).state).state
      V4L2_PIX_FMT_YUYV 320 240 30 320 240 (-1)).state.itsFormatOk = false ∧
    (streamOn demoPlatform demoNoStreamDriver demoFormatSet).ret
      = Outcome.threw Error.ioctlFailed ∧
    (setFormat demoPlatform demoRejectDriver
      (streamOn demoPlatform demoNoStreamDriver demoFormatSet).state
      V4L2_PIX_FMT_YUYV 320 240 30 320 240 (-1)).state.itsBuffers
        = some { size := 6, nqueued := 6 } ∧
    (setFormat demoPlatform demoRejectDriver
      (streamOn demoPlatform demoNoStreamDriver demoFormatSet).state
      V4L2_PIX_FMT_YUYV 320 240 30 320 240 (-1)).state.itsFormatOk = false ∧
    (runActions demoPlatform (CameraDevice.init 0 false) demoUnguardedCalls).itsBuffers
      = some { size := 6, nqueued := 6 } ∧
    (runActions demoPlatform (CameraDevice.init 0 false) demoUnguardedCalls).itsFormatOk
      = false ∧
    formatCallsGuarded demoPlatform (CameraDevice.init 0 false) demoUnguardedCalls = false := by
  decide

/-- C11 at a concrete sequence, `demoGuardedCalls`: it is guarded; after its first two calls
the device holds a pool of 6 buffers and its format is valid; after the third start the
device streams with a pool; at the end, after the refused `setFormat`, the format is not
valid and no pool is held. -/
theorem pool_implies_valid_format_witness :
    formatCallsGuarded demoPlatform (CameraDevice.init 0 false) demoGuardedCalls = true ∧
    (runActions demoPlatform (CameraDevice.init 0 false) (demoGuardedCalls.take 2)).itsBuffers
      = some { size := 6, nqueued := 6 } ∧
    (runActions demoPlatform (CameraDevice.init 0 false) (demoGuardedCalls.take 2)).itsFormatOk
      = true ∧
    (runActions demoPlatform (CameraDevice.init 0 false) (demoGuardedCalls.take 6)).itsBuffers
      = some { size := 6, nqueued := 6 } ∧
    (runActions demoPlatform (CameraDevice.init 0 false) (demoGuardedCalls.take 6)).itsFormatOk
      = true ∧
    (runActions demoPlatform (CameraDevice.init 0 false) demoGuardedCalls).itsFormatOk = false ∧
    (runActions demoPlatform (CameraDevice.init 0 false) demoGuardedCalls).itsBuffers = none :=
  ⟨by decide, by decide,
   (pool_implies_valid_format demoPlatform 0 false demoGuardedCalls (by decide)).1 2
     (by decide),
   by decide,
   (pool_implies_valid_format demoPlatform 0 false demoGuardedCalls (by decide)).1 6
     (by decide),
   by decide, by decide⟩

/-- C12 as worded fails: `send` appends the buffer index of whatever image it is given.
After `streamOn`, the application gets image 0 and passes it to `send` twice; both calls
return normally and the transmit queue holds index 0 twice. -/
theorem send_twice_counterexample :
    (Gadget.get demoGadgetStreaming).ret.isOk = true ∧
    demoGotImage.bufindex = 0 ∧
    (Gadget.send demoGotImage (Gadget.get demoGadgetStreaming).state).ret = Outcome.ok () ∧
    (Gadget.send demoGotImage
        (Gadget.send demoGotImage (Gadget.get demoGadgetStreaming).state).state).ret
      = Outcome.ok () ∧
    (Gadget.send demoGotImage
        (Gadget.send demoGotImage (Gadget.get demoGadgetStreaming).state).state).state.itsDoneImgs
      = [0, 0] ∧
    ¬ ([0, 0] : List Nat).Nodup := by
  decide

/-- C12, amended: start from a newly constructed gadget and let the application and the
poll thread act in any order (`setFormat`, `streamOn`, `abortStream`, `streamOff`, `get`,
`send`, the hand-over of a filled buffer to the driver, `processVideo`), where the
application passes to `send` only an image that it obtained from `get` since the last
`streamOff` and has not sent since, and the driver hands back only a buffer that it was
given.  Then no buffer index occurs more than once in the transmit queue. -/
theorem transmit_queue_no_duplicates (p : Platform) (nbufs : Nat) (multicam : Bool)
    (m : VideoMapping) (acts : List GadgetAction) (w : GadgetWorld)
    (h : GadgetWorld.run p (GadgetWorld.init p nbufs multicam m) acts = some w) :
    w.gadget.itsDoneImgs.Nodup := by
  have hc := (run_consistent p acts _ w (init_consistent p nbufs multicam m) h).1
  have hle : (w.gadget.itsDoneImgs : Multiset Nat) ≤ w.owners := by
    simp only [GadgetWorld.owners]
    calc (w.gadget.itsDoneImgs : Multiset Nat)
        ≤ ((w.gadget.itsImageQueue.map RawImage.bufindex : List Nat) : Multiset Nat)
            + (w.held : Multiset Nat) + (w.gadget.itsDoneImgs : Multiset Nat) :=
          Multiset.le_add_left _ _
      _ ≤ _ := Multiset.le_add_right _ _
  exact Multiset.coe_nodup.1 (Multiset.nodup_of_le hle hc)

/-- C12, amended, at a concrete run: two images are obtained and each is sent once; the
transmit queue then holds the indices 0 and 1. -/
theorem transmit_queue_no_duplicates_witness :
    GadgetWorld.run demoPlatform
        (GadgetWorld.init demoPlatform 0 false
          (demoMapping V4L2_PIX_FMT_YUYV 640 480 30 1 1 "PassThrough")) demoSendOnce
      = some demoWorld ∧
    demoWorld.gadget.itsDoneImgs = [0, 1] ∧
    demoWorld.gadget.itsDoneImgs.Nodup :=
  ⟨rfl, by decide,
   transmit_queue_no_duplicates demoPlatform 0 false
     (demoMapping V4L2_PIX_FMT_YUYV 640 480 30 1 1 "PassThrough") demoSendOnce demoWorld rfl⟩

/-! ## C13: the data stage of a streaming SET_CUR -/

/-- C13: in the data stage that follows a streaming SET_CUR for the probe or the commit
selector (the entity was reset to 0 by the setup stage), `processEventData` looks up the
mapping for the format index (byte 2), the frame index (byte 3) and the frame interval
(bytes 4 to 7, little endian) of the received data.  When the lookup succeeds with index
`idx` and mapping `m`, the block named by the pending selector becomes the block written out
here field by field (format and frame index of `m`, the interval of its output rate, its
frame size, the payload size, framing info 3, versions 1, every other field 0) and the other
block is left alone.  For PROBE nothing else happens: no call is made and the result does not
depend on the engine.  For COMMIT `Engine::setFormat` is then called, once, with `idx`, on
the gadget that already holds the new commit block, and the state, the further calls and the
outcome are those of that call; when the engine of the system accepts the mapping, the
gadget ends with the output format and rate of `m` as its format in force.  When the lookup
throws, the gadget is left as it was and the engine is not called. -/
theorem processEventData_probe_commit (p : Platform) (cam : ControlCamera)
    (ms : List VideoMapping) (dflt : Nat)
    (engineSetFormat : Nat → Gadget → GadgetResult Unit)
    (resp data : RequestData) (g : Gadget) (cs : Nat)
    (hent : g.itsEntity = 0)
    (hcs : cs = UVC_VS_PROBE_CONTROL ∨ cs = UVC_VS_COMMIT_CONTROL) :
    (processEventStreaming p ms dflt UVC_SET_CUR cs resp g).state = { g with itsControl := cs } ∧
    (∀ idx m,
      getVideoMappingIdx ms dflt (data.byte 2) (data.byte 3)
          (data.byte 4 + 256 * data.byte 5 + 65536 * data.byte 6 + 16777216 * data.byte 7)
        = Outcome.ok idx →
      ms[idx]? = some m →
      (cs = UVC_VS_PROBE_CONTROL →
        processEventData p cam ms dflt engineSetFormat data
            (processEventStreaming p ms dflt UVC_SET_CUR cs resp g).state
          = { state := { g with
                itsControl := cs,
                itsProbe :=
                  { bmHint := 0, bFormatIndex := m.uvcformat % 256,
                    bFrameIndex := m.uvcframe % 256, dwFrameInterval := fpsToUvc m.ofps,
                    wKeyFrameRate := 0, wPFrameRate := 0, wCompQuality := 0,
                    wCompWindowSize := 0, wDelay := 0, dwMaxVideoFrameSize := m.osize p,
                    dwMaxPayloadTransferSize := if g.itsMulticam then 1024 else 3072,
                    dwClockFrequency := 0, bmFramingInfo := 3, bPreferedVersion := 1,
                    bMinVersion := 0, bMaxVersion := 1 } },
              calls := [], ret := Outcome.ok () }) ∧
      (cs = UVC_VS_COMMIT_CONTROL →
        processEventData p cam ms dflt engineSetFormat data
            (processEventStreaming p ms dflt UVC_SET_CUR cs resp g).state
          = { state := (engineSetFormat idx { g with
                itsControl := cs,
                itsCommit :=
                  { bmHint := 0, bFormatIndex := m.uvcformat % 256,
                    bFrameIndex := m.uvcframe % 256, dwFrameInterval := fpsToUvc m.ofps,
                    wKeyFrameRate := 0, wPFrameRate := 0, wCompQuality := 0,
                    wCompWindowSize := 0, wDelay := 0, dwMaxVideoFrameSize := m.osize p,
                    dwMaxPayloadTransferSize := if g.itsMulticam then 1024 else 3072,
                    dwClockFrequency := 0, bmFramingInfo := 3, bPreferedVersion := 1,
                    bMinVersion := 0, bMaxVersion := 1 } }).state,
              calls := GadgetCall.engineSetFormat idx :: (engineSetFormat idx { g with
                itsControl := cs,
                itsCommit :=
                  { bmHint := 0, bFormatIndex := m.uvcformat % 256,
                    bFrameIndex := m.uvcframe % 256, dwFrameInterval := fpsToUvc m.ofps,
                    wKeyFrameRate := 0, wPFrameRate := 0, wCompQuality := 0,
                    wCompWindowSize := 0, wDelay := 0, dwMaxVideoFrameSize := m.osize p,
                    dwMaxPayloadTransferSize := if g.itsMulticam then 1024 else 3072,
                    dwClockFrequency := 0, bmFramingInfo := 3, bPreferedVersion := 1,
                    bMinVersion := 0, bMaxVersion := 1 } }).calls,
              ret := (engineSetFormat idx { g with
                itsControl := cs,
                itsCommit :=
                  { bmHint := 0, bFormatIndex := m.uvcformat % 256,
                    bFrameIndex := m.uvcframe % 256, dwFrameInterval := fpsToUvc m.ofps,
                    wKeyFrameRate := 0, wPFrameRate := 0, wCompQuality := 0,
                    wCompWindowSize := 0, wDelay := 0, dwMaxVideoFrameSize := m.osize p,
                    dwMaxPayloadTransferSize := if g.itsMulticam then 1024 else 3072,
                    dwClockFrequency := 0, bmFramingInfo := 3, bPreferedVersion := 1,
                    bMinVersion := 0, bMaxVersion := 1 } }).ret })) ∧
    (∀ e,
      getVideoMappingIdx ms dflt (data.byte 2) (data.byte 3)
          (data.byte 4 + 256 * data.byte 5 + 65536 * data.byte 6 + 16777216 * data.byte 7)
        = Outcome.threw e →
      processEventData p cam ms dflt engineSetFormat data
          (processEventStreaming p ms dflt UVC_SET_CUR cs resp g).state
        = { state := { g with itsControl := cs }, calls := [], ret := Outcome.threw e }) ∧
    (cs = UVC_VS_PROBE_CONTROL →
      (processEventData p cam ms dflt engineSetFormat data
          (processEventStreaming p ms dflt UVC_SET_CUR cs resp g).state).calls = [] ∧
      ∀ other : Nat → Gadget → GadgetResult Unit,
        processEventData p cam ms dflt other data
            (processEventStreaming p ms dflt UVC_SET_CUR cs resp g).state
          = processEventData p cam ms dflt engineSetFormat data
              (processEventStreaming p ms dflt UVC_SET_CUR cs resp g).state) ∧
    (cs = UVC_VS_COMMIT_CONTROL →
      ∀ (platformPro : Bool) (cenv : CameraEnv) (sfmtOk : VideoMapping → Bool)
        (env : EngineEnv) (sys : System) (idx : Nat) (m : VideoMapping) (i : Nat),
      sys.engine.itsMappings = ms →
      getVideoMappingIdx ms dflt (data.byte 2) (data.byte 3)
          (data.byte 4 + 256 * data.byte 5 + 65536 * data.byte 6 + 16777216 * data.byte 7)
        = Outcome.ok idx →
      ms[idx]? = some m →
      ¬ (p.a33 = true ∧ sys.engine.itsMassStorageMode = true) →
      (Camera.setFormat p platformPro cenv m sys.camera).2 = Outcome.ok () →
      (m.ofmt = 0 ∨ sfmtOk m = true) →
      env.construction m = Construction.ready i →
      processEventData p cam ms dflt
          (System.engineSetFormat p platformPro cenv sfmtOk env sys) data
          (processEventStreaming p ms dflt UVC_SET_CUR cs resp g).state
        = { state := { g with
              itsControl := cs,
              itsCommit :=
                  { bmHint := 0, bFormatIndex := m.uvcformat % 256,
                    bFrameIndex := m.uvcframe % 256, dwFrameInterval := fpsToUvc m.ofps,
                    wKeyFrameRate := 0, wPFrameRate := 0, wCompQuality := 0,
                    wCompWindowSize := 0, wDelay := 0, dwMaxVideoFrameSize := m.osize p,
                    dwMaxPayloadTransferSize := if g.itsMulticam then 1024 else 3072,
                    dwClockFrequency := 0, bmFramingInfo := 3, bPreferedVersion := 1,
                    bMinVersion := 0, bMaxVersion := 1 },
              itsFormat := { width := m.ow, height := m.oh, pixelformat := m.ofmt },
              itsFps := m.ofps },
            calls := GadgetCall.engineSetFormat idx ::
              (if m.ofmt = 0 then []
               else [GadgetCall.sfmt m.ofmt m.ow m.oh, GadgetCall.sparm]),
            ret := Outcome.ok () }) := by
  have hstate : (processEventStreaming p ms dflt UVC_SET_CUR cs resp g).state
      = { g with itsControl := cs } := by
    rcases hcs with h | h <;> subst h <;>
      simp [processEventStreaming, UVC_VS_PROBE_CONTROL, UVC_VS_COMMIT_CONTROL]
  rw [hstate]
  refine ⟨rfl, ?_, ?_, ?_, ?_⟩
  · intro idx m hidx hm
    constructor
    · intro h
      subst h
      simp [processEventData, hent, RequestData.requestedTriple, hidx, getVideoMapping, hm,
        Gadget.setTarget, fillStreamingControl, StreamingControl.zero,
        UVC_VS_PROBE_CONTROL, UVC_VS_COMMIT_CONTROL]
    · intro h
      subst h
      simp [processEventData, hent, RequestData.requestedTriple, hidx, getVideoMapping, hm,
        Gadget.setTarget, fillStreamingControl, StreamingControl.zero,
        UVC_VS_PROBE_CONTROL, UVC_VS_COMMIT_CONTROL]
  · intro e he
    rcases hcs with h | h <;> subst h <;>
      simp [processEventData, hent, RequestData.requestedTriple, he,
        UVC_VS_PROBE_CONTROL, UVC_VS_COMMIT_CONTROL]
  · intro h
    subst h
    have key : ∀ f : Nat → Gadget → GadgetResult Unit,
        processEventData p cam ms dflt f data { g with itsControl := UVC_VS_PROBE_CONTROL }
          = (match getVideoMappingIdx ms dflt data.requestedTriple.1
                data.requestedTriple.2.1 data.requestedTriple.2.2 with
             | .threw e =>
               { state := { g with itsControl := UVC_VS_PROBE_CONTROL }, calls := [],
                 ret := .threw e }
             | .ok i =>
               match getVideoMapping ms i with
               | .threw e =>
                 { state := { g with itsControl := UVC_VS_PROBE_CONTROL }, calls := [],
                   ret := .threw e }
               | .ok m =>
                 { state := ({ g with itsControl := UVC_VS_PROBE_CONTROL } : Gadget).setTarget
                     UVC_VS_PROBE_CONTROL (fillStreamingControl p g.itsMulticam m),
                   calls := [], ret := .ok () }) := by
      intro f
      simp only [processEventData, hent]
      cases h1 : getVideoMappingIdx ms dflt data.requestedTriple.1 data.requestedTriple.2.1
          data.requestedTriple.2.2 with
      | threw e => simp [UVC_VS_PROBE_CONTROL]
      | ok i =>
        cases h2 : getVideoMapping ms i with
        | threw e => simp [UVC_VS_PROBE_CONTROL, h2]
        | ok m => simp [UVC_VS_PROBE_CONTROL, UVC_VS_COMMIT_CONTROL, h2]
    constructor
    · rw [key]
      split
      · rfl
      · split <;> rfl
    · intro other
      rw [key, key]
  · intro h platformPro cenv sfmtOk env sys idx m i hsys hidx hm hms hcam hgad hcon
    subst h
    have hm2 : sys.engine.itsMappings[idx]? = some m := by rw [hsys]; exact hm
    simp only [processEventData, hent, RequestData.requestedTriple, hidx, getVideoMapping, hm,
      Gadget.setTarget, fillStreamingControl, StreamingControl.zero,
      UVC_VS_PROBE_CONTROL, UVC_VS_COMMIT_CONTROL]
    simp [engineSetFormat_accepted p platformPro cenv sfmtOk env sys idx m i _ hm2 hms hcam hgad
      hcon]

/-- C13 at a concrete request: a COMMIT for format 1, frame 1 and an interval of 333333 selects
mapping 1 of the table (YUYV 640 by 480 at 30 frames per second), writes the commit block
with interval 333333 and frame size 614400, and calls `Engine::setFormat` with index 1, which
sets the format of the gadget to that of the mapping. -/
theorem processEventData_probe_commit_witness :
    demoGadget.itsEntity = 0 ∧
    fpsToUvc 30 = 333333 ∧
    processEventData demoPlatform demoControlCamera demoMappings 1
        (System.engineSetFormat demoPlatform false demoCameraEnv (fun _ => true) demoEnv
          demoSystem)
        demoCommitData
        (processEventStreaming demoPlatform demoMappings 1 UVC_SET_CUR UVC_VS_COMMIT_CONTROL
          RequestData.initial demoGadget).state
      = { state := { demoGadget with
            itsControl := UVC_VS_COMMIT_CONTROL,
            itsCommit :=
              { bmHint := 0, bFormatIndex := 1, bFrameIndex := 1, dwFrameInterval := 333333,
                wKeyFrameRate := 0, wPFrameRate := 0, wCompQuality := 0,
                wCompWindowSize := 0, wDelay := 0, dwMaxVideoFrameSize := 614400,
                dwMaxPayloadTransferSize := 3072,
                dwClockFrequency := 0, bmFramingInfo := 3, bPreferedVersion := 1,
                bMinVersion := 0, bMaxVersion := 1 },
            itsFormat := { width := 640, height := 480, pixelformat := V4L2_PIX_FMT_YUYV },
            itsFps := 30 },
          calls := [GadgetCall.engineSetFormat 1,
                    GadgetCall.sfmt V4L2_PIX_FMT_YUYV 640 480, GadgetCall.sparm],
          ret := Outcome.ok () } :=
  ⟨rfl, by decide!,
   ((processEventData_probe_commit demoPlatform demoControlCamera demoMappings 1
      (fun _ g => { state := g, calls := [], ret := Outcome.ok () })
      RequestData.initial demoCommitData demoGadget
      UVC_VS_COMMIT_CONTROL rfl (Or.inr rfl)).2.2.2.2 rfl false demoCameraEnv (fun _ => true)
      demoEnv demoSystem 1 (demoMapping V4L2_PIX_FMT_YUYV 640 480 30 1 1 "PassThrough") 7
      rfl (by decide!) rfl (by decide) (by decide) (Or.inr rfl) rfl).trans (by decide!)⟩

/-! ## C14: the lookup of a mapping by format index, frame index and interval -/

/-- C14 (counterexample): a table whose only mapping has format 1, frame 1 and an output
rate of 0.11 fps (the single-precision number 7381975 / 2 ^ 26), asked for format 1, frame
1 and the interval 1000000000.  The interval encodes 0.01 fps (the single-precision number
5368709 / 2 ^ 29), and the mapping is within 0.1 fps of it, also of 0.01 exactly; yet the
difference 0.0999999996 is rounded to the constant `0.1F` itself, the test `< 0.1F` fails
and the lookup throws "no video mapping". -/
theorem getVideoMappingIdx_rounding_counterexample :
    f32 (11 / 100) = 7381975 / 67108864 ∧
    uvcToFps 1000000000 = some (5368709 / 536870912) ∧
    encodedRate 1000000000 = 5368709 / 536870912 ∧
    (∀ m ∈ demoSlowTable, WithinTenth 1 1 1000000000 m) ∧
    |(7381975 / 67108864 : ℚ) - 1 / 100| < 1 / 10 ∧
    f32 (7381975 / 67108864 - 5368709 / 536870912) = 13421773 / 134217728 ∧
    getVideoMappingIdx demoSlowTable 0 1 1 1000000000
      = Outcome.threw Error.noVideoMapping := by
  have hr : encodedRate 1000000000 = 5368709 / 536870912 := by decide!
  refine ⟨by decide!, by decide!, hr, ?_, by norm_num [abs_lt], by decide!, by decide!⟩
  intro m hm
  simp only [demoSlowTable, List.mem_singleton] at hm
  subst hm
  refine ⟨rfl, rfl, fun _ => ?_⟩
  rw [hr]
  norm_num [demoMapping, abs_lt]

/-- C14 (amended): `getVideoMappingIdx` returns the default mapping index when the format
index or the frame index is 0.  Otherwise it returns an index exactly when that index lies
inside the table, the mapping there is selected and no earlier mapping is; it throws "no
video mapping" exactly when no mapping of the table is selected; it never divides by a zero
interval.  A mapping is selected when it has the requested format and frame index and, for
an interval that is not zero, passes the test of the code in single precision: the rounded
difference between its output rate and the rate `float(1000000000 / interval) * 0.01F` is
in absolute value below the constant `0.1F`.  Every selected mapping is within 0.1 fps of
that rate exactly, and every mapping with the requested indices within 26843545 / 2 ^ 28
(about 0.0999999978) fps of it is selected. -/
theorem getVideoMappingIdx_selects (ms : List VideoMapping)
    (dflt iformat iframe interval : Nat) :
    ((iformat = 0 ∨ iframe = 0) →
      getVideoMappingIdx ms dflt iformat iframe interval = Outcome.ok dflt) ∧
    (iformat ≠ 0 → iframe ≠ 0 → ∀ idx,
      (getVideoMappingIdx ms dflt iformat iframe interval = Outcome.ok idx ↔
        (idx < ms.length ∧
          (∃ m, ms[idx]? = some m ∧ MappingSelected iformat iframe interval m) ∧
          ∀ j mj, j < idx → ms[j]? = some mj →
            ¬ MappingSelected iformat iframe interval mj))) ∧
    (iformat ≠ 0 → iframe ≠ 0 →
      (getVideoMappingIdx ms dflt iformat iframe interval
          = Outcome.threw Error.noVideoMapping ↔
        ∀ m ∈ ms, ¬ MappingSelected iformat iframe interval m)) ∧
    getVideoMappingIdx ms dflt iformat iframe interval
      ≠ Outcome.threw Error.divisionByZero ∧
    (interval ≠ 0 → uvcToFps interval = some (encodedRate interval)) ∧
    (∀ m, MappingSelected iformat iframe interval m → WithinTenth iformat iframe interval m) ∧
    (∀ m, m.uvcformat = iformat → m.uvcframe = iframe →
      (interval ≠ 0 → |m.ofps - encodedRate interval| ≤ 26843545 / 268435456) →
      MappingSelected iformat iframe interval m) := by
  -- the loop of the source, with the test that applies to this interval
  have key : ∃ test : VideoMapping → Bool,
      (∀ m, test m = true ↔ MappingSelected iformat iframe interval m) ∧
      (iformat ≠ 0 → iframe ≠ 0 →
        getVideoMappingIdx ms dflt iformat iframe interval =
          match firstMapping test ms 0 with
          | some idx => Outcome.ok idx
          | none => Outcome.threw Error.noVideoMapping) := by
    by_cases hi : interval = 0
    · refine ⟨matchesIndices iformat iframe, ?_, ?_⟩
      · intro m; rw [hi]; exact matchesIndices_iff iformat iframe m
      · intro h1 h2
        simp [getVideoMappingIdx, h1, h2, hi]
    · refine ⟨matchesWithRate iformat iframe (encodedRate interval),
        fun m => matchesWithRate_iff iformat iframe interval hi m, ?_⟩
      intro h1 h2
      simp [getVideoMappingIdx, h1, h2, hi, uvcToFps_encodedRate]
  obtain ⟨test, htest, hrun⟩ := key
  have hfalse : ∀ m, test m = false ↔ ¬ MappingSelected iformat iframe interval m := by
    intro m
    rw [← htest m]
    cases test m <;> simp
  refine ⟨?_, ?_, ?_, ?_, fun hi => uvcToFps_encodedRate interval hi,
    fun m hm => ⟨hm.1, hm.2.1, fun hi => rate_test_within _ (hm.2.2 hi)⟩,
    fun m h1 h2 h3 => ⟨h1, h2, fun hi => rate_test_passes _ (h3 hi)⟩⟩
  · intro h
    simp [getVideoMappingIdx, h]
  · intro h1 h2 idx
    rw [hrun h1 h2]
    constructor
    · intro h
      cases hf : firstMapping test ms 0 with
      | none => rw [hf] at h; cases h
      | some i =>
        rw [hf] at h
        cases h
        obtain ⟨_, g2, ⟨m, g3, g4⟩, g5⟩ := firstMapping_some test ms 0 idx hf
        refine ⟨by simpa using g2, ⟨m, by simpa using g3, (htest m).1 g4⟩, ?_⟩
        intro j mj hj hget
        exact (hfalse mj).1 (g5 j mj (by simpa using hj) hget)
    · rintro ⟨_, ⟨m, hget, hsel⟩, hbefore⟩
      have := firstMapping_first test ms idx m hget ((htest m).2 hsel)
        (fun j mj hj hg => (hfalse mj).2 (hbefore j mj hj hg)) 0
      rw [this]
      simp
  · intro h1 h2
    rw [hrun h1 h2]
    constructor
    · intro h m hm
      cases hf : firstMapping test ms 0 with
      | none => exact (hfalse m).1 ((firstMapping_none test ms 0).1 hf m hm)
      | some i => rw [hf] at h; cases h
    · intro h
      have : firstMapping test ms 0 = none :=
        (firstMapping_none test ms 0).2 (fun m hm => (hfalse m).2 (h m hm))
      rw [this]
  · unfold getVideoMappingIdx
    split
    · simp
    · split
      · rename_i hi
        have hu : uvcToFps interval = some (encodedRate interval) :=
          uvcToFps_encodedRate interval hi
        rw [hu]
        simp only
        split <;> simp
      · split <;> simp

/-- C14, evaluated: on the table of four mappings, format 1, frame 1 at an interval of 666666
(15 fps) selects index 2, with interval 0 it selects index 1, an interval of 100 finds no
mapping and a zero format index gives the default.  A mapping at 30 fps is selected for the
interval 332225, which encodes the single-precision rate 30.0999985. -/
theorem getVideoMappingIdx_selects_witness :
    getVideoMappingIdx demoMappings 1 1 1 666666 = Outcome.ok 2 ∧
    getVideoMappingIdx demoMappings 1 1 1 0 = Outcome.ok 1 ∧
    getVideoMappingIdx demoMappings 1 1 1 100 = Outcome.threw Error.noVideoMapping ∧
    getVideoMappingIdx demoMappings 1 0 1 666666 = Outcome.ok 1 ∧
    uvcToFps 332225 = some (3945267 / 131072) ∧
    getVideoMappingIdx demoMappings 1 1 1 332225 = Outcome.ok 1 :=
  ⟨by decide!,
    by simp [getVideoMappingIdx, demoMappings, demoMapping, firstMapping, matchesIndices],
    by decide!,
    (getVideoMappingIdx_selects demoMappings 1 0 1 666666).1 (Or.inl rfl),
    by decide!, by decide!⟩

/-- C15 as worded fails: selector 0x09 of the processing unit (entity 2) has no camera
control behind it, and a two-byte GET_MAX or GET_RES for it is answered with the value 1,
not with zero bytes. -/
theorem unsupported_control_max_counterexample :
    uvcToV4Lcontrol 2 0x09 = none ∧
    (processEventControl demoControlCamera UVC_GET_MAX 0x09 2 2 RequestData.initial
        demoGadget).ret
      = Outcome.ok { length := 2, data := 1 :: List.replicate 59 0 } ∧
    (processEventControl demoControlCamera UVC_GET_RES 0x09 2 2 RequestData.initial
        demoGadget).ret
      = Outcome.ok { length := 2, data := 1 :: List.replicate 59 0 } := by
  decide

/-- C15, amended: for GET_CUR, GET_MIN, GET_MAX, GET_DEF or GET_RES addressed to a non-zero
entity whose selector has no camera control behind it, and a length that fits the 60-byte
response array, `processEventControl` returns a response of the requested length, clears
the error code, calls the camera not at all and leaves the bytes after the response alone.
The response bytes are all zero, except for GET_MAX and GET_RES with length 1, 2 or 4,
where they are the little-endian value 1. -/
theorem unsupported_control_response (cam : ControlCamera) (g : Gadget) (resp : RequestData)
    (req cs entity_id len : Nat)
    (hdata : resp.data.length = 60)
    (hreq : req = UVC_GET_CUR ∨ req = UVC_GET_MIN ∨ req = UVC_GET_MAX ∨ req = UVC_GET_DEF
      ∨ req = UVC_GET_RES)
    (hent : entity_id ≠ 0)
    (hcs : uvcToV4Lcontrol entity_id cs = none)
    (hlen : len ≤ 60) :
    ∃ r, (processEventControl cam req cs entity_id len resp g).ret = Outcome.ok r ∧
      r.length = (len : Int) ∧
      r.data.length = 60 ∧
      r.data.drop len = resp.data.drop len ∧
      r.data.take len =
        (if (req = UVC_GET_MAX ∨ req = UVC_GET_RES) ∧ (len = 1 ∨ len = 2 ∨ len = 4)
         then 1 :: List.replicate (len - 1) 0 else List.replicate len 0) ∧
      (processEventControl cam req cs entity_id len resp g).state
        = { g with itsErrorCode := 0 } ∧
      (processEventControl cam req cs entity_id len resp g).calls = [] := by
  obtain ⟨rl, data⟩ := resp
  simp only at hdata
  -- the first four bytes of the array, which the short responses overwrite
  obtain ⟨a, b, c, d, rest, hd, hrest⟩ :
      ∃ a b c d rest, data = a :: b :: c :: d :: rest ∧ rest.length = 56 := by
    match data, hdata with
    | a :: b :: c :: d :: rest, h => exact ⟨a, b, c, d, rest, rfl, by simpa using h⟩
  subst hd
  have hblank : (List.replicate len 0 ++ (a :: b :: c :: d :: rest).drop len).length = 60 := by
    simp; omega
  rcases hreq with h | h | h | h | h <;> subst h <;>
    by_cases h1 : len = 1 <;> by_cases h2 : len = 2 <;> by_cases h4 : len = 4 <;>
    simp [processEventControl, currentControl, queriedControl, hcs, hent, controlResult,
      lengthResponse, rangeResponse, byteresponse, wordresponse, intresponse,
      arrayblankresponse, QueryCtrl.unknown, QueryCtrl.zero, UVC_GET_CUR, UVC_GET_MIN,
      UVC_GET_MAX, UVC_GET_DEF, UVC_GET_RES, UVC_SET_CUR, UVC_GET_INFO, V4L2_CID_RED_BALANCE,
      V4L2_CID_EXPOSURE_AUTO, h1, h2, h4, hrest, hlen]

/-- C15, amended, at a concrete request: a one-byte GET_MAX for selector 0x09 of the
processing unit. -/
theorem unsupported_control_response_witness :
    ∃ r, (processEventControl demoControlCamera UVC_GET_MAX 0x09 2 1 RequestData.initial
        demoGadget).ret = Outcome.ok r ∧
      r.length = ((1 : Nat) : Int) ∧
      r.data.length = 60 ∧
      r.data.drop 1 = RequestData.initial.data.drop 1 ∧
      r.data.take 1 =
        (if (UVC_GET_MAX = UVC_GET_MAX ∨ UVC_GET_MAX = UVC_GET_RES) ∧ (1 = 1 ∨ 1 = 2 ∨ 1 = 4)
         then 1 :: List.replicate (1 - 1) 0 else List.replicate 1 0) ∧
      (processEventControl demoControlCamera UVC_GET_MAX 0x09 2 1 RequestData.initial
        demoGadget).state = { demoGadget with itsErrorCode := 0 } ∧
      (processEventControl demoControlCamera UVC_GET_MAX 0x09 2 1 RequestData.initial
        demoGadget).calls = [] :=
  unsupported_control_response demoControlCamera demoGadget RequestData.initial
    UVC_GET_MAX 0x09 2 1 (by decide) (by decide) (by decide) (by decide) (by decide)

/-- C16: when `setFormatInternal` asks the camera or the gadget for the new format and the
device refuses, the call returns normally, the module construction error is not empty, no
module is loaded and the current mapping is the one from before the call.  After any call,
the error is empty exactly when nothing failed: the call was not refused for mass-storage
mode, the camera and the gadget accepted the format (they are not asked on a reload), and
the module was constructed and initialised. -/
theorem setFormatInternal_error_capture (p : Platform) (env : EngineEnv) (m : VideoMapping)
    (reload : Bool) (e : Engine) :
    (((EngineCall.cameraSetFormat m ∈ (setFormatInternal p env m reload e).calls
          ∧ env.cameraSetFormatOk m = false) ∨
       (EngineCall.gadgetSetFormat m ∈ (setFormatInternal p env m reload e).calls
          ∧ env.gadgetSetFormatOk m = false)) →
      (setFormatInternal p env m reload e).ret = Outcome.ok () ∧
      (setFormatInternal p env m reload e).state.itsModuleConstructionError ≠ "" ∧
      (setFormatInternal p env m reload e).state.itsModule = none ∧
      (setFormatInternal p env m reload e).state.itsCurrentMapping = e.itsCurrentMapping) ∧
    ((setFormatInternal p env m reload e).state.itsModuleConstructionError = "" ↔
      (¬ (p.a33 = true ∧ e.itsMassStorageMode = true) ∧
       (reload = false → env.cameraSetFormatOk m = true ∧ env.gadgetSetFormatOk m = true) ∧
       ∃ i, env.construction m = Construction.ready i)) := by
  have hunk : "Unknown error while starting module " ++ m.modulename ++ " ..." ≠ "" :=
    append_ne_empty _ _ (append_ne_empty _ _ (by decide))
  have hcam : "Camera did not accept format:\n\n" ++ env.cstrall m ++
      "\n\nCheck videomappings.cfg and camera sensor specifications." ≠ "" :=
    append_ne_empty _ _ (append_ne_empty _ _ (by decide))
  have hgad : "Gadget did not accept format:\n\n" ++ env.ostr m ++
      "\n\nCheck videomappings.cfg for any unsupported output formats." ≠ "" :=
    append_ne_empty _ _ (append_ne_empty _ _ (by decide))
  unfold setFormatInternal
  by_cases hms : p.a33 = true ∧ e.itsMassStorageMode = true
  · simp [hms, hunk]
  · simp only [hms, if_false, not_false_eq_true, true_and]
    by_cases hr : reload = false
    · by_cases hc : env.cameraSetFormatOk m = false
      · simp [hr, hc, hcam, removeComponent]
      · by_cases hg : env.gadgetSetFormatOk m = false
        · simp [hr, hc, hg, hgad, removeComponent]
        · simp only [hr, hc, hg, and_false, if_false]
          simp only [Bool.not_eq_false] at hc hg
          cases hcon : env.construction m with
          | ready i => simp [hc, hg]
          | failedBefore x =>
            simp [hc, hg, warnAndIgnoreException_ne_empty]
          | failedAfter i x =>
            simp [hc, hg, warnAndIgnoreException_ne_empty]
    · simp only [Bool.not_eq_false] at hr
      subst hr
      cases hmod : e.itsModule <;> cases hcon : env.construction m <;>
        simp [warnAndIgnoreException_ne_empty]

/-- C16 at a concrete call: the camera refuses the format of a full change on an engine
with a module loaded. -/
theorem setFormatInternal_error_capture_witness :
    EngineCall.cameraSetFormat (demoMapping V4L2_PIX_FMT_YUYV 320 240 30 1 2 "Edges")
        ∈ (setFormatInternal demoPlatform demoCameraRefuses
            (demoMapping V4L2_PIX_FMT_YUYV 320 240 30 1 2 "Edges") false demoEngine).calls ∧
    (setFormatInternal demoPlatform demoCameraRefuses
        (demoMapping V4L2_PIX_FMT_YUYV 320 240 30 1 2 "Edges") false demoEngine).ret
      = Outcome.ok () ∧
    (setFormatInternal demoPlatform demoCameraRefuses
        (demoMapping V4L2_PIX_FMT_YUYV 320 240 30 1 2 "Edges") false
        demoEngine).state.itsModuleConstructionError ≠ "" ∧
    (setFormatInternal demoPlatform demoCameraRefuses
        (demoMapping V4L2_PIX_FMT_YUYV 320 240 30 1 2 "Edges") false
        demoEngine).state.itsModule = none ∧
    (setFormatInternal demoPlatform demoCameraRefuses
        (demoMapping V4L2_PIX_FMT_YUYV 320 240 30 1 2 "Edges") false
        demoEngine).state.itsCurrentMapping = demoEngine.itsCurrentMapping :=
  have hin : EngineCall.cameraSetFormat (demoMapping V4L2_PIX_FMT_YUYV 320 240 30 1 2 "Edges")
      ∈ (setFormatInternal demoPlatform demoCameraRefuses
          (demoMapping V4L2_PIX_FMT_YUYV 320 240 30 1 2 "Edges") false demoEngine).calls := by
    simp [setFormatInternal, demoPlatform, demoCameraRefuses, demoEngine]
  ⟨hin, (setFormatInternal_error_capture demoPlatform demoCameraRefuses
      (demoMapping V4L2_PIX_FMT_YUYV 320 240 30 1 2 "Edges") false demoEngine).1
      (Or.inl ⟨hin, rfl⟩)⟩

/-- C17: take an engine in which mass-storage mode excludes a loaded module (as
`startMassStorageMode` arranges on the A33 build) and a constructor that does not hand out
the instance that is loaded.  After `setFormatInternal`, for a full change or a reload and
whatever module the mapping names, the engine holds no module or the instance that the
constructor assigned; the instance that was loaded before the call is not the module of the
engine any more. -/
theorem setFormatInternal_replaces_module (p : Platform) (env : EngineEnv) (m : VideoMapping)
    (reload : Bool) (e : Engine)
    (hinv : p.a33 = true → e.itsMassStorageMode = true → e.itsModule = none)
    (hfresh : ∀ i, (env.construction m).assigned = some i → e.itsModule ≠ some i) :
    ((setFormatInternal p env m reload e).state.itsModule = none ∨
      ((setFormatInternal p env m reload e).state.itsModule = (env.construction m).assigned ∧
        EngineCall.constructModule m ∈ (setFormatInternal p env m reload e).calls)) ∧
    (∀ old, e.itsModule = some old →
      (setFormatInternal p env m reload e).state.itsModule ≠ some old ∧
      EngineCall.removeComponent old ∈ (setFormatInternal p env m reload e).calls) := by
  have key : (setFormatInternal p env m reload e).state.itsModule = none ∨
      ((setFormatInternal p env m reload e).state.itsModule = (env.construction m).assigned ∧
        EngineCall.constructModule m ∈ (setFormatInternal p env m reload e).calls) := by
    unfold setFormatInternal
    by_cases hms : p.a33 = true ∧ e.itsMassStorageMode = true
    · left
      simpa [hms] using hinv hms.1 hms.2
    · simp only [hms, if_false]
      split
      · left; rfl
      · split
        · left; rfl
        · cases hcon : env.construction m <;>
            simp [removeComponent, Construction.assigned]
  refine ⟨key, ?_⟩
  intro old hold
  constructor
  · rcases key with h | ⟨h, _⟩
    · rw [h]; simp
    · rw [h]
      intro hc
      exact hfresh old hc hold
  · have hms : ¬ (p.a33 = true ∧ e.itsMassStorageMode = true) := by
      intro h
      have := hinv h.1 h.2
      rw [hold] at this
      cases this
    unfold setFormatInternal
    simp only [hms, if_false, hold]
    split
    · simp
    · split
      · simp
      · cases hcon : env.construction m <;> simp

/-- C17 at a concrete call: a reload of the current mapping on an engine that holds module
instance 3 ends with the newly constructed instance 7. -/
theorem setFormatInternal_replaces_module_witness :
    (setFormatInternal demoPlatform demoEnv demoEngine.itsCurrentMapping true
        demoEngine).state.itsModule = some 7 ∧
    (setFormatInternal demoPlatform demoEnv demoEngine.itsCurrentMapping true
        demoEngine).state.itsModule ≠ some 3 ∧
    EngineCall.removeComponent 3
      ∈ (setFormatInternal demoPlatform demoEnv demoEngine.itsCurrentMapping true
          demoEngine).calls :=
  ⟨by simp [setFormatInternal, demoPlatform, demoEnv, demoEngine],
   (setFormatInternal_replaces_module demoPlatform demoEnv demoEngine.itsCurrentMapping true
      demoEngine (by decide) (by decide)).2 3 rfl⟩

/-- C18 as worded fails: with no GUI helper and every device call succeeding, a streaming
engine whose current mapping outputs YUYV is asked for mapping 1000 of a table of four.
`Engine::setFormat` rejects the index, the devices are stopped, and the engine ends not
streaming although its current mapping still has an output format other than NONE. -/
theorem serviceFormatRequest_bad_index_counterexample :
    demoEngine.itsMappings.length = 4 ∧
    (serviceFormatRequest demoPlatform demoEnv
        (Engine.requestSetFormat 1000 demoEngine)).state.itsStreaming = false ∧
    (serviceFormatRequest demoPlatform demoEnv
        (Engine.requestSetFormat 1000 demoEngine)).state.itsCurrentMapping.ofmt
      = V4L2_PIX_FMT_YUYV ∧
    V4L2_PIX_FMT_YUYV ≠ 0 ∧
    (serviceFormatRequest demoPlatform demoEnv
        (Engine.requestSetFormat 1000 demoEngine)).state.itsRequestedFormat = -2 := by
  decide

/-- C18, amended: let the main loop service a pending format request with no GUI helper
active, the engine not in mass-storage mode and every device call succeeding.  For a full
change to an index inside the mapping table, the gadget and the camera are aborted and
stopped first if the engine was streaming, then the old module is removed, the camera and
the gadget are given the new format and the module is constructed, and the devices are
started when the new mapping has an output format other than NONE; afterwards the current
mapping is the requested one and the streaming flag is true exactly when its output format
is not NONE.  For a reload request (-1) the streaming flag is unchanged and the only calls
are the removal of the old module and the construction of the new one.  In both cases the
pending request is reset to -2. -/
theorem serviceFormatRequest_streaming (p : Platform) (env : EngineEnv) (e : Engine)
    (hgui : p.pro = false ∨ e.itsGUIhelper = false)
    (hms : ¬ (p.a33 = true ∧ e.itsMassStorageMode = true))
    (hon : env.cameraStreamOnOk = true ∧ env.gadgetStreamOnOk = true)
    (hoff : env.cameraStreamOffOk = true ∧ env.gadgetStreamOffOk = true)
    (hfmt : ∀ m, env.cameraSetFormatOk m = true ∧ env.gadgetSetFormatOk m = true) :
    (∀ (idx : Nat) (m : VideoMapping), idx < 2 ^ 31 → e.itsRequestedFormat = (idx : Int) →
      e.itsMappings[idx]? = some m →
      (serviceFormatRequest p env e).calls =
        (if e.itsStreaming then
          [EngineCall.gadgetAbortStream, EngineCall.cameraAbortStream,
           EngineCall.gadgetStreamOff, EngineCall.cameraStreamOff]
         else [])
        ++ (match e.itsModule with
            | some i => [EngineCall.removeComponent i]
            | none => [])
        ++ [EngineCall.cameraSetFormat m, EngineCall.gadgetSetFormat m,
            EngineCall.constructModule m]
        ++ (if m.ofmt ≠ 0 then [EngineCall.cameraStreamOn, EngineCall.gadgetStreamOn]
            else []) ∧
      (serviceFormatRequest p env e).state.itsCurrentMapping = m ∧
      ((serviceFormatRequest p env e).state.itsStreaming = true ↔
        (serviceFormatRequest p env e).state.itsCurrentMapping.ofmt ≠ 0) ∧
      (serviceFormatRequest p env e).state.itsRequestedFormat = -2) ∧
    (e.itsRequestedFormat = -1 →
      (serviceFormatRequest p env e).state.itsStreaming = e.itsStreaming ∧
      (serviceFormatRequest p env e).calls =
        (match e.itsModule with
         | some i => [EngineCall.removeComponent i]
         | none => [])
        ++ [EngineCall.constructModule e.itsCurrentMapping] ∧
      (serviceFormatRequest p env e).state.itsRequestedFormat = -2) := by
  constructor
  · intro idx m hidx hrf hm
    have h1 : toSizeT (idx : Int) = idx := by
      have : (2 : Int) ^ 64 = 18446744073709551616 := by norm_num
      have h31 : (2 : Nat) ^ 31 = 2147483648 := by norm_num
      unfold toSizeT
      rw [this]
      omega
    have h2 : (idx : Int) ≠ -2 := by omega
    have h3 : (idx : Int) ≠ -1 := by omega
    obtain ⟨a1, a2, a3, a4, a5, a6⟩ := setFormatInternal_accepted p env m false
      { e with itsRequestedFormat := -2, itsStreaming := false } hms (fun _ => hfmt m)
    have hR : Engine.setFormat p env (toSizeT (idx : Int))
        { ({ e with itsRequestedFormat := -2 } : Engine) with itsStreaming := false }
        = setFormatInternal p env m false
            { e with itsRequestedFormat := -2, itsStreaming := false } := by
      rw [h1]
      simp only [Engine.setFormat, hm]
    have hrun := changeFormat_full p env (idx : Int) { e with itsRequestedFormat := -2 } _
      h3 hon hoff hR a1 (by rw [a4]; exact hgui)
    have hsvc : serviceFormatRequest p env e
        = changeFormat p env (idx : Int) { e with itsRequestedFormat := -2 } := by
      simp only [serviceFormatRequest, hrf, h2, if_false, hrun]
    rw [hsvc, hrun, a2, a6]
    by_cases ho : m.ofmt = 0
    · simp [ho, a2, a3, a5]
    · simp [ho, a2, a3, a5]
  · intro hrf
    obtain ⟨a1, a2, a3, a4, a5, a6⟩ := setFormatInternal_accepted p env e.itsCurrentMapping
      true { e with itsRequestedFormat := -2 } hms (fun h => by cases h)
    have hrun : (serviceFormatRequest p env e).state =
          (setFormatInternal p env e.itsCurrentMapping true
            { e with itsRequestedFormat := -2 }).state ∧
        (serviceFormatRequest p env e).calls =
          (setFormatInternal p env e.itsCurrentMapping true
            { e with itsRequestedFormat := -2 }).calls := by
      rcases hgui with hg | hg
      · simp [serviceFormatRequest, changeFormat, EngineResult.andThen, hrf, a1, hg]
      · have hg2 : (setFormatInternal p env e.itsCurrentMapping true
            { e with itsRequestedFormat := -2 }).state.itsGUIhelper = false := by
          rw [a4]; exact hg
        simp [serviceFormatRequest, changeFormat, EngineResult.andThen, hrf, a1, hg2]
    rw [hrun.1, hrun.2]
    exact ⟨a3, by simpa using a6, a5⟩

/-- C18, amended, at a concrete request: the streaming demo engine is asked for mapping 3
of its table (YUYV 320 by 240).  The devices are stopped, module 3 is removed, the format is
set, the module is constructed and the devices are started again. -/
theorem serviceFormatRequest_streaming_witness :
    (serviceFormatRequest demoPlatform demoEnv (Engine.requestSetFormat 3 demoEngine)).calls =
      [EngineCall.gadgetAbortStream, EngineCall.cameraAbortStream,
       EngineCall.gadgetStreamOff, EngineCall.cameraStreamOff,
       EngineCall.removeComponent 3,
       EngineCall.cameraSetFormat (demoMapping V4L2_PIX_FMT_YUYV 320 240 30 1 2 "Edges"),
       EngineCall.gadgetSetFormat (demoMapping V4L2_PIX_FMT_YUYV 320 240 30 1 2 "Edges"),
       EngineCall.constructModule (demoMapping V4L2_PIX_FMT_YUYV 320 240 30 1 2 "Edges"),
       EngineCall.cameraStreamOn, EngineCall.gadgetStreamOn] ∧
    (serviceFormatRequest demoPlatform demoEnv
        (Engine.requestSetFormat 3 demoEngine)).state.itsCurrentMapping
      = demoMapping V4L2_PIX_FMT_YUYV 320 240 30 1 2 "Edges" ∧
    ((serviceFormatRequest demoPlatform demoEnv
        (Engine.requestSetFormat 3 demoEngine)).state.itsStreaming = true ↔
      (serviceFormatRequest demoPlatform demoEnv
        (Engine.requestSetFormat 3 demoEngine)).state.itsCurrentMapping.ofmt ≠ 0) ∧
    (serviceFormatRequest demoPlatform demoEnv
        (Engine.requestSetFormat 3 demoEngine)).state.itsRequestedFormat = -2 := by
  have h := (serviceFormatRequest_streaming demoPlatform demoEnv
    (Engine.requestSetFormat 3 demoEngine) (Or.inl rfl) (by decide) ⟨rfl, rfl⟩ ⟨rfl, rfl⟩
    (fun _ => ⟨rfl, rfl⟩)).1 3 (demoMapping V4L2_PIX_FMT_YUYV 320 240 30 1 2 "Edges")
    (by decide) rfl rfl
  refine ⟨?_, h.2⟩
  rw [h.1]
  simp [Engine.requestSetFormat, demoEngine, demoMapping, V4L2_PIX_FMT_YUYV]

/-- C20 as worded fails: the lines of an interface are read in a `while` loop.  With two
lines waiting at the only interface, one iteration of the main loop dispatches both to
`parseCommand`, in order, and leaves none waiting. -/
theorem serial_two_lines_counterexample :
    demoPort.pending = ["help", "info"] ∧
    (mainLoopIteration demoPlatform demoEnv [demoPort] demoIdle).calls
      = [EngineCall.parseCommand 0 "help" "", EngineCall.writeString 0 "" "OK",
         EngineCall.parseCommand 0 "info" "", EngineCall.writeString 0 "" "OK"] ∧
    (mainLoopIteration demoPlatform demoEnv [demoPort] demoIdle).ret
      = Outcome.ok [{ demoPort with pending := [] }] := by
  decide

/-- C20, amended: in one iteration of the main loop, the lines that wait at an interface
are read one after the other and each line read is dispatched to `parseCommand`, with the
hidden prefix split off, in arrival order.  Lines are left for a later iteration only when
a write to the interface throws, and then exactly the lines after the one being served;
when writing succeeds, no line is left.  With every interface accepting writes, the loop
over the interfaces empties them all. -/
theorem serviceLines_dispatches_all (p : Platform) (env : EngineEnv) (port : Nat)
    (s : UserInterface) (received : Nat) (lines : List String) (e : Engine)
    (serials : List UserInterface) :
    (∃ k, k ≤ lines.length ∧
      (serviceLines p env port s received lines e).calls.filterMap EngineCall.dispatched
        = (lines.take k).map (fun l => (commandText env l, commandPrefix env l)) ∧
      (serviceLines p env port s received lines e).remaining = lines.drop k ∧
      (s.writeOk = true → k = lines.length)) ∧
    ((∀ t ∈ serials, t.writeOk = true) →
      (serviceSerials p env port serials e).ret
        = Outcome.ok (serials.map (fun t => { t with pending := [] })) ∧
      (serviceSerials p env port serials e).calls.filterMap EngineCall.dispatched
        = (serials.map (fun t => t.pending)).flatten.map
            (fun l => (commandText env l, commandPrefix env l))) := by
  refine ⟨serviceLines_served p env port s lines received e, ?_⟩
  intro hall
  induction serials generalizing port e with
  | nil => exact ⟨rfl, rfl⟩
  | cons t more ih =>
    have ht : t.writeOk = true := hall t (List.mem_cons_self _ _)
    obtain ⟨k, _, h1, h2, h3⟩ := serviceLines_served p env port t t.pending 0 e
    have hk := h3 ht
    subst hk
    obtain ⟨i1, i2⟩ := ih (port + 1) (serviceLines p env port t 0 t.pending e).state
      (fun u hu => hall u (List.mem_cons_of_mem _ hu))
    constructor
    · simp only [serviceSerials, i1, h2, List.drop_length, List.map_cons]
    · simp only [serviceSerials, List.filterMap_append, h1, i2, List.take_length, List.map_cons,
        List.flatten_cons, List.map_append]

/-- C20, amended, at a concrete interface: both lines that wait at the demo interface are
dispatched and none is left. -/
theorem serviceLines_dispatches_all_witness :
    (∀ t ∈ [demoPort], t.writeOk = true) ∧
    (serviceSerials demoPlatform demoEnv 0 [demoPort] demoIdle).ret
      = Outcome.ok ([demoPort].map (fun t => { t with pending := [] })) ∧
    (serviceSerials demoPlatform demoEnv 0 [demoPort] demoIdle).calls.filterMap
        EngineCall.dispatched
      = (([demoPort].map (fun t => t.pending)).flatten).map
          (fun l => (commandText demoEnv l, commandPrefix demoEnv l)) :=
  ⟨by decide,
   (serviceLines_dispatches_all demoPlatform demoEnv 0 demoPort 0 demoPort.pending demoIdle
      [demoPort]).2 (by decide)⟩

/-- C21: the dispatch of one line received on a serial interface.  After the optional
warning about a high input rate, `parseCommand` is called once with the command and prefix
of the line, and what follows is decided by its result.  (i) It returned true: "OK" is
written unless quiet or shell mode is on, and the module is not asked.  (ii) It threw: one
reply starting with "ERR " is written, the message of a standard exception or "Unknown
error", and the module is not asked.  (iii) It returned false: with no module loaded, "ERR
Unsupported command [...] and no module" is written; with a module loaded the command goes
to its `parseSerial`, followed by "OK" when that returns and by an "ERR " reply when it
throws. -/
theorem serviceLine_three_outcomes (p : Platform) (env : EngineEnv) (port : Nat)
    (s : UserInterface) (received : Nat) (line : String) (e : Engine) :
    ∃ W : List EngineCall, (∀ c ∈ W, c.isWarning = true) ∧
      ((env.parseCommand e (commandText env line) (commandPrefix env line)).2
          = ParseOutcome.handled →
        (serviceLine p env port s received line e).calls =
          W ++ [EngineCall.parseCommand port (commandText env line) (commandPrefix env line)]
            ++ okReply port (commandPrefix env line)
                (env.parseCommand e (commandText env line) (commandPrefix env line)).1) ∧
      (∀ x, (env.parseCommand e (commandText env line) (commandPrefix env line)).2
          = ParseOutcome.threw x →
        (serviceLine p env port s received line e).calls =
          W ++ [EngineCall.parseCommand port (commandText env line) (commandPrefix env line),
                EngineCall.writeString port (commandPrefix env line)
                  (if x.isStd then "ERR " ++ env.what x else "ERR Unknown error")]) ∧
      ((env.parseCommand e (commandText env line) (commandPrefix env line)).2
          = ParseOutcome.notRecognized →
        ((env.parseCommand e (commandText env line) (commandPrefix env line)).1.itsModule = none →
          (serviceLine p env port s received line e).calls =
            W ++ [EngineCall.parseCommand port (commandText env line) (commandPrefix env line),
                  EngineCall.writeString port (commandPrefix env line)
                    ("ERR Unsupported command [" ++ commandText env line
                      ++ "] and no module")]) ∧
        (∀ i, (env.parseCommand e (commandText env line)
              (commandPrefix env line)).1.itsModule = some i →
          (env.parseSerial i (commandText env line) = Outcome.ok () →
            (serviceLine p env port s received line e).calls =
              W ++ [EngineCall.parseCommand port (commandText env line)
                      (commandPrefix env line),
                    EngineCall.parseSerial i port (commandText env line)]
                ++ okReply port (commandPrefix env line)
                    (env.parseCommand e (commandText env line) (commandPrefix env line)).1) ∧
          (∀ x, env.parseSerial i (commandText env line) = Outcome.threw x →
            (serviceLine p env port s received line e).calls =
              W ++ [EngineCall.parseCommand port (commandText env line)
                      (commandPrefix env line),
                    EngineCall.parseSerial i port (commandText env line),
                    EngineCall.writeString port (commandPrefix env line)
                      (if x.isStd then "ERR " ++ env.what x
                       else "ERR Command [" ++ commandText env line
                         ++ "] not recognized by Engine or Module")]))) ∧
      (((env.parseCommand e (commandText env line) (commandPrefix env line)).2
            = ParseOutcome.handled ∨
          ∃ x, (env.parseCommand e (commandText env line) (commandPrefix env line)).2
            = ParseOutcome.threw x) →
        ∀ i t, EngineCall.parseSerial i port t
          ∉ (serviceLine p env port s received line e).calls) := by
  refine ⟨if received % 10 = 0 then
      (reportError p ("Warning: high rate of serial inputs on port: " ++ s.instanceName
        ++ ". \n\n" ++ "This may adversely affect JeVois framerate.") e).calls
    else [], ?_, ?_⟩
  · intro c hc
    by_cases hw : received % 10 = 0
    · by_cases hgg : p.pro = true ∧ e.itsGUIhelper = true
      · simp only [hw, hgg, reportError, if_true, and_self, List.cons_append, List.nil_append,
          List.mem_cons, List.mem_singleton, List.not_mem_nil, or_false] at hc
        rcases hc with rfl | rfl | rfl <;> rfl
      · simp only [hw, hgg, reportError, if_true, if_false, List.cons_append, List.nil_append,
          List.append_nil, List.mem_cons, List.mem_singleton, List.not_mem_nil, or_false] at hc
        rcases hc with rfl | rfl <;> rfl
    · simp [hw] at hc
  · unfold serviceLine
    by_cases hgg : p.pro = true ∧ e.itsGUIhelper = true <;>
    by_cases hw : received % 10 = 0 <;> cases hwr : s.writeOk <;>
      cases hp : (env.parseCommand e (commandText env line) (commandPrefix env line)).2 with
      | handled =>
        by_cases hq : (env.parseCommand e (commandText env line)
              (commandPrefix env line)).1.quietcmd = false ∧
            (env.parseCommand e (commandText env line) (commandPrefix env line)).1.itsShellMode
              = false <;>
        simp [EngineResult.andThen, reportError, writeString, okReply, hgg, hw, hwr, hp, hq]
      | threw x =>
        simp [EngineResult.andThen, reportError, writeString, okReply, hgg, hw, hwr, hp]
      | notRecognized =>
        cases hm : (env.parseCommand e (commandText env line)
            (commandPrefix env line)).1.itsModule with
        | none =>
          simp [EngineResult.andThen, reportError, writeString, okReply, hgg, hw, hwr, hp, hm]
        | some i =>
          cases hs : env.parseSerial i (commandText env line) with
          | threw x =>
            simp [EngineResult.andThen, reportError, writeString, okReply, hgg, hw, hwr, hp,
              hm, hs]
          | ok u =>
            by_cases hq : (env.parseCommand e (commandText env line)
                  (commandPrefix env line)).1.quietcmd = false ∧
                (env.parseCommand e (commandText env line)
                  (commandPrefix env line)).1.itsShellMode = false <;>
            simp [EngineResult.andThen, reportError, writeString, okReply, hgg, hw, hwr, hp,
              hm, hs, hq]

/-! ## C22: an exception of the module inside the main loop -/

/-- C23 (counterexample): the gadget loop, started with the running flag set and never stopped
by its owner, is left in the second iteration when `select` fails with an error other than
`EINTR` (the `break` of Gadget.C line 263); the third iteration is not run. -/
theorem gadget_select_failure_counterexample :
    GadgetTurn.ownerStops ∉ [demoSelectTimeout, demoSelectFails, demoSelectTimeout] ∧
    (GadgetThread.run (fun _ g => g) demoGadgetThread
        [demoSelectTimeout, demoSelectFails, demoSelectTimeout]).exited = true ∧
    (GadgetThread.run (fun _ g => g) demoGadgetThread
        [demoSelectTimeout, demoSelectFails, demoSelectTimeout]).iterations = 1 := by
  decide

/-- C23 (amended): started with the running flag set, the loop of `CameraDevice::run` runs every
iteration whatever goes wrong in it (failed locks, failed `select`, error event, failed dequeue)
as long as the owner does not clear the flag, and is left at the first loop test after the flag
was cleared.  The loop of `Gadget::run` does the same as long as `select` does not fail with an
error other than `EINTR`; such a failure leaves the loop, and a loop that was left met either
that failure or a flag cleared by the owner. -/
theorem poll_loops_exit_conditions (handle : Nat → Gadget → Gadget) (cam : CameraThread)
    (gt : GadgetThread) (hc : cam.state.itsRunning = true) (hce : cam.exited = false)
    (hg : gt.itsRunning = true) (hge : gt.exited = false) :
    (∀ turns : List CameraTurn, CameraTurn.ownerStops ∉ turns →
      (cam.run turns).exited = false ∧
      (cam.run turns).iterations = cam.iterations + turns.length) ∧
    (∀ (turns : List CameraTurn) (la : LockAnswers) (ev : PollEvent),
      (cam.run (turns ++ [CameraTurn.ownerStops, CameraTurn.iteration la ev])).exited = true) ∧
    (∀ turns : List GadgetTurn, GadgetTurn.ownerStops ∉ turns →
      (∀ x ∈ turns, x.selectBreaks = false) →
      (gt.run handle turns).exited = false ∧
      (gt.run handle turns).iterations = gt.iterations + turns.length) ∧
    (∀ turns : List GadgetTurn, (gt.run handle turns).exited = true →
      GadgetTurn.ownerStops ∈ turns ∨ ∃ x ∈ turns, x.selectBreaks = true) ∧
    (∀ (turns : List GadgetTurn) (a : GadgetAnswers), GadgetTurn.ownerStops ∉ turns →
      (∀ x ∈ turns, x.selectBreaks = false) → a.select = GadgetSelect.failed false →
      (gt.run handle (turns ++ [GadgetTurn.iteration a])).exited = true) := by
  refine ⟨?_, ?_, ?_, ?_, ?_⟩
  · intro turns hn
    have h := cameraThread_keeps_running turns cam hc hce hn
    exact ⟨h.1, h.2.2⟩
  · intro turns la ev
    exact cameraThread_exits_after_stop turns cam la ev
  · intro turns hn hb
    have h := gadgetThread_keeps_running handle turns gt hg hge hn hb
    exact ⟨h.1, h.2.2⟩
  · intro turns hx
    exact gadgetThread_exit_cause handle turns gt hg hge hx
  · intro turns a hn hb ha
    exact (gadgetThread_breaks handle turns gt a hg hge hn hb ha).1

/-- C23 (witness): the demo camera thread runs all four faulty iterations of `demoFaultyTurns`
and is still in its loop; the demo gadget thread runs two iterations with a timeout and is still
in its loop. -/
theorem poll_loops_exit_conditions_witness :
    ((demoCameraThread.run demoFaultyTurns).exited = false ∧
      (demoCameraThread.run demoFaultyTurns).iterations = 0 + demoFaultyTurns.length) ∧
    ((demoGadgetThread.run (fun _ g => g) [demoSelectTimeout, demoSelectTimeout]).exited = false ∧
      (demoGadgetThread.run (fun _ g => g) [demoSelectTimeout, demoSelectTimeout]).iterations
        = 0 + [demoSelectTimeout, demoSelectTimeout].length) :=
  ⟨(poll_loops_exit_conditions (fun _ g => g) demoCameraThread demoGadgetThread
      rfl rfl rfl rfl).1 demoFaultyTurns (by decide),
   (poll_loops_exit_conditions (fun _ g => g) demoCameraThread demoGadgetThread
      rfl rfl rfl rfl).2.2.1 [demoSelectTimeout, demoSelectTimeout] (by decide) (by decide)⟩

/-! ## C24: round trip of format changes -/

/-- C24: when the format change for mapping A succeeds on a system (no mass storage mode, camera
and gadget accept A, the module of A is constructed as instance `i`), then changing to A, to any
mapping B (accepted or not) and to A again gives the same engine, camera and gadget as changing
to A once.  In that state the capture devices are those that `Camera::setFormat` opens anew for
A, the gadget has the output format and rate of A, the current mapping is A, the construction
error is empty, the frame counter is 0 and the module is instance `i`; the last change returns
normally and ends with the construction of the module of A. -/
theorem format_change_round_trip (p : Platform) (platformPro : Bool) (cenv : CameraEnv)
    (sfmtOk : VideoMapping → Bool) (env : EngineEnv) (A B : VideoMapping) (sys : System)
    (i : Nat)
    (hms : ¬ (p.a33 = true ∧ sys.engine.itsMassStorageMode = true))
    (hcam : (Camera.setFormat p platformPro cenv A sys.camera).2 = Outcome.ok ())
    (hgad : A.ofmt = 0 ∨ sfmtOk A = true)
    (hcon : env.construction A = Construction.ready i) :
    System.afterFormat p platformPro cenv sfmtOk env A
        (System.afterFormat p platformPro cenv sfmtOk env B
          (System.afterFormat p platformPro cenv sfmtOk env A sys))
      = System.afterFormat p platformPro cenv sfmtOk env A sys ∧
    (System.afterFormat p platformPro cenv sfmtOk env A sys).camera.formatState
      = (Camera.setFormat p platformPro cenv A sys.camera).1.formatState ∧
    (System.afterFormat p platformPro cenv sfmtOk env A sys).gadget.itsFormat
      = { width := A.ow, height := A.oh, pixelformat := A.ofmt } ∧
    (System.afterFormat p platformPro cenv sfmtOk env A sys).gadget.itsFps = A.ofps ∧
    (System.afterFormat p platformPro cenv sfmtOk env A sys).engine.itsCurrentMapping = A ∧
    (System.afterFormat p platformPro cenv sfmtOk env A sys).engine.itsModuleConstructionError
      = "" ∧
    (System.afterFormat p platformPro cenv sfmtOk env A sys).engine.frameNumber = 0 ∧
    (System.afterFormat p platformPro cenv sfmtOk env A sys).engine.itsModule = some i ∧
    (System.setFormatInternal p platformPro cenv sfmtOk env A false
        (System.afterFormat p platformPro cenv sfmtOk env B
          (System.afterFormat p platformPro cenv sfmtOk env A sys))).ret = Outcome.ok () ∧
    (System.setFormatInternal p platformPro cenv sfmtOk env A false
        (System.afterFormat p platformPro cenv sfmtOk env B
          (System.afterFormat p platformPro cenv sfmtOk env A sys))).calls.getLast?
      = some (EngineCall.constructModule A) := by
  have h1 := afterFormat_rest p platformPro cenv sfmtOk env A sys
  have h2 := afterFormat_rest p platformPro cenv sfmtOk env B
    (System.afterFormat p platformPro cenv sfmtOk env A sys)
  have he := h2.1.trans h1.1
  have hg := h2.2.1.trans h1.2.1
  have hn := h2.2.2.trans h1.2.2
  have hfresh := cameraSetFormat_fresh p platformPro cenv A sys.camera _ hn hcam
  have hms2 : ¬ (p.a33 = true ∧ (System.afterFormat p platformPro cenv sfmtOk env B
      (System.afterFormat p platformPro cenv sfmtOk env A sys)).engine.itsMassStorageMode
        = true) := by
    rw [engineRest_massStorage _ _ he]; exact hms
  have honce := systemFormat_accepted p platformPro cenv sfmtOk env A sys i hms hcam
    hgad hcon
  have hlast := systemFormat_accepted p platformPro cenv sfmtOk env A
    (System.afterFormat p platformPro cenv sfmtOk env B
      (System.afterFormat p platformPro cenv sfmtOk env A sys)) i hms2
    (by rw [hfresh]; exact hcam) hgad hcon
  refine ⟨afterFormat_fresh p platformPro cenv sfmtOk env A sys _ i he hg hn hms hcam
    hgad hcon, ?_, ?_, ?_, ?_, ?_, ?_, ?_, ?_, ?_⟩
  · unfold System.afterFormat; rw [honce]
  · unfold System.afterFormat; rw [honce]
  · unfold System.afterFormat; rw [honce]
  · unfold System.afterFormat; rw [honce]
  · unfold System.afterFormat; rw [honce]
  · unfold System.afterFormat; rw [honce]
  · unfold System.afterFormat; rw [honce]
  · rw [hlast]
  · rw [hlast]; simp

/-- C24 (witness): from the demo system, YUYV 640x480 `PassThrough`, then YUYV 320x240 `Edges`
(after which the gadget width is 320), then `PassThrough` again gives the system obtained by
setting `PassThrough` once. -/
theorem format_change_round_trip_witness :
    System.afterFormat demoPlatform false demoCameraEnv (fun _ => true) demoEnv
        (demoMapping V4L2_PIX_FMT_YUYV 640 480 30 1 1 "PassThrough")
        (System.afterFormat demoPlatform false demoCameraEnv (fun _ => true) demoEnv
          (demoMapping V4L2_PIX_FMT_YUYV 320 240 30 1 2 "Edges")
          (System.afterFormat demoPlatform false demoCameraEnv (fun _ => true) demoEnv
            (demoMapping V4L2_PIX_FMT_YUYV 640 480 30 1 1 "PassThrough") demoSystem))
      = System.afterFormat demoPlatform false demoCameraEnv (fun _ => true) demoEnv
          (demoMapping V4L2_PIX_FMT_YUYV 640 480 30 1 1 "PassThrough") demoSystem ∧
    (System.afterFormat demoPlatform false demoCameraEnv (fun _ => true) demoEnv
      (demoMapping V4L2_PIX_FMT_YUYV 320 240 30 1 2 "Edges")
      (System.afterFormat demoPlatform false demoCameraEnv (fun _ => true) demoEnv
        (demoMapping V4L2_PIX_FMT_YUYV 640 480 30 1 1 "PassThrough")
        demoSystem)).gadget.itsFormat.width = 320 :=
  ⟨(format_change_round_trip demoPlatform false demoCameraEnv (fun _ => true) demoEnv
      (demoMapping V4L2_PIX_FMT_YUYV 640 480 30 1 1 "PassThrough")
      (demoMapping V4L2_PIX_FMT_YUYV 320 240 30 1 2 "Edges") demoSystem 7
      (by decide) (by decide) (by decide) rfl).1,
   by decide⟩

/-! ## C25: locks of the camera poll thread -/

/-- C25: in every iteration of `CameraDevice::run`, whatever the locks and the driver answer,
the trace of lock operations and device calls respects the discipline and ends with both locks
released: every device call (re-queue, low-water re-queue, `select`, dequeue) happens with the
device lock held and the output lock free, and the output lock is only taken while the device
lock is not held.  With all locks obtained, the device calls, the state and the caught exception
are those of `runIteration`. -/
theorem poll_iteration_lock_discipline (la : LockAnswers) (s : CameraDevice)
    (doneidx : List Nat) (ev : PollEvent) :
    lockState (false, false) (runLocked la s doneidx ev).trace = some (false, false) ∧
    (∀ pre c post, (runLocked la s doneidx ev).trace = pre ++ LockEvent.device c :: post →
      lockState (false, false) pre = some (true, false)) ∧
    (∀ pre post, (runLocked la s doneidx ev).trace = pre ++ LockEvent.lockOutput :: post →
      lockState (false, false) pre = some (false, false)) ∧
    deviceCalls (runLocked LockAnswers.granted s doneidx ev).trace
      = (runIteration s doneidx ev).calls ∧
    (runLocked LockAnswers.granted s doneidx ev).state = (runIteration s doneidx ev).state ∧
    (runLocked LockAnswers.granted s doneidx ev).caught = (runIteration s doneidx ev).caught := by
  refine ⟨runLocked_lockState la s doneidx ev, ?_, ?_, ?_⟩
  · intro pre c post h
    have := runLocked_lockState la s doneidx ev
    rw [h] at this
    exact lockState_device_held pre post c _ this
  · intro pre post h
    have := runLocked_lockState la s doneidx ev
    rw [h] at this
    exact lockState_output_free pre post _ this
  unfold runLocked runIteration
  simp only [LockAnswers.granted, Bool.true_eq_false, if_false]
  by_cases h3 : (runRequeue (runSwap s doneidx).1 (runSwap s doneidx).2).1.itsStreaming = false
  · simp [h3, deviceCalls_append, deviceCalls_qbufs, deviceCalls]
  simp only [h3, if_false]
  by_cases h4 : lowWater (runRequeue (runSwap s doneidx).1 (runSwap s doneidx).2).1 = true
  · simp only [h4, if_true]
    cases ev with
    | frame index =>
      simp only [runPoll]
      cases hb : (runLowWater (runRequeue (runSwap s doneidx).1 (runSwap s doneidx).2).1).1.itsBuffers with
      | none => simp [deviceCalls_append, deviceCalls_qbufs, deviceCalls]
      | some b =>
        by_cases hi : index < b.size <;>
          simp [hi, deviceCalls_append, deviceCalls_qbufs, deviceCalls]
    | _ => simp [runPoll, deviceCalls_append, deviceCalls_qbufs, deviceCalls]
  · rw [runLowWater_idle _ h4]
    simp only [h4]
    cases ev with
    | frame index =>
      simp only [runPoll]
      cases hb : (runRequeue (runSwap s doneidx).1 (runSwap s doneidx).2).1.itsBuffers with
      | none => simp [deviceCalls_append, deviceCalls_qbufs, deviceCalls]
      | some b =>
        by_cases hi : index < b.size <;>
          simp [hi, deviceCalls_append, deviceCalls_qbufs, deviceCalls]
    | _ => simp [runPoll, deviceCalls_append, deviceCalls_qbufs, deviceCalls]

/-! ## C26: the command `setmapping` -/

/-- C26 (counterexample): an engine whose streaming flag is true while it runs the headless
mapping `SaveVideo` (no USB output) accepts `setmapping 1`: the command returns true, the
current mapping becomes `PassThrough` and module instance 3 is replaced by instance 7. -/
theorem setmapping_while_streaming_counterexample :
    demoHeadlessStreaming.itsStreaming = true ∧
    demoHeadlessStreaming.itsModule = some 3 ∧
    demoHeadlessStreaming.itsCurrentMapping.modulename = "SaveVideo" ∧
    (Engine.parseCommand demoPlatform demoEnv "setmapping 1" "" demoHeadlessStreaming).ret
      = Outcome.ok true ∧
    (Engine.parseCommand demoPlatform demoEnv "setmapping 1" ""
        demoHeadlessStreaming).state.itsCurrentMapping.modulename = "PassThrough" ∧
    (Engine.parseCommand demoPlatform demoEnv "setmapping 1" ""
        demoHeadlessStreaming).state.itsModule = some 7 := by
  decide

/-- C26 (amended): outside shell mode, with a numeric argument, `setmapping` is rejected with
the error `Cannot set mapping while streaming` and leaves the engine untouched exactly when
the engine streams AND the current mapping has a USB output format (`ofmt` not 0).
Otherwise an index at or beyond the number of mappings is rejected with the out-of-range
error and the engine is untouched, and a smaller index runs `setFormatInternal` on that
mapping: the command returns true unless mass storage mode makes it throw, and when camera
and gadget accept the format the current mapping is mapping `num`. -/
theorem setmapping_guard (p : Platform) (env : EngineEnv) (pfx rem : String) (n : Int)
    (e : Engine) (hshell : e.itsShellMode = false) (hn : stoi rem = Outcome.ok n) :
    ((e.itsStreaming = true ∧ e.itsCurrentMapping.ofmt ≠ 0) →
      Engine.parseCommand p env ("setmapping " ++ rem) pfx e
        = { state := e, calls := [],
            ret := Outcome.threw (commandError ("setmapping " ++ rem)
              "Cannot set mapping while streaming: Stop your webcam program on the host computer first.") }) ∧
    (¬ (e.itsStreaming = true ∧ e.itsCurrentMapping.ofmt ≠ 0) →
      e.itsMappings.length ≤ toSizeT n →
      Engine.parseCommand p env ("setmapping " ++ rem) pfx e
        = { state := e, calls := [],
            ret := Outcome.threw (commandError ("setmapping " ++ rem)
              ("Requested mapping index " ++ toString (toSizeT n) ++ " out of range [0 .. "
                ++ toString ((e.itsMappings.length + 2 ^ 64 - 1) % 2 ^ 64) ++ "]")) }) ∧
    (¬ (e.itsStreaming = true ∧ e.itsCurrentMapping.ofmt ≠ 0) →
      ∀ h : toSizeT n < e.itsMappings.length,
        (Engine.parseCommand p env ("setmapping " ++ rem) pfx e).state
          = (setFormatInternal p env (e.itsMappings.get ⟨toSizeT n, h⟩) false e).state ∧
        (Engine.parseCommand p env ("setmapping " ++ rem) pfx e).calls
          = (setFormatInternal p env (e.itsMappings.get ⟨toSizeT n, h⟩) false e).calls ∧
        (¬ (p.a33 = true ∧ e.itsMassStorageMode = true) →
          (Engine.parseCommand p env ("setmapping " ++ rem) pfx e).ret = Outcome.ok true ∧
          (env.cameraSetFormatOk (e.itsMappings.get ⟨toSizeT n, h⟩) = true →
           env.gadgetSetFormatOk (e.itsMappings.get ⟨toSizeT n, h⟩) = true →
           (Engine.parseCommand p env ("setmapping " ++ rem) pfx e).state.itsCurrentMapping
             = e.itsMappings.get ⟨toSizeT n, h⟩))) := by
  rw [parseCommand_setmapping p env pfx rem e hshell]
  refine ⟨?_, ?_, ?_⟩
  · intro hs
    simp only [setmappingCommand, hn, hs, and_self, if_true]
    simp [hs]
  · intro hs hle
    simp only [setmappingCommand, hn]
    rw [if_neg hs, dif_pos hle]
  · intro hs h
    have hle : ¬ e.itsMappings.length ≤ toSizeT n := Nat.not_le.mpr h
    simp only [setmappingCommand, hn]
    rw [if_neg hs, dif_neg hle]
    cases hr : (setFormatInternal p env (e.itsMappings.get ⟨toSizeT n, h⟩) false e).ret with
    | ok v =>
      refine ⟨rfl, rfl, ?_⟩
      intro hms
      refine ⟨rfl, ?_⟩
      intro hc hg
      exact (setFormatInternal_accepted p env _ false e hms (fun _ => ⟨hc, hg⟩)).2.1
    | threw x =>
      refine ⟨rfl, rfl, ?_⟩
      intro hms
      have hok : (setFormatInternal p env (e.itsMappings.get ⟨toSizeT n, h⟩) false e).ret
          = Outcome.ok () := by
        unfold setFormatInternal
        simp only [hms, if_false]
        split_ifs <;> try rfl
        cases env.construction (e.itsMappings.get ⟨toSizeT n, h⟩) <;> rfl
      rw [hok] at hr
      cases hr

/-- C26 (witness): the demo engine, which streams a YUYV mapping, rejects `setmapping 1` and
is unchanged; the same engine when idle ends with mapping 1 as its current mapping. -/
theorem setmapping_guard_witness :
    (Engine.parseCommand demoPlatform demoEnv ("setmapping " ++ "1") "" demoEngine
        = { state := demoEngine, calls := [],
            ret := Outcome.threw (commandError ("setmapping " ++ "1")
              "Cannot set mapping while streaming: Stop your webcam program on the host computer first.") }) ∧
    (Engine.parseCommand demoPlatform demoEnv ("setmapping " ++ "1") "" demoIdle).state.itsCurrentMapping
      = demoIdle.itsMappings.get ⟨toSizeT 1, by decide⟩ :=
  ⟨(setmapping_guard demoPlatform demoEnv "" "1" 1 demoEngine rfl (by decide)).1
      ⟨rfl, by decide⟩,
   (((setmapping_guard demoPlatform demoEnv "" "1" 1 demoIdle rfl (by decide)).2.2
      (by decide) (by decide)).2.2 (by decide)).2 rfl rfl⟩

/-! ## C27: insertion of the default mapping -/

/-- C27 (failing input): on JeVois-Pro with the GUI, a stream with a BGR24 640x480 mapping
(UVC output) and a JVUI mapping gets the default YUYV 640x480 mapping appended all the same:
BGR24 sorts before JVUI, so the last entry of the sorted table has GUI output.  The host is
offered two formats, BGR24 and the inserted YUYV. -/
theorem default_inserted_despite_uvc_output :
    summary (videoMappingsFromStream true true (fun _ => true)
        [demoLine V4L2_PIX_FMT_BGR24 "640" "480" 30 "640" "480" "Convert",
         demoLine JEVOISPRO_FMT_GUI "0" "0" 30 "1920" "1080" "DNN"] 0 true true).1
      = [(V4L2_PIX_FMT_BGR24, 640, 480, "Convert", 1, 1),
         (JEVOISPRO_FMT_GUI, 0, 0, "DNN", 0, 0),
         (V4L2_PIX_FMT_YUYV, 640, 480, "PassThrough", 2, 1)] := by
  decide

/-! ## C28: numbering of the UVC formats and frames -/

/-- C28 (failing input): the line `YUYV -641 -481 30.0 YUYV 640 480 30.0 JeVois PassThrough`
gives an output size of 4294967295 by 4294967295 (640 - 641 and 480 - 481 stored in unsigned
integers), which equals the initial values `~0U` of the size cursor: the frame counter is not
incremented and the mapping, which has UVC output, gets `uvcframe` 0. -/
theorem uvcframe_zero_for_uvc_output :
    summary (videoMappingsFromStream false true (fun _ => true)
        [demoLine V4L2_PIX_FMT_YUYV "-641" "-481" 30 "640" "480" "PassThrough"] 0 true false).1
      = [(V4L2_PIX_FMT_YUYV, 4294967295, 4294967295, "PassThrough", 1, 0)] := by
  decide

/-! ## C29: removal of duplicate mappings -/

/-- C29 (failing input): for the headless lines `SaveVideo`, `Edges`, `SaveVideo`, equal in
all specifications, the returned table keeps both `SaveVideo` entries, which are the same
mapping: only neighbours are compared and `Edges` stands between them.  The same happens
whatever the order of ties in the sort when the output rates are 30.0078125, 30.00390625 and
30: the sort puts `Edges` between two `SaveVideo` entries that `isSameAs` takes for the
same. -/
theorem duplicates_survive_dedupe :
    ((videoMappingsFromStream false true (fun _ => true) demoDuplicateLines 0 true false).1
      = [demoMapping 0 0 0 0 0 0 "SaveVideo", demoMapping 0 0 0 0 0 0 "Edges",
         demoMapping 0 0 0 0 0 0 "SaveVideo",
         { defaultMapping with uvcformat := 1, uvcframe := 1 }] ∧
     (demoMapping 0 0 0 0 0 0 "SaveVideo").isSameAs (demoMapping 0 0 0 0 0 0 "SaveVideo")
      = true) ∧
    ((videoMappingsFromStream false true (fun _ => true) demoNearLines 0 true false).1
      = [demoMapping 0 0 0 (3841 / 128) 0 0 "SaveVideo",
         demoMapping 0 0 0 (7681 / 256) 0 0 "Edges",
         demoMapping 0 0 0 30 0 0 "SaveVideo",
         { defaultMapping with uvcformat := 1, uvcframe := 1 }] ∧
     (demoMapping 0 0 0 (3841 / 128) 0 0 "SaveVideo").isSameAs
        (demoMapping 0 0 0 30 0 0 "SaveVideo") = true) := by
  unfold videoMappingsFromStream
  rw [demoDuplicateLines_parsed, demoNearLines_parsed]
  refine ⟨⟨?_, ?_⟩, ?_, ?_⟩
  · simp [sortMappings, insertSorted, mappingBefore, insertDefault, dedupe, dedupeFrom,
      VideoMapping.isSameAs, VideoMapping.hasSameSpecsAs, adjustRate, assignUvc,
      UvcCursor.start, demoMapping, defaultMapping, VideoMapping.blank, JEVOISPRO_FMT_GUI,
      V4L2_PIX_FMT_YUYV]
  · simp [VideoMapping.isSameAs, VideoMapping.hasSameSpecsAs, demoMapping]
  · norm_num [sortMappings, insertSorted, mappingBefore, insertDefault, dedupe, dedupeFrom,
      VideoMapping.isSameAs, VideoMapping.hasSameSpecsAs, adjustRate, assignUvc,
      UvcCursor.start, demoMapping, defaultMapping, VideoMapping.blank, JEVOISPRO_FMT_GUI,
      V4L2_PIX_FMT_YUYV, abs_lt]
  · norm_num [VideoMapping.isSameAs, VideoMapping.hasSameSpecsAs, demoMapping, abs_lt]

/-! ## C30: round trip of the white balance component control -/

/-- C30 (failing input): with red balance 0x8000 and blue balance 0x1234 the GET_CUR handler
answers the bytes 34 12 00 80, and the data stage of SET_CUR fed with these bytes writes the
32-bit pattern 0xffff8000 (the arithmetic shift of a negative `int`) to the red balance, not
0x8000; the blue balance is written as 0x1234. -/
theorem white_balance_sign_extension :
    demoBalanceWord = { length := 4, data := [0x34, 0x12, 0x00, 0x80] ++ List.replicate 56 0 } ∧
    demoBalanceSetCur.itsEntity = 2 ∧ demoBalanceSetCur.itsControl = 0x0c ∧
    (processEventData demoPlatform demoBalanceCamera demoMappings 1
        (fun _ g => { state := g, calls := [], ret := Outcome.ok () })
        demoBalanceWord demoBalanceSetCur).calls
      = [GadgetCall.cameraSetControl V4L2_CID_RED_BALANCE 0xffff8000,
         GadgetCall.cameraSetControl V4L2_CID_BLUE_BALANCE 0x1234] ∧
    (0xffff8000 : Nat) ≠ 0x8000 := by
  decide

end jevois
